import Mathlib

/-!
Shallow embedding of the DDI-CDI JSON-LD generator
(DDICDI_generator/DDICDI_converter_JSONLD_incremental.py) together with
proofs about its node-generation behaviour.

Python values are modelled exactly where the generator observes them:
the generator looks at dataframe cells only through str(x) and
float(x) / pd.to_numeric(x), at metadata scalars through isinstance
int/float/str checks, comparisons and int(float(x)) truncation, and it
renders row indices and positions with decimal numerals.

Python floats are modelled as exact decimal numbers mant * 10^(-exp);
the generator only compares them and truncates them to int, and every
concrete input exercised below is exactly representable in decimal, so
no binary floating-point rounding is observable in these proofs.
-/

/-! ## Decimal numerals (Python str(int) / str of a row index) -/

/-- The ten decimal digit characters. -/
def digitChar : Nat → Char
  | 0 => '0' | 1 => '1' | 2 => '2' | 3 => '3' | 4 => '4'
  | 5 => '5' | 6 => '6' | 7 => '7' | 8 => '8' | _ => '9'

/-- Numeric value of a digit character. -/
def dval (c : Char) : Nat := c.toNat - 48

theorem dval_digitChar : ∀ n, n < 10 → dval (digitChar n) = n := by decide

theorem digitChar_ne_hyphen : ∀ n, n < 10 → digitChar n ≠ '-' := by decide

/-- Decimal digit expansion with explicit fuel (fuel keeps the
recursion structural, so the kernel can evaluate it). -/
def decChars : Nat → Nat → List Char
  | 0, _ => []
  | fuel+1, n => if n < 10 then [digitChar n] else decChars fuel (n / 10) ++ [digitChar (n % 10)]

/-- Read a digit string back as a number (decoder used to prove the
numeral rendering injective). -/
def readNat (cs : List Char) : Nat := cs.foldl (fun a c => a * 10 + dval c) 0

theorem readNat_append_digit (cs : List Char) (d : Char) :
    readNat (cs ++ [d]) = readNat cs * 10 + dval d := by
  simp [readNat, List.foldl_append]

theorem decChars_read : ∀ fuel n, n < fuel → readNat (decChars fuel n) = n := by
  intro fuel
  induction fuel with
  | zero => omega
  | succ f ih =>
    intro n h
    by_cases h10 : n < 10
    · simpa [decChars, h10, readNat] using dval_digitChar n h10
    · have hdiv : n / 10 < f := by omega
      simp [decChars, h10, readNat_append_digit, ih _ hdiv, dval_digitChar (n % 10) (by omega)]
      omega

theorem decChars_digits : ∀ fuel n c, c ∈ decChars fuel n → ∃ k, k < 10 ∧ c = digitChar k := by
  intro fuel
  induction fuel with
  | zero => intro n c hc; simp [decChars] at hc
  | succ f ih =>
    intro n c hc
    by_cases h10 : n < 10
    · simp [decChars, h10] at hc
      exact ⟨n, h10, hc⟩
    · simp [decChars, h10] at hc
      rcases hc with hc | hc
      · exact ih _ _ hc
      · exact ⟨n % 10, by omega, hc⟩

/-- Decimal rendering of a natural number, identical to Python str(n). -/
def decRepr (n : Nat) : String := ⟨decChars (n+1) n⟩

theorem decRepr_inj : Function.Injective decRepr := by
  intro a b h
  have h2 : decChars (a+1) a = decChars (b+1) b := congrArg String.data h
  have ha := decChars_read (a+1) a (by omega)
  have hb := decChars_read (b+1) b (by omega)
  rw [h2] at ha; omega

theorem decRepr_no_hyphen (n : Nat) : '-' ∉ (decRepr n).data := by
  intro hmem
  obtain ⟨k, hk, he⟩ := decChars_digits (n+1) n _ hmem
  exact digitChar_ne_hyphen k hk he.symm

/-- Decimal rendering of an integer, identical to Python str(n). -/
def intRepr (n : Int) : String :=
  if n < 0 then "-" ++ decRepr n.natAbs else decRepr n.natAbs

/-! ## Token splitting: hyphen-free token followed by a hyphen -/

theorem token_split : ∀ (a : List Char) (b r1 r2 : List Char), '-' ∉ a → '-' ∉ b →
    a ++ '-' :: r1 = b ++ '-' :: r2 → a = b ∧ r1 = r2 := by
  intro a
  induction a with
  | nil =>
    intro b r1 r2 _ hb he
    cases b with
    | nil => simpa using he
    | cons c cs =>
      simp at he
      obtain ⟨h1, h2⟩ := he
      subst h1
      exact absurd (List.mem_cons_self _ _) hb
  | cons c cs ih =>
    intro b r1 r2 ha hb he
    cases b with
    | nil =>
      simp at he
      obtain ⟨h1, h2⟩ := he
      subst h1
      exact absurd (List.mem_cons_self _ _) ha
    | cons d ds =>
      simp at he
      obtain ⟨h1, h2⟩ := he
      have := ih ds r1 r2 (by simp at ha; exact ha.2) (by simp at hb; exact hb.2) h2
      exact ⟨by simp [h1, this.1], this.2⟩

/-- String-level append is determined by the underlying character data. -/
theorem string_append_data (a b : String) : (a ++ b).data = a.data ++ b.data :=
  String.data_append a b

theorem string_append_left_cancel {p a b : String} (h : p ++ a = p ++ b) : a = b := by
  have : p.data ++ a.data = p.data ++ b.data := by
    rw [← string_append_data, ← string_append_data, h]
  exact String.ext (List.append_cancel_left this)

/-! ## Character-level helpers mirroring Python str methods -/

/-- Does the pattern occur at the start of the character list
(model of Python startswith, written structurally so it evaluates). -/
def leadsWith : List Char → List Char → Bool
  | [], _ => true
  | _ :: _, [] => false
  | p :: ps, c :: cs => p == c && leadsWith ps cs

/-- Does the pattern occur anywhere in the character list
(model of the Python "in" substring test). -/
def hasSub (pat : List Char) : List Char → Bool
  | [] => pat.isEmpty
  | c :: cs => leadsWith pat (c :: cs) || hasSub pat cs

/-- Substring test on strings. -/
def strHas (s pat : String) : Bool := hasSub pat.data s.data

/-- ASCII lowercase of one character (model of Python str.lower on the
ASCII type tags the generator receives). -/
def lcChar (c : Char) : Char :=
  if 'A' ≤ c && c ≤ 'Z' then Char.ofNat (c.toNat + 32) else c

/-- ASCII lowercase of a string. -/
def lcStr (s : String) : String := ⟨s.data.map lcChar⟩

theorem leadsWith_append (p r : List Char) : leadsWith p (p ++ r) = true := by
  induction p with
  | nil => simp [leadsWith]
  | cons c cs ih => simp [leadsWith, ih]

/-! ## Python numbers: exact decimals -/

/-- Exact decimal number mant * 10^(-exp): the model of a Python float.
The generator only compares floats, truncates them with int(...), and
renders them with str(...); all concrete inputs below are exactly
representable, so binary rounding never shows up. -/
structure Dec where
  mant : Int
  exp : Nat
deriving DecidableEq

/-- Value comparison of two decimals (cross-multiplied). -/
def Dec.le (a b : Dec) : Bool := a.mant * (10:Int)^b.exp ≤ b.mant * (10:Int)^a.exp

/-- Strict value comparison. -/
def Dec.lt (a b : Dec) : Bool := a.mant * (10:Int)^b.exp < b.mant * (10:Int)^a.exp

/-- Value equality of two decimals (Python == across int/float). -/
def Dec.eqv (a b : Dec) : Bool := a.mant * (10:Int)^b.exp == b.mant * (10:Int)^a.exp

/-- Python int(x) on a float: truncation toward zero. -/
def Dec.toIntTrunc (d : Dec) : Int := d.mant.tdiv ((10:Int)^d.exp)

/-- Strip trailing fractional zeros (recursion on the exponent). -/
def decNormAux : Int → Nat → Dec
  | m, 0 => ⟨m, 0⟩
  | m, e+1 => if m % 10 == 0 then decNormAux (m / 10) e else ⟨m, e+1⟩

/-- Python str(x) of a float: normalized decimal with at least one
fractional digit (str(98.0) is "98.0", str(98.5) is "98.5"). -/
def Dec.render (d : Dec) : String :=
  let n := decNormAux d.mant d.exp
  let sign := if n.mant < 0 then "-" else ""
  let digits := (decRepr n.mant.natAbs).data
  if n.exp == 0 then sign ++ ⟨digits⟩ ++ ".0"
  else
    let padded := if digits.length ≤ n.exp then List.replicate (n.exp + 1 - digits.length) '0' ++ digits else digits
    sign ++ ⟨padded.take (padded.length - n.exp)⟩ ++ "." ++ ⟨padded.drop (padded.length - n.exp)⟩

/-- A Python number as pandas sees it: int64-tagged or float64-tagged.
The tag is what pd.to_numeric infers from the text. -/
inductive PyNum where
  | I : Int → PyNum
  | F : Dec → PyNum
deriving DecidableEq

/-- Numeric value of a Python number. -/
def PyNum.toDec : PyNum → Dec
  | .I n => ⟨n, 0⟩
  | .F d => d

/-- Is the number float-tagged. -/
def PyNum.isF : PyNum → Bool
  | .I _ => false
  | .F _ => true

def PyNum.neg : PyNum → PyNum
  | .I n => .I (-n)
  | .F d => .F ⟨-d.mant, d.exp⟩

/-! ## Python scalars -/

/-- A Python scalar as it appears in metadata and dataframe cells:
the generator distinguishes exactly int / float / str via isinstance. -/
inductive PyScalar where
  | int_ : Int → PyScalar
  | float_ : Dec → PyScalar
  | str_ : String → PyScalar
deriving DecidableEq

/-- The isinstance(x, float) test used to select numeric missing ranges. -/
def PyScalar.isFloat : PyScalar → Bool
  | .float_ _ => true
  | _ => false

/-- The isinstance(x, str) test. -/
def PyScalar.isStr : PyScalar → Bool
  | .str_ _ => true
  | _ => false

/-- The isinstance(x, (int, float)) test. -/
def PyScalar.isNum : PyScalar → Bool
  | .int_ _ => true
  | .float_ _ => true
  | _ => false

/-- Python str(x) of a scalar. -/
def pyStr : PyScalar → String
  | .int_ n => intRepr n
  | .float_ d => d.render
  | .str_ s => s

def allDigitChars (cs : List Char) : Bool := cs.all (fun c => '0' ≤ c && c ≤ '9')

/-- Python str.isnumeric for the ASCII strings appearing here:
nonempty and all decimal digits. -/
def pyIsNumeric (s : String) : Bool := !s.data.isEmpty && allDigitChars s.data

/-- Split a character list at the first dot, if any. -/
def splitDot : List Char → List Char × Option (List Char)
  | [] => ([], none)
  | c :: t =>
    if c == '.' then ([], some t)
    else
      let r := splitDot t
      (c :: r.1, r.2)

/-- Parse an unsigned decimal literal the way float(...) / pd.to_numeric
accept it: digits, or digits with one dot; the int/float tag follows the
presence of a dot as pd.to_numeric infers it. -/
def parseUnsigned (cs : List Char) : Option PyNum :=
  match splitDot cs with
  | (ip, none) => if !ip.isEmpty && allDigitChars ip then some (.I (readNat ip)) else none
  | (ip, some fp) =>
    if allDigitChars ip && allDigitChars fp && (!ip.isEmpty || !fp.isEmpty) then
      some (.F ⟨(readNat (ip ++ fp) : Int), fp.length⟩)
    else none

/-- Parse a string as Python float(s) / pd.to_numeric(s) does (modulo
exotic forms such as exponents or infinities, which no input here uses). -/
def pyParseStr (s : String) : Option PyNum :=
  match s.data with
  | '-' :: t => (parseUnsigned t).map PyNum.neg
  | '+' :: t => parseUnsigned t
  | cs => parseUnsigned cs

/-- float(x) / pd.to_numeric(x) on a scalar cell; none models the
ValueError / coerced-NaN outcome. -/
def pyParse : PyScalar → Option PyNum
  | .int_ n => some (.I n)
  | .float_ d => some (.F d)
  | .str_ s => pyParseStr s

/-- Numeric value of an int or float scalar; none for strings (a raw
str comparison against a number raises TypeError in Python and the
generator treats such a range as matching nothing). -/
def numDec? : PyScalar → Option Dec
  | .int_ n => some ⟨n, 0⟩
  | .float_ d => some d
  | .str_ _ => none

/-- Python == between scalars: numbers by value, strings by text,
mixed str/number unequal. -/
def pyEqv : PyScalar → PyScalar → Bool
  | .str_ a, .str_ b => a == b
  | .str_ _, _ => false
  | _, .str_ _ => false
  | a, b => ((numDec? a).getD ⟨0,0⟩).eqv ((numDec? b).getD ⟨0,0⟩)

/-- Python <= between scalars of the same kind; a mixed str/number
comparison raises TypeError in Python, modelled as false and excluded by
hypothesis wherever a claim depends on it. -/
def pyLeB : PyScalar → PyScalar → Bool
  | .str_ a, .str_ b => a.data < b.data || a == b
  | .str_ _, _ => false
  | _, .str_ _ => false
  | a, b => ((numDec? a).getD ⟨0,0⟩).le ((numDec? b).getD ⟨0,0⟩)

/-- Python strict < between scalars, same caveats as pyLeB. -/
def pyLtB : PyScalar → PyScalar → Bool
  | .str_ a, .str_ b => a.data < b.data
  | .str_ _, _ => false
  | _, .str_ _ => false
  | a, b => ((numDec? a).getD ⟨0,0⟩).lt ((numDec? b).getD ⟨0,0⟩)

/-- Python min() over a nonempty list (first minimum wins). -/
def pyMin : PyScalar → List PyScalar → PyScalar
  | acc, [] => acc
  | acc, x :: t => pyMin (if pyLtB x acc then x else acc) t

/-- Python max() over a nonempty list (first maximum wins). -/
def pyMax : PyScalar → List PyScalar → PyScalar
  | acc, [] => acc
  | acc, x :: t => pyMax (if pyLtB acc x then x else acc) t

/-- The list of integers range(a, b+1) produces. -/
def intRange (a b : Int) : List Int := (List.range (b + 1 - a).toNat).map (fun i => a + i)

/-! ## Association-list helpers (Python dicts) -/

/-- Python dict lookup returning an option. -/
def alookup {α : Type} (l : List (String × α)) (k : String) : Option α :=
  (l.find? (fun p => p.1 == k)).map Prod.snd

/-- Python "k in dict". -/
def amem {α : Type} (l : List (String × α)) (k : String) : Bool :=
  (alookup l k).isSome

/-- The dict's key list, in insertion order. -/
def akeys {α : Type} (l : List (String × α)) : List String := l.map Prod.fst

/-- Lookup with a default (where the source indexes the dict directly a
missing key would raise KeyError; theorems exercise present keys only). -/
def alookupD {α : Type} (l : List (String × α)) (k : String) (d : α) : α :=
  (alookup l k).getD d

/-! ## Dataset metadata and dataframe -/

/-- A missing-value range descriptor with lo/hi bounds. -/
structure MRange where
  lo : PyScalar
  hi : PyScalar
deriving DecidableEq

/-- The df_meta object consumed by every generator. Role lists model the
hasattr-plus-truthiness pattern: an absent attribute behaves exactly like
an empty list in every generator, so both are modelled as []. -/
structure Meta where
  column_names : List String
  column_labels : List (String × String)
  original_variable_types : List (String × String)
  readstat_variable_types : List (String × String)
  variable_measure : List (String × String)
  variable_value_labels : List (String × List (PyScalar × String))
  missing_ranges : List (String × List MRange)
  missing_user_values : List (String × List PyScalar)
  identifier_vars : List String
  measure_vars : List String
  attribute_vars : List String
  contextual_vars : List String
  synthetic_id_vars : List String
  variable_value_vars : List String
  file_format : Option String
  delimiter : Option String
  number_rows : Nat
deriving DecidableEq

/-- One dataframe column: pandas dtype collapsed to the single bit the
generator observes (numeric dtype or object dtype), plus the cells. -/
structure Column where
  numericDtype : Bool
  cells : List PyScalar
deriving DecidableEq

/-- A pandas dataframe: row count plus named columns. -/
structure DF where
  nrows : Nat
  cols : List (String × Column)
deriving DecidableEq

/-- Column access df[v]; pandas raises KeyError on a missing column, and
every theorem that touches cells assumes the column exists. -/
def DF.col (df : DF) (v : String) : Column := (alookup df.cols v).getD ⟨false, []⟩

/-- df.head(n). -/
def DF.headRows (df : DF) (n : Nat) : DF :=
  ⟨min df.nrows n, df.cols.map (fun p => (p.1, ⟨p.2.numericDtype, p.2.cells.take n⟩))⟩

/-- df.iloc[a:b]. -/
def DF.slice (df : DF) (a b : Nat) : DF :=
  ⟨min df.nrows b - a, df.cols.map (fun p => (p.1, ⟨p.2.numericDtype, (p.2.cells.take b).drop a⟩))⟩

/-- Well-formedness pandas guarantees by construction: every column
holds exactly nrows cells. -/
def DF.Wf (df : DF) : Prop := ∀ p ∈ df.cols, p.2.cells.length = df.nrows

/-! ## Generated graph nodes -/

/-- A typed attribute value. Constant wrapper objects of the source
(ControlledVocabularyEntry, TypedString, the displayLabel nesting,
ObjectName, InternationalString) are represented by one constructor each
carrying the sole varying string. -/
inductive Attr where
  | s : String → Attr
  | b : Bool → Attr
  | n : Int → Attr
  | strs : List String → Attr
  | cve : String → Attr
  | typedStr : String → Attr
  | dispLabel : String → Attr
  | objName : String → Attr
  | intlStr : String → Attr
deriving DecidableEq

/-- One JSON-LD node: fragment id, type name, ordered attribute list. -/
structure Node where
  id : String
  type : String
  attrs : List (String × Attr)
deriving DecidableEq

/-! ## Helper functions for conditional references based on file format -/

def hasFmt (m : Meta) (f : String) : Bool := m.file_format == some f

/-- _get_dataset_reference: json maps to the key-value store, netcdf and
every other (or absent) format fall through to the dimensional dataset. -/
def datasetRef (m : Meta) : String :=
  if hasFmt m "json" then "#keyValueDataStore" else "#dimensionalDataSet"

def structureRef (m : Meta) : String :=
  if hasFmt m "json" then "#keyValueStructure" else "#dimensionalDataStructure"

def datasetType (m : Meta) : String :=
  if hasFmt m "json" then "KeyValueDataStore" else "DimensionalDataSet"

def structureType (m : Meta) : String :=
  if hasFmt m "json" then "KeyValueStructure" else "DimensionalDataStructure"

/-! ## Structural node generators -/

def generate_PhysicalDataset (m : Meta) (spssfile : String) : List Node :=
  [⟨"#physicalDataSet", "PhysicalDataSet",
    [("allowsDuplicates", .b false),
     ("physicalFileName", .s spssfile),
     ("correspondsTo_DataSet", .s (datasetRef m)),
     ("formats", .s "#dataStore"),
     ("has_PhysicalRecordSegment", .strs ["#physicalRecordSegment"])]⟩]

def generate_PhysicalRecordSegment (m : Meta) (df : DF) : List Node :=
  [⟨"#physicalRecordSegment", "PhysicalRecordSegment",
    [("mapsTo", .s "#logicalRecord"),
     ("has_PhysicalSegmentLayout", .s "#physicalSegmentLayout"),
     ("has_DataPointPosition", .strs (m.column_names.flatMap (fun v =>
       (List.range (df.col v).cells.length).map (fun i =>
         "#dataPointPosition-" ++ decRepr i ++ "-" ++ v))))]⟩]

/-- Is this column name a decomposed hierarchical key column: it starts
with "key-" and the piece after the first hyphen is all digits. -/
def isKeyColumn (v : String) : Bool :=
  leadsWith "key-".data v.data &&
    (let rest := v.data.drop 4
     let piece := rest.takeWhile (fun c => c != '-')
     !piece.isEmpty && allDigitChars piece)

def generate_PhysicalSegmentLayout (m : Meta) : List Node :=
  let base : List String :=
    m.column_names.map (fun v => "#valueMappingPosition-" ++ v)
  let isCsv := hasFmt m "csv"
  let isJson := hasFmt m "json"
  let jsonDecomposed :=
    isJson && (m.column_names.any isKeyColumn) && m.column_names.contains "value"
  [⟨"#physicalSegmentLayout", "PhysicalSegmentLayout",
    [("allowsDuplicates", .b false),
     ("formats", .s "#logicalRecord"),
     ("isDelimited", if isCsv then .s "true" else .b jsonDecomposed),
     ("isFixedWidth", .b false),
     ("delimiter", .s (if isCsv then (m.delimiter.getD ",") else if jsonDecomposed then "/" else "")),
     ("has_ValueMappingPosition", .strs base)]⟩]

def generate_DataStore (m : Meta) : List Node :=
  [⟨"#dataStore", "DataStore",
    [("allowsDuplicates", .b false),
     ("recordCount", .n m.number_rows),
     ("has_LogicalRecord", .strs ["#logicalRecord"])]⟩]

def generate_LogicalRecord (m : Meta) : List Node :=
  [⟨"#logicalRecord", "LogicalRecord",
    [("organizes", .s (datasetRef m)),
     ("has_InstanceVariable", .strs (m.column_names.map (fun v => "#instanceVariable-" ++ v)))]⟩]

def generate_DimensionalDataSet (m : Meta) : List Node :=
  [⟨datasetRef m, datasetType m,
    [("isStructuredBy", .s (structureRef m))]⟩]

/-- DataStructureComponent references contributed by one variable, in
the order the source appends them. -/
def dscRefsFor (m : Meta) (v : String) : List String :=
  let isJson := hasFmt m "json"
  let isNetcdf := hasFmt m "netcdf"
  let idPre := if isNetcdf then "dimensionComponent" else "identifierComponent"
  let mPre := if isNetcdf then "qualifiedMeasure" else "measureComponent"
  (if m.identifier_vars.contains v then ["#" ++ idPre ++ "-" ++ v] else []) ++
  (if m.attribute_vars.contains v then ["#attributeComponent-" ++ v] else []) ++
  (if isJson then
    (if m.contextual_vars.contains v then ["#contextualComponent-" ++ v] else []) ++
    (if m.synthetic_id_vars.contains v then ["#syntheticIdComponent-" ++ v] else []) ++
    (if m.variable_value_vars.contains v then
      ["#variableValueComponent-" ++ v, "#variableDescriptorComponent-" ++ v] else [])
  else
    (if m.measure_vars.contains v then ["#" ++ mPre ++ "-" ++ v]
     else if !m.identifier_vars.contains v && !m.attribute_vars.contains v &&
             !m.measure_vars.contains v then ["#" ++ mPre ++ "-" ++ v]
     else []))

/-- Number of component positions the structure generator reserves for
one variable (its second counting pass). -/
def dscCountFor (m : Meta) (v : String) : Nat :=
  let isJson := hasFmt m "json"
  (if m.identifier_vars.contains v then 1 else 0) +
  (if m.attribute_vars.contains v then 1 else 0) +
  (if isJson then
    (if m.contextual_vars.contains v then 1 else 0) +
    (if m.synthetic_id_vars.contains v then 1 else 0) +
    (if m.variable_value_vars.contains v then 2 else 0)
  else
    (if m.measure_vars.contains v then 1
     else if !m.identifier_vars.contains v && !m.attribute_vars.contains v &&
             !m.measure_vars.contains v then 1
     else 0))

def generate_DimensionalDataStructure (m : Meta) : List Node :=
  let isJson := hasFmt m "json"
  let dsc := m.column_names.flatMap (dscRefsFor m)
  let total := (m.column_names.map (dscCountFor m)).sum
  let positions := (List.range total).map (fun i => "#componentPosition-" ++ decRepr i)
  let baseAttrs : List (String × Attr) :=
    [("has_DataStructureComponent", .strs dsc),
     ("has_ComponentPosition", .strs positions)]
  let attrs :=
    if !m.identifier_vars.isEmpty && !isJson then
      baseAttrs ++ [("has_PrimaryKey", .s "#primaryKey")]
    else baseAttrs
  [⟨structureRef m, structureType m, attrs⟩]

def generate_MeasureComponent (m : Meta) : List Node :=
  if hasFmt m "json" then []
  else
    let isNetcdf := hasFmt m "netcdf"
    let ctype := if isNetcdf then "QualifiedMeasure" else "MeasureComponent"
    let cpre := if isNetcdf then "qualifiedMeasure" else "measureComponent"
    if !m.measure_vars.isEmpty then
      (m.measure_vars.filter (fun v => m.column_names.contains v)).map (fun v =>
        ⟨"#" ++ cpre ++ "-" ++ v, ctype,
         [("isDefinedBy_InstanceVariable", .s ("#instanceVariable-" ++ v))]⟩)
    else
      (m.column_names.filter (fun v =>
        !m.identifier_vars.contains v && !m.attribute_vars.contains v)).map (fun v =>
        ⟨"#" ++ cpre ++ "-" ++ v, ctype,
         [("isDefinedBy_InstanceVariable", .s ("#instanceVariable-" ++ v))]⟩)

def generate_IdentifierComponent (m : Meta) : List Node :=
  let isNetcdf := hasFmt m "netcdf"
  let ctype := if isNetcdf then "DimensionComponent" else "IdentifierComponent"
  let cpre := if isNetcdf then "dimensionComponent" else "identifierComponent"
  (m.identifier_vars.filter (fun v => m.column_names.contains v)).map (fun v =>
    ⟨"#" ++ cpre ++ "-" ++ v, ctype,
     [("isDefinedBy_InstanceVariable", .s ("#instanceVariable-" ++ v))]⟩)

def generate_AttributeComponent (m : Meta) : List Node :=
  (m.attribute_vars.filter (fun v => m.column_names.contains v)).map (fun v =>
    ⟨"#attributeComponent-" ++ v, "AttributeComponent",
     [("isDefinedBy_RepresentedVariable", .s ("#instanceVariable-" ++ v))]⟩)

def generate_ContextualComponent (m : Meta) : List Node :=
  if hasFmt m "json" then
    (m.contextual_vars.filter (fun v => m.column_names.contains v)).map (fun v =>
      ⟨"#contextualComponent-" ++ v, "ContextualComponent",
       [("isDefinedBy_RepresentedVariable", .s ("#instanceVariable-" ++ v))]⟩)
  else []

def generate_SyntheticIdComponent (m : Meta) : List Node :=
  if hasFmt m "json" then
    (m.synthetic_id_vars.filter (fun v => m.column_names.contains v)).map (fun v =>
      ⟨"#syntheticIdComponent-" ++ v, "SyntheticIdComponent",
       [("isDefinedBy_RepresentedVariable", .s ("#instanceVariable-" ++ v))]⟩)
  else []

def generate_VariableValueComponent (m : Meta) : List Node :=
  if hasFmt m "json" then
    (m.variable_value_vars.filter (fun v => m.column_names.contains v)).map (fun v =>
      ⟨"#variableValueComponent-" ++ v, "VariableValueComponent",
       [("isDefinedBy_RepresentedVariable", .s ("#instanceVariable-" ++ v))]⟩)
  else []

def generate_VariableDescriptorComponent (m : Meta) : List Node :=
  if hasFmt m "json" then
    (m.variable_value_vars.filter (fun v => m.column_names.contains v)).map (fun v =>
      ⟨"#variableDescriptorComponent-" ++ v, "VariableDescriptorComponent",
       [("refersTo", .s ("#variableValueComponent-" ++ v)),
        ("isDefinedBy_RepresentedVariable", .s ("#instanceVariable-" ++ v))]⟩)
  else []

/-- ComponentPosition references contributed by one variable. Unlike the
structure generator this uses the tabular id prefixes unconditionally and
has no default-to-measure branch. -/
def cpRefsFor (m : Meta) (v : String) : List String :=
  let isJson := hasFmt m "json"
  (if m.identifier_vars.contains v then ["#identifierComponent-" ++ v] else []) ++
  (if m.attribute_vars.contains v then ["#attributeComponent-" ++ v] else []) ++
  (if !isJson then
    (if m.measure_vars.contains v then ["#measureComponent-" ++ v] else [])
  else
    (if m.contextual_vars.contains v then ["#contextualComponent-" ++ v] else []) ++
    (if m.synthetic_id_vars.contains v then ["#syntheticIdComponent-" ++ v] else []) ++
    (if m.variable_value_vars.contains v then
      ["#variableValueComponent-" ++ v, "#variableDescriptorComponent-" ++ v] else []))

/-- Pair each list element with its index starting at k. -/
def enumFrom {α : Type} (k : Nat) : List α → List (Nat × α)
  | [] => []
  | x :: t => (k, x) :: enumFrom (k+1) t

def generate_ComponentPosition (m : Meta) : List Node :=
  (enumFrom 0 (m.column_names.flatMap (cpRefsFor m))).map (fun p =>
    ⟨"#componentPosition-" ++ decRepr p.1, "ComponentPosition",
     [("value", .n p.1), ("indexes", .s p.2)]⟩)

def generate_PrimaryKey (m : Meta) : List Node :=
  if !m.identifier_vars.isEmpty then
    [⟨"#primaryKey", "PrimaryKey",
      [("isComposedOf", .strs ((m.identifier_vars.filter
          (fun v => m.column_names.contains v)).map
          (fun v => "#primaryKeyComponent-" ++ v)))]⟩]
  else []

def generate_PrimaryKeyComponent (m : Meta) : List Node :=
  if !m.identifier_vars.isEmpty then
    (m.identifier_vars.filter (fun v => m.column_names.contains v)).map (fun v =>
      ⟨"#primaryKeyComponent-" ++ v, "PrimaryKeyComponent",
       [("correspondsTo_DataStructureComponent", .s ("#identifierComponent-" ++ v))]⟩)
  else []

/-! ## Variable-level generators -/

def generate_InstanceVariable (m : Meta) : List Node :=
  m.column_names.map (fun v =>
    let label := alookupD m.column_labels v v
    let data_type := alookupD m.original_variable_types v "string"
    let base : List (String × Attr) :=
      [("physicalDataType", .cve data_type),
       ("displayLabel", .dispLabel label),
       ("name", .objName v),
       ("has_PhysicalSegmentLayout", .s "#physicalSegmentLayout"),
       ("has_ValueMapping", .s ("#valueMapping-" ++ v)),
       ("takesSubstantiveValuesFrom_SubstantiveValueDomain", .s ("#substantiveValueDomain-" ++ v))]
    let attrs :=
      if amem m.missing_ranges v ||
         (m.missing_ranges.isEmpty && amem m.missing_user_values v) then
        base ++ [("takesSentinelValuesFrom", .s ("#sentinelValueDomain-" ++ v))]
      else base
    ⟨"#instanceVariable-" ++ v, "InstanceVariable", attrs⟩)

/-- The lo-or-hi bound is numeric for the substantive concept scheme:
an int, a float, or a digits-only string. -/
def boundIsNumeric (x : PyScalar) : Bool :=
  x.isNum || (x.isStr && pyIsNumeric (pyStr x))

/-- int(float(x)) for a scalar the generator has checked to be numeric. -/
def boundToInt (x : PyScalar) : Int :=
  (((pyParse x).map PyNum.toDec).getD ⟨0, 0⟩).toIntTrunc

/-- The excluded-values set the substantive concept scheme builds for
one variable, as a list (set membership is by Python ==). -/
def scsExcluded (m : Meta) (v : String) : List PyScalar :=
  if !m.missing_ranges.isEmpty then
    match alookup m.missing_ranges v with
    | none => []
    | some rs => rs.flatMap (fun r =>
        if boundIsNumeric r.lo && boundIsNumeric r.hi then
          (intRange (boundToInt r.lo) (boundToInt r.hi)).map PyScalar.int_
        else if r.lo.isStr then [r.lo]
        else [])
  else
    match alookup m.missing_user_values v with
    | none => []
    | some vs => vs.map (fun x => .str_ (pyStr x))

/-- The hasTopConcept list of the substantive concept scheme for one
value-labelled variable. -/
def scsTop (m : Meta) (v : String) (vd : List (PyScalar × String)) : List String :=
  let excluded := scsExcluded m v
  let excludedStrs := excluded.map pyStr
  (vd.filter (fun p =>
    !(excluded.any (pyEqv p.1)) && !(excludedStrs.contains (pyStr p.1)))).map (fun p =>
    "#" ++ v ++ "-concept-" ++ pyStr p.1)

def generate_SubstantiveConceptScheme (m : Meta) : List Node :=
  m.variable_value_labels.flatMap (fun p =>
    let top := scsTop m p.1 p.2
    if !top.isEmpty then
      [⟨"#substantiveConceptScheme-" ++ p.1, "skos:ConceptScheme",
        [("skos:hasTopConcept", .strs top)]⟩]
    else [])

/-! ## Row-level generators -/

/-- Shared row-window policy of the four row-level generators. -/
def rowWindow (df : DF) (process_all_rows : Bool) (chunk_size : Nat) : Nat :=
  if process_all_rows then df.nrows else min df.nrows chunk_size

def generate_ValueMapping (df : DF) (m : Meta) (process_all_rows : Bool) (chunk_size : Nat) : List Node :=
  let max_rows := rowWindow df process_all_rows chunk_size
  m.column_names.map (fun v =>
    ⟨"#valueMapping-" ++ v, "ValueMapping",
     [("defaultValue", .s ""),
      ("formats", .strs ((List.range max_rows).map (fun i =>
        "#dataPoint-" ++ decRepr i ++ "-" ++ v)))]⟩)

def generate_ValueMappingPosition (m : Meta) : List Node :=
  (enumFrom 0 m.column_names).map (fun p =>
    ⟨"#valueMappingPosition-" ++ p.2, "ValueMappingPosition",
     [("value", .n p.1), ("indexes", .s ("#valueMapping-" ++ p.2))]⟩)

def generate_DataPoint (df : DF) (m : Meta) (process_all_rows : Bool) (chunk_size : Nat) : List Node :=
  let max_rows := rowWindow df process_all_rows chunk_size
  m.column_names.flatMap (fun v =>
    (List.range max_rows).map (fun i =>
      ⟨"#dataPoint-" ++ decRepr i ++ "-" ++ v, "DataPoint",
       [("isDescribedBy", .s ("#instanceVariable-" ++ v)),
        ("has_DataPoint_OF_DataSet", .s (datasetRef m))]⟩))

def generate_DataPointPosition (df : DF) (m : Meta) (process_all_rows : Bool) (chunk_size : Nat) : List Node :=
  let max_rows := rowWindow df process_all_rows chunk_size
  m.column_names.flatMap (fun v =>
    (List.range max_rows).map (fun i =>
      ⟨"#dataPointPosition-" ++ decRepr i ++ "-" ++ v, "DataPointPosition",
       [("value", .n i), ("indexes", .s ("#dataPoint-" ++ decRepr i ++ "-" ++ v))]⟩))

/-- Does one numeric missing range capture the parsed value. The lo
bound is float by construction of numeric_ranges; a str hi raises
TypeError in the vectorized path and falls back to element-wise
evaluation where it is swallowed as not-in-range, so both paths treat a
str bound as matching nothing. -/
def rangeHit (r : MRange) (q : Dec) : Bool :=
  match numDec? r.lo, numDec? r.hi with
  | some lo, some hi => lo.le q && q.le hi
  | _, _ => false

/-- Is a cell classified sentinel against the float-keyed numeric
ranges: parse as a number (failure means substantive) and test the
inclusive range bounds. Identical for the vectorized coerce-compare
path and the element-wise float(...) fallback. -/
def ivSentinel (numeric_ranges : List MRange) (c : PyScalar) : Bool :=
  match pyParse c with
  | some nq => numeric_ranges.any (fun r => rangeHit r nq.toDec)
  | none => false

/-- The numeric_ranges filter of the InstanceValue generators: only
ranges whose lo is a Python float participate. -/
def numericRangesOf (m : Meta) (v : String) : List MRange :=
  ((alookup m.missing_ranges v).getD []).filter (fun r => r.lo.isFloat)

def mkInstanceValue (v : String) (i : Nat) (content domain : String) : Node :=
  ⟨"#instanceValue-" ++ decRepr i ++ "-" ++ v, "InstanceValue",
   [("content", .typedStr content),
    ("isStoredIn", .s ("#dataPoint-" ++ decRepr i ++ "-" ++ v)),
    ("hasValueFrom_ValueDomain", .s domain)]⟩

def generate_InstanceValue (df : DF) (m : Meta) (process_all_rows : Bool) (chunk_size : Nat) : List Node :=
  let max_rows := rowWindow df process_all_rows chunk_size
  let dfs := df.headRows max_rows
  m.column_names.flatMap (fun v =>
    let has_missing := amem m.missing_ranges v
    let numeric_ranges := numericRangesOf m v
    let cells := (dfs.col v).cells
    (enumFrom 0 cells).map (fun p =>
      let domain :=
        if has_missing && !numeric_ranges.isEmpty && ivSentinel numeric_ranges p.2 then
          "#sentinelValueDomain-" ++ v
        else "#substantiveValueDomain-" ++ v
      mkInstanceValue v p.1 (pyStr p.2) domain))

/-! ## Type mapper -/

def xsdString : String := "https://www.w3.org/TR/xmlschema-2/#string"

/-- The exact-lookup table of map_to_xsd_type, in source order. -/
def xsdTable : List (String × String) :=
  [("int8", "https://www.w3.org/TR/xmlschema-2/#byte"),
   ("int16", "https://www.w3.org/TR/xmlschema-2/#short"),
   ("int32", "https://www.w3.org/TR/xmlschema-2/#int"),
   ("int64", "https://www.w3.org/TR/xmlschema-2/#long"),
   ("int", "https://www.w3.org/TR/xmlschema-2/#int"),
   ("integer", "https://www.w3.org/TR/xmlschema-2/#integer"),
   ("uint8", "https://www.w3.org/TR/xmlschema-2/#unsignedByte"),
   ("uint16", "https://www.w3.org/TR/xmlschema-2/#unsignedShort"),
   ("uint32", "https://www.w3.org/TR/xmlschema-2/#unsignedInt"),
   ("uint64", "https://www.w3.org/TR/xmlschema-2/#unsignedLong"),
   ("float", "https://www.w3.org/TR/xmlschema-2/#float"),
   ("float32", "https://www.w3.org/TR/xmlschema-2/#float"),
   ("float64", "https://www.w3.org/TR/xmlschema-2/#double"),
   ("double", "https://www.w3.org/TR/xmlschema-2/#double"),
   ("decimal", "https://www.w3.org/TR/xmlschema-2/#decimal"),
   ("numeric", "https://www.w3.org/TR/xmlschema-2/#decimal"),
   ("number", "https://www.w3.org/TR/xmlschema-2/#decimal"),
   ("complex", xsdString),
   ("string", xsdString),
   ("str", xsdString),
   ("object", xsdString),
   ("text", xsdString),
   ("varchar", xsdString),
   ("character", xsdString),
   ("char", xsdString),
   ("datetime", "https://www.w3.org/TR/xmlschema-2/#dateTime"),
   ("datetime64", "https://www.w3.org/TR/xmlschema-2/#dateTime"),
   ("datetime64[ns]", "https://www.w3.org/TR/xmlschema-2/#dateTime"),
   ("timestamp", "https://www.w3.org/TR/xmlschema-2/#dateTime"),
   ("date", "https://www.w3.org/TR/xmlschema-2/#date"),
   ("time", "https://www.w3.org/TR/xmlschema-2/#time"),
   ("timedelta", "https://www.w3.org/TR/xmlschema-2/#duration"),
   ("duration", "https://www.w3.org/TR/xmlschema-2/#duration"),
   ("bool", "https://www.w3.org/TR/xmlschema-2/#boolean"),
   ("boolean", "https://www.w3.org/TR/xmlschema-2/#boolean"),
   ("category", xsdString),
   ("factor", xsdString),
   ("array", xsdString),
   ("list", xsdString),
   ("unknown", xsdString)]

/-- map_to_xsd_type: note the source tests the substring heuristics
BEFORE the exact table lookup, so the heuristics win on every tag that
contains int, float, date or bool. -/
def map_to_xsd_type (original_type : String) : String :=
  let type_str := lcStr original_type
  if strHas type_str "int" then "https://www.w3.org/TR/xmlschema-2/#int"
  else if strHas type_str "float" then "https://www.w3.org/TR/xmlschema-2/#double"
  else if strHas type_str "date" then "https://www.w3.org/TR/xmlschema-2/#dateTime"
  else if strHas type_str "bool" then "https://www.w3.org/TR/xmlschema-2/#boolean"
  else alookupD xsdTable type_str xsdString

/-! ## Value domains, descriptions, concept schemes -/

def generate_SubstantiveValueDomain (m : Meta) : List Node :=
  m.column_names.map (fun v =>
    let mapped := map_to_xsd_type (alookupD m.readstat_variable_types v "")
    let base : List (String × Attr) :=
      [("recommendedDataType", .cve mapped),
       ("isDescribedBy", .s ("#substantiveValueAndConceptDescription-" ++ v))]
    let attrs :=
      if amem m.variable_value_labels v then
        base ++ [("takesValuesFrom", .s ("#substantiveEnumerationDomain-" ++ v))]
      else base
    ⟨"#substantiveValueDomain-" ++ v, "SubstantiveValueDomain", attrs⟩)

/-- The class_level lookup table of generate_ValueAndConceptDescription
(a tag outside the table raises KeyError in Python; theorems only use
tags of the table). -/
def classLevel (tag : String) : String :=
  alookupD [("nominal", "Nominal"), ("scale", "Continuous"),
            ("ordinal", "Ordinal"), ("unknown", "Nominal")] tag ""

/-- Python repr of a scalar, as str(list) renders elements. -/
def pyRepr (x : PyScalar) : String :=
  match x with
  | .str_ s => "'" ++ s ++ "'"
  | _ => pyStr x

def joinSep (sep : String) : List String → String
  | [] => ""
  | [x] => x
  | x :: t => x ++ sep ++ joinSep sep t

/-- Python str of a list of range dicts. -/
def pyReprRanges (rs : List MRange) : String :=
  "[" ++ joinSep ", " (rs.map (fun r =>
    "\x7b'lo': " ++ pyRepr r.lo ++ ", 'hi': " ++ pyRepr r.hi ++ "\x7d")) ++ "]"

/-- Python str of a list of scalars. -/
def pyReprScalars (vs : List PyScalar) : String :=
  "[" ++ joinSep ", " (vs.map pyRepr) ++ "]"

/-- min over a possibly-empty list (the source indexes values[0], so an
empty list raises IndexError; metadata never carries one). -/
def pyMinL : List PyScalar → PyScalar
  | [] => .str_ ""
  | x :: t => pyMin x t

def pyMaxL : List PyScalar → PyScalar
  | [] => .str_ ""
  | x :: t => pyMax x t

def mkSentinelVaCD (v : String) (contentStr : String) (minV maxV : PyScalar) : Node :=
  ⟨"#sentinelValueAndConceptDescription-" ++ v, "ValueAndConceptDescription",
   [("description", .intlStr contentStr),
    ("maximumValueExclusive", .s (pyStr maxV)),
    ("minimumValueExclusive", .s (pyStr minV))]⟩

def generate_ValueAndConceptDescription (m : Meta) : List Node :=
  let substantive := m.column_names.map (fun v =>
    ⟨"#substantiveValueAndConceptDescription-" ++ v, "ValueAndConceptDescription",
     [("classificationLevel", .s (classLevel (alookupD m.variable_measure v "")))]⟩)
  let sentinel :=
    if !m.missing_ranges.isEmpty then
      m.missing_ranges.map (fun p =>
        mkSentinelVaCD p.1 (pyReprRanges p.2)
          (pyMinL (p.2.map (·.lo))) (pyMaxL (p.2.map (·.hi))))
    else
      m.missing_user_values.map (fun p =>
        mkSentinelVaCD p.1 (pyReprScalars p.2) (pyMinL p.2) (pyMaxL p.2))
  substantive ++ sentinel

/-- The hasTopConcept list of the sentinel concept scheme for one
variable; the ranges branch appends once per label key PER matching
range (the source has no break). -/
def sentinelTop (m : Meta) (v : String) : List String :=
  let labels := (alookup m.variable_value_labels v).getD []
  if !m.missing_ranges.isEmpty then
    let rs := (alookup m.missing_ranges v).getD []
    labels.flatMap (fun p =>
      rs.flatMap (fun r =>
        if pyLeB r.lo p.1 && pyLeB p.1 r.hi then
          ["#" ++ v ++ "-concept-" ++ pyStr p.1]
        else []))
  else
    let vs := (alookup m.missing_user_values v).getD []
    vs.flatMap (fun x =>
      if labels.any (fun p => pyEqv p.1 x) then
        ["#" ++ v ++ "-concept-" ++ pyStr x]
      else [])

def generate_SentinelConceptScheme (m : Meta) : List Node :=
  let relevantKeys :=
    if !m.missing_ranges.isEmpty then akeys m.missing_ranges
    else akeys m.missing_user_values
  relevantKeys.flatMap (fun v =>
    if amem m.variable_value_labels v then
      let top := sentinelTop m v
      if !top.isEmpty then
        [⟨"#sentinelConceptScheme-" ++ v, "skos:ConceptScheme",
          [("skos:hasTopConcept", .strs top)]⟩]
      else []
    else [])

def generate_Concept (m : Meta) : List Node :=
  m.variable_value_labels.flatMap (fun p =>
    p.2.map (fun q =>
      ⟨"#" ++ p.1 ++ "-concept-" ++ pyStr q.1, "skos:Concept",
       [("skos:notation", .typedStr (pyStr q.1)),
        ("skos:prefLabel", .typedStr q.2)]⟩))

/-- Excluded values of the substantive enumeration domain: unlike the
substantive concept scheme this consults missing_ranges ONLY and expands
a range only when BOTH bounds are Python floats. -/
def sedExcluded (m : Meta) (v : String) : List PyScalar :=
  match alookup m.missing_ranges v with
  | none => []
  | some rs => rs.flatMap (fun r =>
      if r.lo.isFloat && r.hi.isFloat then
        (intRange (boundToInt r.lo) (boundToInt r.hi)).map PyScalar.int_
      else if r.lo.isStr then [r.lo]
      else [])

def sedTop (m : Meta) (v : String) : List String :=
  let excluded := sedExcluded m v
  let excludedStrs := excluded.map pyStr
  let labels := (alookup m.variable_value_labels v).getD []
  (labels.filter (fun p =>
    !(excluded.any (pyEqv p.1)) && !(excludedStrs.contains (pyStr p.1)))).map (fun p =>
    "#" ++ v ++ "-concept-" ++ pyStr p.1)

def generate_SubstantiveEnumerationDomain (m : Meta) : List Node :=
  m.column_names.flatMap (fun v =>
    if amem m.variable_value_labels v then
      if !(sedTop m v).isEmpty then
        [⟨"#substantiveEnumerationDomain-" ++ v, "EnumerationDomain",
          [("sameAs", .s ("#substantiveConceptScheme-" ++ v))]⟩]
      else []
    else [])

def generate_SentinelValueDomain (m : Meta) : List Node :=
  let relevantKeys :=
    if !m.missing_ranges.isEmpty then akeys m.missing_ranges
    else akeys m.missing_user_values
  relevantKeys.map (fun v =>
    let mapped := map_to_xsd_type (alookupD m.readstat_variable_types v "")
    let base : List (String × Attr) :=
      [("recommendedDataType", .cve mapped),
       ("isDescribedBy", .s ("#sentinelValueAndConceptDescription-" ++ v))]
    let attrs :=
      if amem m.variable_value_labels v then
        base ++ [("takesValuesFrom", .s ("#sentinelEnumerationDomain-" ++ v))]
      else base
    ⟨"#sentinelValueDomain-" ++ v, "SentinelValueDomain", attrs⟩)

def generate_SentinelEnumerationDomain (m : Meta) : List Node :=
  let relevantKeys :=
    if !m.missing_ranges.isEmpty then akeys m.missing_ranges
    else akeys m.missing_user_values
  relevantKeys.flatMap (fun v =>
    if amem m.variable_value_labels v then
      [⟨"#sentinelEnumerationDomain-" ++ v, "EnumerationDomain",
        [("sameAs", .s ("#sentinelConceptScheme-" ++ v))]⟩]
    else [])

/-! ## Chunked instance-value generation -/

/-- Parse every cell or fail (the all-or-nothing behaviour of
pd.to_numeric(..., errors=ignore)). -/
def allParseCells : List PyScalar → Option (List PyNum)
  | [] => some []
  | c :: t =>
    match pyParse c, allParseCells t with
    | some q, some qs => some (q :: qs)
    | _, _ => none

/-- pd.to_numeric(col, errors=ignore) on an object column: if every cell
parses the column becomes numeric (float64 when any cell is float-tagged,
else int64) and each cell is re-rendered from its numeric value;
otherwise the column is returned unchanged. Numeric columns are not
touched (the source guards with dtype == object). -/
def toNumericIgnore (c : Column) : Column :=
  if c.numericDtype then c
  else
    match allParseCells c.cells with
    | none => c
    | some nums =>
      if nums.any PyNum.isF then
        ⟨true, nums.map (fun q => .float_ q.toDec)⟩
      else
        ⟨true, nums.map (fun q =>
          match q with
          | .I n => PyScalar.int_ n
          | .F d => PyScalar.float_ d)⟩

/-- Value-domain choice for one cell of one chunk: the vectorized branch
runs on numeric-dtype columns with numeric ranges, every other case (and
the exception fallback) evaluates element-wise; all branches agree on
int/float cells. -/
def chunkCellDomain (v : String) (has_missing : Bool) (numeric_ranges : List MRange)
    (numericDtype : Bool) (c : PyScalar) : String :=
  if !numeric_ranges.isEmpty && numericDtype then
    if numeric_ranges.any (fun r =>
        match numDec? c with
        | some q => rangeHit r q
        | none => false) then
      "#sentinelValueDomain-" ++ v
    else "#substantiveValueDomain-" ++ v
  else
    if has_missing && ivSentinel numeric_ranges c then "#sentinelValueDomain-" ++ v
    else "#substantiveValueDomain-" ++ v

/-- One chunk-and-column block of the chunked InstanceValue path:
slice the chunk, numeric-coerce the object column, classify, and emit
with the GLOBAL row index chunk_start + idx. -/
def chunkBlock (df : DF) (m : Meta) (chunk_size : Nat) (ci : Nat) (v : String) : List Node :=
  let cstart := ci * chunk_size
  let cend := min (cstart + chunk_size) df.nrows
  let col := toNumericIgnore ((df.slice cstart cend).col v)
  (enumFrom 0 col.cells).map (fun p =>
    mkInstanceValue v (cstart + p.1) (pyStr p.2)
      (chunkCellDomain v (amem m.missing_ranges v) (numericRangesOf m v)
        col.numericDtype p.2))

/-- The chunked InstanceValue path of generate_complete_json_ld: chunk
boundaries, per-chunk numeric coercion of object columns, and global row
indices chunk_start + idx. -/
def chunkInstanceValues (df : DF) (m : Meta) (chunk_size : Nat) : List Node :=
  (List.range ((df.nrows + chunk_size - 1) / chunk_size)).flatMap (fun ci =>
    m.column_names.flatMap (fun v => chunkBlock df m chunk_size ci v))

/-! ## Document assembly -/

/-- The assembled document: primary DDI-CDI array plus the optional
SKOS partition (None when empty, the source omits the key entirely). -/
structure JsonLdDoc where
  ddi : List Node
  included : Option (List Node)
deriving DecidableEq

def isSkosNode (n : Node) : Bool := leadsWith "skos:".data n.type.data

/-- wrap_in_graph: stable partition into DDI-CDI and SKOS components. -/
def wrap_in_graph (nodes : List Node) : List Node × Option (List Node) :=
  let skos := nodes.filter isSkosNode
  (nodes.filter (fun n => !isSkosNode n), if !skos.isEmpty then some skos else none)

/-- The chunked-path predicate of generate_complete_json_ld. -/
def chunkedPathB (df : DF) (chunk_size : Nat) (process_all_rows : Bool) : Bool :=
  process_all_rows && decide (df.nrows > chunk_size)

/-- The df_limited the pipeline hands to the non-row generators. -/
def dfLimited (df : DF) (chunk_size : Nat) (process_all_rows : Bool) (max_rows : Nat) : DF :=
  if chunkedPathB df chunk_size process_all_rows then df
  else if df.nrows > max_rows && !process_all_rows then df.headRows max_rows
  else df

/-- The InstanceValue nodes the pipeline emits: chunked or direct. -/
def rowIVNodes (df : DF) (m : Meta) (chunk_size : Nat) (process_all_rows : Bool)
    (max_rows : Nat) : List Node :=
  if chunkedPathB df chunk_size process_all_rows then chunkInstanceValues df m chunk_size
  else generate_InstanceValue (dfLimited df chunk_size process_all_rows max_rows) m
    process_all_rows max_rows

def rowDPNodes (df : DF) (m : Meta) (chunk_size : Nat) (process_all_rows : Bool)
    (max_rows : Nat) : List Node :=
  if chunkedPathB df chunk_size process_all_rows then
    generate_DataPoint df m process_all_rows chunk_size
  else generate_DataPoint (dfLimited df chunk_size process_all_rows max_rows) m
    process_all_rows max_rows

def rowDPPNodes (df : DF) (m : Meta) (chunk_size : Nat) (process_all_rows : Bool)
    (max_rows : Nat) : List Node :=
  if chunkedPathB df chunk_size process_all_rows then
    generate_DataPointPosition df m process_all_rows chunk_size
  else generate_DataPointPosition (dfLimited df chunk_size process_all_rows max_rows) m
    process_all_rows max_rows

def rowVMNodes (df : DF) (m : Meta) (chunk_size : Nat) (process_all_rows : Bool)
    (max_rows : Nat) : List Node :=
  if chunkedPathB df chunk_size process_all_rows then
    generate_ValueMapping df m process_all_rows chunk_size
  else generate_ValueMapping (dfLimited df chunk_size process_all_rows max_rows) m
    process_all_rows max_rows

/-- The full ordered components list generate_complete_json_ld hands to
wrap_in_graph: core generators, then the role-conditional component
generators, then ComponentPosition last. -/
def pipelineComponents (df : DF) (m : Meta) (spssfile : String)
    (chunk_size : Nat) (process_all_rows : Bool) (max_rows : Nat) : List Node :=
  let isJson := hasFmt m "json"
  let components :=
    generate_PhysicalDataset m spssfile ++
    generate_PhysicalRecordSegment m (dfLimited df chunk_size process_all_rows max_rows) ++
    generate_PhysicalSegmentLayout m ++
    rowVMNodes df m chunk_size process_all_rows max_rows ++
    generate_ValueMappingPosition m ++
    rowDPNodes df m chunk_size process_all_rows max_rows ++
    rowDPPNodes df m chunk_size process_all_rows max_rows ++
    rowIVNodes df m chunk_size process_all_rows max_rows ++
    generate_DataStore m ++
    generate_LogicalRecord m ++
    generate_DimensionalDataSet m ++
    generate_DimensionalDataStructure m ++
    generate_MeasureComponent m ++
    generate_InstanceVariable m ++
    generate_SubstantiveValueDomain m ++
    generate_SubstantiveEnumerationDomain m ++
    generate_SentinelValueDomain m ++
    generate_SentinelEnumerationDomain m ++
    generate_ValueAndConceptDescription m ++
    generate_SubstantiveConceptScheme m ++
    generate_SentinelConceptScheme m ++
    generate_Concept m ++
    (if !m.identifier_vars.isEmpty && !isJson then
      generate_IdentifierComponent m ++ generate_PrimaryKey m ++
        generate_PrimaryKeyComponent m
     else if !m.identifier_vars.isEmpty && isJson then
      generate_IdentifierComponent m
     else []) ++
    (if !m.attribute_vars.isEmpty then generate_AttributeComponent m else []) ++
    (if !m.contextual_vars.isEmpty then generate_ContextualComponent m else []) ++
    (if !m.synthetic_id_vars.isEmpty then generate_SyntheticIdComponent m else []) ++
    (if !m.variable_value_vars.isEmpty then
      generate_VariableValueComponent m ++ generate_VariableDescriptorComponent m
     else []) ++
    generate_ComponentPosition m
  components

def generate_complete_json_ld (df : DF) (m : Meta) (spssfile : String)
    (chunk_size : Nat) (process_all_rows : Bool) (max_rows : Nat) : JsonLdDoc :=
  let parts := wrap_in_graph
    (pipelineComponents df m spssfile chunk_size process_all_rows max_rows)
  ⟨parts.1, parts.2⟩

/-- Every node of the document, both arrays. -/
def allDocNodes (d : JsonLdDoc) : List Node := d.ddi ++ d.included.getD []

/-! ## Identifying a variable's InstanceValue nodes by id -/

/-- Strip a pattern from the front of a character list. -/
def stripPre : List Char → List Char → Option (List Char)
  | [], s => some s
  | _ :: _, [] => none
  | p :: ps, c :: cs => if p == c then stripPre ps cs else none

theorem stripPre_append (p r : List Char) : stripPre p (p ++ r) = some r := by
  induction p with
  | nil => simp [stripPre]
  | cons c cs ih => simp [stripPre, ih]

/-- Recognize the id "#instanceValue-<digits>-<v>" of variable v. -/
def ivIdOf (v : String) (s : String) : Bool :=
  match stripPre "#instanceValue-".data s.data with
  | none => false
  | some rest =>
    !(rest.takeWhile Char.isDigit).isEmpty &&
      rest.dropWhile Char.isDigit == '-' :: v.data

theorem takeWhile_append_stop {p : Char → Bool} (ds t : List Char) (c : Char)
    (hds : ∀ x ∈ ds, p x = true) (hc : p c = false) :
    (ds ++ c :: t).takeWhile p = ds ∧ (ds ++ c :: t).dropWhile p = c :: t := by
  induction ds with
  | nil => simp [List.takeWhile, List.dropWhile, hc]
  | cons d dt ih =>
    have hd : p d = true := hds d (by simp)
    have := ih (fun x hx => hds x (by simp [hx]))
    simp [List.takeWhile, List.dropWhile, hd, this.1, this.2]

theorem digitChar_isDigit : ∀ k, k < 10 → (digitChar k).isDigit = true := by decide

theorem decChars_isDigit : ∀ fuel n c, c ∈ decChars fuel n → c.isDigit = true := by
  intro fuel n c hc
  obtain ⟨k, hk, he⟩ := decChars_digits fuel n c hc
  subst he
  exact digitChar_isDigit k hk

theorem decRepr_ne_nil (n : Nat) : (decRepr n).data ≠ [] := by
  show decChars (n+1) n ≠ []
  by_cases h10 : n < 10 <;> simp [decChars, h10]

/-- The recognizer accepts exactly the instance-value ids of v. -/
theorem ivIdOf_mkInstanceValue (v w : String) (i : Nat) (content domain : String) :
    ivIdOf v (mkInstanceValue w i content domain).id = (w == v) := by
  show ivIdOf v ("#instanceValue-" ++ decRepr i ++ "-" ++ w) = (w == v)
  have hdata : ("#instanceValue-" ++ decRepr i ++ "-" ++ w).data =
      "#instanceValue-".data ++ ((decRepr i).data ++ '-' :: w.data) := by
    simp [string_append_data]
  have h1 : stripPre "#instanceValue-".data
      ("#instanceValue-" ++ decRepr i ++ "-" ++ w).data =
      some ((decRepr i).data ++ '-' :: w.data) := by
    rw [hdata]; exact stripPre_append _ _
  have hsplit := takeWhile_append_stop (p := Char.isDigit) (decRepr i).data w.data '-'
    (fun x hx => decChars_isDigit _ _ x hx) (by decide)
  unfold ivIdOf
  rw [h1]
  show (!(((decRepr i).data ++ '-' :: w.data).takeWhile Char.isDigit).isEmpty &&
        (((decRepr i).data ++ '-' :: w.data).dropWhile Char.isDigit == '-' :: v.data)) = (w == v)
  rw [hsplit.1, hsplit.2]
  by_cases hw : w = v
  · subst hw
    simp [decRepr_ne_nil i]
  · have hd : w.data ≠ v.data := fun hh => hw (String.ext hh)
    simp [decRepr_ne_nil i, hw, hd]
    rw [beq_eq_false_iff_ne.mpr hd, beq_eq_false_iff_ne.mpr hw]
    simp

/-- The recognizer rejects any id built from a different constant
prefix: the two prefixes disagree somewhere inside the constant part. -/
theorem ivIdOf_false_of_mismatch (v : String) (p : String) (r : List Char)
    (h : stripPre "#instanceValue-".data (p.data ++ r) = none) :
    ivIdOf v ⟨p.data ++ r⟩ = false := by
  rw [ivIdOf]
  simp only [h]

/-! ## The spec's numeric missing-value classifier (claim side) -/

/-- The classifier exactly as the spec words it for numeric ranges:
parse the raw value as a number; on failure substantive; on success
sentinel iff lo <= value <= hi for some range whose bounds parse as
numbers. -/
def specNumericSentinel (rs : List MRange) (c : PyScalar) : Bool :=
  match pyParse c with
  | none => false
  | some q => rs.any (fun r =>
      match (pyParse r.lo).map PyNum.toDec, (pyParse r.hi).map PyNum.toDec with
      | some lo, some hi => lo.le q.toDec && q.toDec.le hi
      | _, _ => false)

/-! ## Claim C1: numeric missing-range classification -/

theorem amem_of_alookup_some {α : Type} {l : List (String × α)} {k : String} {x : α}
    (h : alookup l k = some x) : amem l k = true := by
  simp [amem, h]

/-- ivSentinel agrees with the spec's classifier when every range bound
is a Python float. -/
theorem any_congr_mem {α : Type} {p q : α → Bool} :
    ∀ (l : List α), (∀ a ∈ l, p a = q a) → l.any p = l.any q := by
  intro l h
  induction l with
  | nil => rfl
  | cons a t ih =>
    simp only [List.any_cons, h a (by simp), ih (fun x hx => h x (by simp [hx]))]

theorem ivSentinel_eq_spec (rs : List MRange) (c : PyScalar)
    (hfl : ∀ r ∈ rs, r.lo.isFloat = true ∧ r.hi.isFloat = true) :
    ivSentinel rs c = specNumericSentinel rs c := by
  unfold ivSentinel specNumericSentinel
  cases pyParse c with
  | none => rfl
  | some q =>
    apply any_congr_mem
    intro r hr
    obtain ⟨lo, hi⟩ := r
    have hf := hfl _ hr
    obtain ⟨dlo, helo⟩ : ∃ d, lo = .float_ d := by
      cases lo <;> simp_all [PyScalar.isFloat]
    obtain ⟨dhi, hehi⟩ : ∃ d, hi = .float_ d := by
      cases hi <;> simp_all [PyScalar.isFloat]
    subst helo hehi
    rfl

/-- Extract the one block of a flatMap that survives a filter. -/
theorem flatMap_filter_single {α β : Type} [DecidableEq α] (l : List α) (f : α → List β)
    (p : β → Bool) (v : α) (hnd : l.Nodup) (hv : v ∈ l)
    (hz : ∀ w ∈ l, w ≠ v → (f w).filter p = []) :
    (l.flatMap f).filter p = (f v).filter p := by
  induction l with
  | nil => cases hv
  | cons a t ih =>
    rw [List.flatMap_cons, List.filter_append]
    rcases List.mem_cons.mp hv with h | h
    · subst h
      have : ∀ w ∈ t, (f w).filter p = [] := by
        intro w hw
        exact hz w (by simp [hw]) (fun he => (List.nodup_cons.mp hnd).1 (he ▸ hw))
      have ht : (t.flatMap f).filter p = [] := by
        rw [List.filter_flatMap]
        exact List.flatMap_eq_nil_iff.mpr (fun w hw => this w hw)
      rw [ht]
      simp
    · have ha : (f a).filter p = [] :=
        hz a (by simp) (fun he => (List.nodup_cons.mp hnd).1 (he ▸ h))
      rw [ha]
      simp only [List.nil_append]
      exact ih (List.nodup_cons.mp hnd).2 h
        (fun w hw hne => hz w (by simp [hw]) hne)

theorem specNumericSentinel_nil (c : PyScalar) : specNumericSentinel [] c = false := by
  unfold specNumericSentinel
  cases pyParse c <;> simp

/-- C1 (amended): for a variable whose missing ranges all carry
float-typed lo AND hi bounds, the generator classifies exactly as the
spec's numeric classifier: parse failure means substantive, success
means sentinel iff lo <= value <= hi for some range, inclusive. -/
theorem claim1_amended (m : Meta) (df : DF) (v : String)
    (hnd : m.column_names.Nodup) (hv : v ∈ m.column_names)
    (rs : List MRange) (hrs : alookup m.missing_ranges v = some rs)
    (hfl : ∀ r ∈ rs, r.lo.isFloat = true ∧ r.hi.isFloat = true)
    (processAll : Bool) (cs : Nat) :
    (generate_InstanceValue df m processAll cs).filter (fun n => ivIdOf v n.id) =
      (enumFrom 0 ((df.headRows (rowWindow df processAll cs)).col v).cells).map (fun p =>
        mkInstanceValue v p.1 (pyStr p.2)
          (if specNumericSentinel rs p.2 then "#sentinelValueDomain-" ++ v
           else "#substantiveValueDomain-" ++ v)) := by
  unfold generate_InstanceValue
  rw [flatMap_filter_single m.column_names _ _ v hnd hv]
  · rw [List.filter_map]
    have hall : ∀ p ∈ enumFrom 0 ((df.headRows (rowWindow df processAll cs)).col v).cells,
        ((fun n => ivIdOf v n.id) ∘ (fun p : Nat × PyScalar =>
          mkInstanceValue v p.1 (pyStr p.2)
            (if amem m.missing_ranges v && !(numericRangesOf m v).isEmpty &&
                ivSentinel (numericRangesOf m v) p.2 then
              "#sentinelValueDomain-" ++ v
            else "#substantiveValueDomain-" ++ v))) p = true := by
      intro p _
      simp [Function.comp, ivIdOf_mkInstanceValue]
    rw [List.filter_eq_self.mpr hall]
    apply List.map_congr_left
    intro p _
    have hnum : numericRangesOf m v = rs := by
      unfold numericRangesOf
      rw [hrs]
      simp
      exact fun r hr => (hfl r hr).1
    rw [hnum, amem_of_alookup_some hrs, ivSentinel_eq_spec rs p.2 hfl]
    cases hrs0 : rs with
    | nil => simp [specNumericSentinel_nil]
    | cons a t => simp
  · intro w hw hne
    rw [List.filter_map]
    have : ∀ p ∈ enumFrom 0 ((df.headRows (rowWindow df processAll cs)).col w).cells,
        ¬ (((fun n => ivIdOf v n.id) ∘ (fun p : Nat × PyScalar =>
          mkInstanceValue w p.1 (pyStr p.2)
            (if amem m.missing_ranges w && !(numericRangesOf m w).isEmpty &&
                ivSentinel (numericRangesOf m w) p.2 then
              "#sentinelValueDomain-" ++ w
            else "#substantiveValueDomain-" ++ w))) p = true) := by
      intro p _
      simp [Function.comp, ivIdOf_mkInstanceValue, hne]
    rw [List.filter_eq_nil_iff.mpr this]
    simp

/-- Fixture: the age example of the spec with float-typed bounds. -/
def mAgeFloat : Meta :=
  { column_names := ["age"], column_labels := [], original_variable_types := [],
    readstat_variable_types := [("age", "double")], variable_measure := [("age", "scale")],
    variable_value_labels := [],
    missing_ranges := [("age", [⟨.float_ ⟨98, 0⟩, .float_ ⟨99, 0⟩⟩])],
    missing_user_values := [], identifier_vars := [], measure_vars := [],
    attribute_vars := [], contextual_vars := [], synthetic_id_vars := [],
    variable_value_vars := [], file_format := none, delimiter := none, number_rows := 5 }

/-- Fixture: the same metadata with int-typed bounds. -/
def mAgeInt : Meta :=
  { mAgeFloat with missing_ranges := [("age", [⟨.int_ 98, .int_ 99⟩])] }

/-- Fixture: the age column 25, 98, 99, 100, "abc". -/
def dfAge : DF :=
  ⟨5, [("age", ⟨false, [.int_ 25, .int_ 98, .int_ 99, .int_ 100, .str_ "abc"]⟩)]⟩

/-- C1 counterexample: int-typed bounds 98..99 are numeric in the
claim's sense and 98 passes the claim's sentinel test, yet the
generator (which keeps only float-typed lo bounds in numeric_ranges)
classifies every one of the five values substantive. -/
theorem claim1_counterexample :
    specNumericSentinel [⟨.int_ 98, .int_ 99⟩] (.int_ 98) = true ∧
    (generate_InstanceValue dfAge mAgeInt true 5).map
        (fun n => alookup n.attrs "hasValueFrom_ValueDomain") =
      List.replicate 5 (some (.s "#substantiveValueDomain-age")) := by
  constructor
  · decide
  · decide

/-- C1 witness: float-typed bounds at the claim's own example give
substantive, sentinel, sentinel, substantive, substantive. -/
theorem claim1_witness :
    (generate_InstanceValue dfAge mAgeFloat true 5).filter (fun n => ivIdOf "age" n.id) =
      [mkInstanceValue "age" 0 "25" "#substantiveValueDomain-age",
       mkInstanceValue "age" 1 "98" "#sentinelValueDomain-age",
       mkInstanceValue "age" 2 "99" "#sentinelValueDomain-age",
       mkInstanceValue "age" 3 "100" "#substantiveValueDomain-age",
       mkInstanceValue "age" 4 "abc" "#substantiveValueDomain-age"] := by
  rw [claim1_amended mAgeFloat dfAge "age" (by decide) (by decide)
      [⟨.float_ ⟨98, 0⟩, .float_ ⟨99, 0⟩⟩] (by decide) (by decide) true 5]
  decide

/-! ## Claim C8: discrete string sentinel codes -/

/-- C8 (amended): when a variable's sentinel codes are discrete strings
(string-valued range bounds, or missing_user_values entries, leaving no
float-keyed numeric range), the generator never consults them: every
InstanceValue of the variable references the substantive value domain,
whatever the cell values are. -/
theorem claim8_amended (m : Meta) (df : DF) (v : String)
    (hnd : m.column_names.Nodup) (hv : v ∈ m.column_names)
    (h : numericRangesOf m v = [])
    (processAll : Bool) (cs : Nat) :
    (generate_InstanceValue df m processAll cs).filter (fun n => ivIdOf v n.id) =
      (enumFrom 0 ((df.headRows (rowWindow df processAll cs)).col v).cells).map (fun p =>
        mkInstanceValue v p.1 (pyStr p.2) ("#substantiveValueDomain-" ++ v)) := by
  unfold generate_InstanceValue
  rw [flatMap_filter_single m.column_names _ _ v hnd hv]
  · rw [List.filter_map]
    have hall : ∀ p ∈ enumFrom 0 ((df.headRows (rowWindow df processAll cs)).col v).cells,
        ((fun n => ivIdOf v n.id) ∘ (fun p : Nat × PyScalar =>
          mkInstanceValue v p.1 (pyStr p.2)
            (if amem m.missing_ranges v && !(numericRangesOf m v).isEmpty &&
                ivSentinel (numericRangesOf m v) p.2 then
              "#sentinelValueDomain-" ++ v
            else "#substantiveValueDomain-" ++ v))) p = true := by
      intro p _
      simp [Function.comp, ivIdOf_mkInstanceValue]
    rw [List.filter_eq_self.mpr hall]
    apply List.map_congr_left
    intro p _
    rw [h]
    simp
  · intro w hw hne
    rw [List.filter_map]
    have : ∀ p ∈ enumFrom 0 ((df.headRows (rowWindow df processAll cs)).col w).cells,
        ¬ (((fun n => ivIdOf v n.id) ∘ (fun p : Nat × PyScalar =>
          mkInstanceValue w p.1 (pyStr p.2)
            (if amem m.missing_ranges w && !(numericRangesOf m w).isEmpty &&
                ivSentinel (numericRangesOf m w) p.2 then
              "#sentinelValueDomain-" ++ w
            else "#substantiveValueDomain-" ++ w))) p = true) := by
      intro p _
      simp [Function.comp, ivIdOf_mkInstanceValue, hne]
    rw [List.filter_eq_nil_iff.mpr this]
    simp

/-- Fixture: a variable whose missing range carries string bounds. -/
def mStrCodes : Meta :=
  { mAgeFloat with
    column_names := ["q"]
    readstat_variable_types := [("q", "string")]
    variable_measure := [("q", "nominal")]
    missing_ranges := [("q", [⟨.str_ "X", .str_ "X"⟩])]
    number_rows := 2 }

/-- Fixture: a variable with only missing_user_values codes. -/
def mUserCodes : Meta :=
  { mStrCodes with
    missing_ranges := []
    missing_user_values := [("q", [.str_ "abc"])] }

def dfStr : DF := ⟨2, [("q", ⟨false, [.str_ "X", .str_ "ok"]⟩)]⟩

def dfUser : DF := ⟨2, [("q", ⟨false, [.str_ "abc", .str_ "ok"]⟩)]⟩

/-- C8 counterexample: the cell "X" exactly matches the discrete string
code X of its variable's missing range (and "abc" matches its
missing_user_values code), yet both InstanceValues reference the
substantive value domain: string codes never produce a sentinel
classification. -/
theorem claim8_counterexample :
    (pyStr (.str_ "X") = "X") ∧
    (generate_InstanceValue dfStr mStrCodes true 5).map
        (fun n => alookup n.attrs "hasValueFrom_ValueDomain") =
      List.replicate 2 (some (.s "#substantiveValueDomain-q")) ∧
    (generate_InstanceValue dfUser mUserCodes true 5).map
        (fun n => alookup n.attrs "hasValueFrom_ValueDomain") =
      List.replicate 2 (some (.s "#substantiveValueDomain-q")) := by
  refine ⟨rfl, by decide, by decide⟩

/-- C8 witness: the amended claim at the string-bound fixture. -/
theorem claim8_witness :
    (generate_InstanceValue dfStr mStrCodes true 5).filter (fun n => ivIdOf "q" n.id) =
      [mkInstanceValue "q" 0 "X" "#substantiveValueDomain-q",
       mkInstanceValue "q" 1 "ok" "#substantiveValueDomain-q"] := by
  rw [claim8_amended mStrCodes dfStr "q" (by decide) (by decide) (by decide) true 5]
  decide

/-! ## Claim C6: the type mapper -/

/-- The canonical type URIs the mapper can produce. -/
def xsdCanonical : List String :=
  ["https://www.w3.org/TR/xmlschema-2/#byte",
   "https://www.w3.org/TR/xmlschema-2/#short",
   "https://www.w3.org/TR/xmlschema-2/#int",
   "https://www.w3.org/TR/xmlschema-2/#long",
   "https://www.w3.org/TR/xmlschema-2/#integer",
   "https://www.w3.org/TR/xmlschema-2/#unsignedByte",
   "https://www.w3.org/TR/xmlschema-2/#unsignedShort",
   "https://www.w3.org/TR/xmlschema-2/#unsignedInt",
   "https://www.w3.org/TR/xmlschema-2/#unsignedLong",
   "https://www.w3.org/TR/xmlschema-2/#float",
   "https://www.w3.org/TR/xmlschema-2/#double",
   "https://www.w3.org/TR/xmlschema-2/#decimal",
   xsdString,
   "https://www.w3.org/TR/xmlschema-2/#dateTime",
   "https://www.w3.org/TR/xmlschema-2/#date",
   "https://www.w3.org/TR/xmlschema-2/#time",
   "https://www.w3.org/TR/xmlschema-2/#duration",
   "https://www.w3.org/TR/xmlschema-2/#boolean"]

theorem alookup_cons {α : Type} (a : String × α) (t : List (String × α)) (k : String) :
    alookup (a :: t) k = if (a.1 == k) = true then some a.2 else alookup t k := by
  by_cases hk : (a.1 == k) = true <;> simp [alookup, List.find?_cons, hk]

theorem alookup_mem {α : Type} (k : String) (x : α) :
    ∀ (l : List (String × α)), alookup l k = some x → x ∈ l.map Prod.snd := by
  intro l
  induction l with
  | nil => intro h; simp [alookup] at h
  | cons a t ih =>
    intro h
    rw [alookup_cons] at h
    by_cases hk : (a.1 == k) = true
    · simp [hk] at h
      simp [← h]
    · simp [hk] at h
      simp [ih h]

/-- C6 (amended): the mapper is total over the canonical URI set, is
case-insensitive through lowercasing, and applies the substring
heuristics FIRST, in priority order int, float, date, bool; the exact
table is consulted only when no substring matches, with the string URI
as final fallback. In particular the exact-table entry int64 is
shadowed by the int heuristic. -/
theorem claim6_amended :
    (∀ s : String, strHas (lcStr s) "int" = true →
      map_to_xsd_type s = "https://www.w3.org/TR/xmlschema-2/#int") ∧
    (∀ s : String, strHas (lcStr s) "int" = false → strHas (lcStr s) "float" = true →
      map_to_xsd_type s = "https://www.w3.org/TR/xmlschema-2/#double") ∧
    (∀ s : String, strHas (lcStr s) "int" = false → strHas (lcStr s) "float" = false →
      strHas (lcStr s) "date" = true →
      map_to_xsd_type s = "https://www.w3.org/TR/xmlschema-2/#dateTime") ∧
    (∀ s : String, strHas (lcStr s) "int" = false → strHas (lcStr s) "float" = false →
      strHas (lcStr s) "date" = false → strHas (lcStr s) "bool" = true →
      map_to_xsd_type s = "https://www.w3.org/TR/xmlschema-2/#boolean") ∧
    (∀ s : String, strHas (lcStr s) "int" = false → strHas (lcStr s) "float" = false →
      strHas (lcStr s) "date" = false → strHas (lcStr s) "bool" = false →
      map_to_xsd_type s = alookupD xsdTable (lcStr s) xsdString) ∧
    (∀ s : String, map_to_xsd_type s ∈ xsdCanonical) := by
  have htab : ∀ k, alookupD xsdTable k xsdString ∈ xsdCanonical := by
    intro k
    unfold alookupD
    cases h : alookup xsdTable k with
    | none => simp [xsdCanonical, xsdString]
    | some x =>
      have hx := alookup_mem k x xsdTable h
      have hsub : ∀ y ∈ xsdTable.map Prod.snd, y ∈ xsdCanonical := by decide
      simp only [Option.getD_some]
      exact hsub x hx
  refine ⟨?_, ?_, ?_, ?_, ?_, ?_⟩
  · intro s h1; simp [map_to_xsd_type, h1]
  · intro s h1 h2; simp [map_to_xsd_type, h1, h2]
  · intro s h1 h2 h3; simp [map_to_xsd_type, h1, h2, h3]
  · intro s h1 h2 h3 h4; simp [map_to_xsd_type, h1, h2, h3, h4]
  · intro s h1 h2 h3 h4; simp [map_to_xsd_type, h1, h2, h3, h4]
  · intro s
    unfold map_to_xsd_type
    by_cases h1 : strHas (lcStr s) "int"
    · simp [h1, xsdCanonical]
    · by_cases h2 : strHas (lcStr s) "float"
      · simp [h1, h2, xsdCanonical]
      · by_cases h3 : strHas (lcStr s) "date"
        · simp [h1, h2, h3, xsdCanonical]
        · by_cases h4 : strHas (lcStr s) "bool"
          · simp [h1, h2, h3, h4, xsdCanonical]
          · simp only [h1, h2, h3, h4, Bool.false_eq_true, if_false]
            exact htab (lcStr s)

/-- C6 counterexample: exact lookup does NOT come first: int64 has an
exact table entry mapping to the long URI, but the int substring
heuristic wins and the mapper returns the int URI. -/
theorem claim6_counterexample :
    map_to_xsd_type "int64" = "https://www.w3.org/TR/xmlschema-2/#int" ∧
    alookup xsdTable "int64" = some "https://www.w3.org/TR/xmlschema-2/#long" ∧
    "https://www.w3.org/TR/xmlschema-2/#int" ≠ "https://www.w3.org/TR/xmlschema-2/#long" := by
  refine ⟨by decide, by decide, by decide⟩

/-- C6 witness: the amended mapper at concrete tags. -/
theorem claim6_witness :
    map_to_xsd_type "Int64" = "https://www.w3.org/TR/xmlschema-2/#int" ∧
    map_to_xsd_type "timestamp" = alookupD xsdTable (lcStr "timestamp") xsdString ∧
    map_to_xsd_type "mystery" ∈ xsdCanonical :=
  ⟨claim6_amended.1 "Int64" (by decide),
   claim6_amended.2.2.2.2.1 "timestamp" (by decide) (by decide) (by decide) (by decide),
   claim6_amended.2.2.2.2.2 "mystery"⟩

/-! ## Claim C9: substantive concept scheme top concepts -/

/-- The amended exclusion test: a value-label key is excluded iff it
equals (Python ==) an INTEGER point of a truncated numeric range, or its
string form matches such an integer's string form, or it matches a
string-typed lo code by value or string form; with no ranges at all, iff
its string form equals a user-missing value's string form. Non-integer
numeric keys inside a range are NOT excluded. -/
def amendedSentinelKey (m : Meta) (v : String) (k : PyScalar) : Bool :=
  if !m.missing_ranges.isEmpty then
    ((alookup m.missing_ranges v).getD []).any (fun r =>
      if boundIsNumeric r.lo && boundIsNumeric r.hi then
        (intRange (boundToInt r.lo) (boundToInt r.hi)).any (fun j =>
          pyEqv k (.int_ j) || pyStr k == intRepr j)
      else if r.lo.isStr then pyEqv k r.lo || pyStr k == pyStr r.lo
      else false)
  else
    ((alookup m.missing_user_values v).getD []).any (fun u => pyStr k == pyStr u)

theorem contains_eq_any (l : List String) (x : String) :
    l.contains x = l.any (fun e => x == e) := by
  rw [Bool.eq_iff_iff]
  constructor
  · intro h
    have hm : x ∈ l := by simpa using h
    simp only [List.any_eq_true]
    exact ⟨x, hm, by simp⟩
  · intro h
    simp only [List.any_eq_true] at h
    obtain ⟨e, he, hx⟩ := h
    have hxe : x = e := by simpa using hx
    subst hxe
    simpa using he

theorem any_map_g {α β : Type} (l : List α) (f : α → β) (p : β → Bool) :
    (l.map f).any p = l.any (fun a => p (f a)) := by
  induction l with
  | nil => rfl
  | cons a t ih => simp [List.any_cons, ih]

theorem any_flatMap {α β : Type} (l : List α) (g : α → List β) (p : β → Bool) :
    (l.flatMap g).any p = l.any (fun a => (g a).any p) := by
  induction l with
  | nil => rfl
  | cons a t ih => simp [List.flatMap_cons, List.any_append, List.any_cons, ih]

theorem any_or_fuse {α : Type} (l : List α) (p q : α → Bool) :
    (l.any p || l.any q) = l.any (fun a => p a || q a) := by
  rw [Bool.eq_iff_iff]
  simp only [Bool.or_eq_true, List.any_eq_true]
  constructor
  · rintro (⟨a, ha, hp⟩ | ⟨a, ha, hq⟩)
    · exact ⟨a, ha, by simp [hp]⟩
    · exact ⟨a, ha, by simp [hq]⟩
  · rintro ⟨a, ha, h⟩
    rcases h with h | h
    · exact Or.inl ⟨a, ha, h⟩
    · exact Or.inr ⟨a, ha, h⟩

theorem pyEqv_str_fuse (k : PyScalar) (t : String) :
    (pyEqv k (.str_ t) || pyStr k == t) = (pyStr k == t) := by
  cases k <;> simp [pyEqv, pyStr]

/-- C9 (amended): the substantive concept scheme's top concepts are the
variable's value-label keys minus exactly the amendedSentinelKey
matches; in particular a non-integer key inside a numeric range
survives even though the row-level classifier would call it sentinel. -/
theorem claim9_amended (m : Meta) (v : String) (vd : List (PyScalar × String)) :
    scsTop m v vd =
      (vd.filter (fun p => !amendedSentinelKey m v p.1)).map (fun p =>
        "#" ++ v ++ "-concept-" ++ pyStr p.1) := by
  unfold scsTop
  show (vd.filter (fun p : PyScalar × String => !(scsExcluded m v).any (pyEqv p.1) &&
      !((scsExcluded m v).map pyStr).contains (pyStr p.1))).map (fun p : PyScalar × String =>
        "#" ++ v ++ "-concept-" ++ pyStr p.1) = _
  refine congrArg (List.map (fun p : PyScalar × String =>
    "#" ++ v ++ "-concept-" ++ pyStr p.1)) ?_
  apply List.filter_congr
  intro p _
  have key : ((scsExcluded m v).any (pyEqv p.1) ||
      ((scsExcluded m v).map pyStr).contains (pyStr p.1)) = amendedSentinelKey m v p.1 := by
    rw [contains_eq_any, any_map_g, any_or_fuse]
    unfold scsExcluded amendedSentinelKey
    cases hmr : m.missing_ranges with
    | nil =>
      simp only [List.isEmpty_nil, Bool.not_true, Bool.false_eq_true, if_false]
      cases alookup m.missing_user_values v with
      | none => simp
      | some us =>
        simp only [Option.getD_some]
        rw [any_map_g]
        apply any_congr_mem
        intro u _
        exact pyEqv_str_fuse p.1 (pyStr u)
    | cons a0 t0 =>
      simp only [List.isEmpty_cons, Bool.not_false, if_true]
      cases alookup (a0 :: t0) v with
      | none => simp
      | some rs =>
        simp only [Option.getD_some, Bool.not_false, if_true]
        rw [any_flatMap]
        apply any_congr_mem
        intro r _
        by_cases hn : (boundIsNumeric r.lo && boundIsNumeric r.hi) = true
        · simp only [hn, if_true]
          rw [any_map_g]
          rfl
        · simp only [hn, if_false]
          by_cases hs : r.lo.isStr = true
          · simp [hs]
          · simp [hs]
  rw [← key]
  rw [Bool.not_or]

/-- Fixture: value labels with a non-integer key inside the range. -/
def mLabHalf : Meta :=
  { mAgeFloat with
    column_names := ["v"]
    readstat_variable_types := [("v", "double")]
    variable_measure := [("v", "nominal")]
    variable_value_labels := [("v", [(.str_ "98.5", "DK"), (.int_ 1, "yes")])]
    missing_ranges := [("v", [⟨.float_ ⟨98, 0⟩, .float_ ⟨99, 0⟩⟩])] }

/-- C9 counterexample: the key 98.5 parses into the sentinel range
98..99 - the Missing-Value Classifier calls it sentinel - yet the
substantive concept scheme keeps its concept: only the integer points
98 and 99 are excluded. -/
theorem claim9_counterexample :
    specNumericSentinel [⟨.float_ ⟨98, 0⟩, .float_ ⟨99, 0⟩⟩] (.str_ "98.5") = true ∧
    scsTop mLabHalf "v" [(.str_ "98.5", "DK"), (.int_ 1, "yes")] =
      ["#v-concept-98.5", "#v-concept-1"] := by
  refine ⟨by decide, by decide⟩

/-! ## Claim C10: missing_ranges shadows missing_user_values -/

/-- Two appended strings differ when their constant heads disagree at
some index inside both heads. -/
theorem string_ne_of_data_get (p q a b : String) (k : Nat)
    (h1 : k < p.data.length) (h2 : k < q.data.length)
    (h3 : p.data.get? k ≠ q.data.get? k) : p ++ a ≠ q ++ b := by
  intro he
  have hd : (p ++ a).data.get? k = (q ++ b).data.get? k := by rw [he]
  rw [string_append_data, string_append_data,
    List.get?_append h1, List.get?_append h2] at hd
  exact h3 hd

theorem alookup_none_of_not_mem_keys {α : Type} (k : String) :
    ∀ (l : List (String × α)), amem l k = false → alookup l k = none := by
  intro l h
  unfold amem at h
  cases ha : alookup l k with
  | none => rfl
  | some x => rw [ha] at h; simp at h

theorem mem_akeys_of_alookup_some {α : Type} (k : String) (x : α) :
    ∀ (l : List (String × α)), alookup l k = some x → k ∈ akeys l := by
  intro l
  induction l with
  | nil => intro h; simp [alookup] at h
  | cons a t ih =>
    intro h
    rw [alookup_cons] at h
    show k ∈ a.1 :: akeys t
    by_cases hk : (a.1 == k) = true
    · exact List.mem_cons.mpr (Or.inl (beq_iff_eq.mp hk).symm)
    · simp only [hk, if_false] at h
      exact List.mem_cons.mpr (Or.inr (ih h))

theorem amem_true_of_mem_akeys {α : Type} (k : String) :
    ∀ (l : List (String × α)), k ∈ akeys l → amem l k = true := by
  intro l
  induction l with
  | nil => intro h; simp [akeys] at h
  | cons a t ih =>
    intro h
    unfold amem
    rw [alookup_cons]
    by_cases hk : (a.1 == k) = true
    · simp [hk]
    · simp only [hk, if_false]
      have h0 : k ∈ a.1 :: akeys t := h
      have h2 : k ∈ akeys t := by
        rcases List.mem_cons.mp h0 with h1 | h1
        · exact absurd (beq_iff_eq.mpr h1.symm) hk
        · exact h1
      have h3 := ih h2
      unfold amem at h3
      simpa using h3

/-- C10: when missing_ranges is nonempty, missing_user_values is dead:
a variable v with no missing_ranges entry gets no takesSentinelValuesFrom
reference, no SentinelValueDomain, no sentinel ValueAndConceptDescription
and no SentinelConceptScheme, whatever its missing_user_values say. -/
theorem claim10_user_values_shadowed (m : Meta) (v : String)
    (hne : m.missing_ranges ≠ [])
    (hnv : amem m.missing_ranges v = false) :
    (∀ n ∈ generate_InstanceVariable m, n.id = "#instanceVariable-" ++ v →
      alookup n.attrs "takesSentinelValuesFrom" = none) ∧
    (∀ n ∈ generate_SentinelValueDomain m, n.id ≠ "#sentinelValueDomain-" ++ v) ∧
    (∀ n ∈ generate_ValueAndConceptDescription m,
      n.id ≠ "#sentinelValueAndConceptDescription-" ++ v) ∧
    (∀ n ∈ generate_SentinelConceptScheme m, n.id ≠ "#sentinelConceptScheme-" ++ v) := by
  have hkeys : v ∉ akeys m.missing_ranges := by
    intro hmem
    rw [amem_true_of_mem_akeys v _ hmem] at hnv
    cases hnv
  have hrel : (if !m.missing_ranges.isEmpty then akeys m.missing_ranges
      else akeys m.missing_user_values) = akeys m.missing_ranges := by
    cases hm : m.missing_ranges with
    | nil => exact absurd hm hne
    | cons a t => simp
  refine ⟨?_, ?_, ?_, ?_⟩
  · intro n hn hid
    unfold generate_InstanceVariable at hn
    obtain ⟨w, hw, he⟩ := List.mem_map.mp hn
    have hwv : w = v := by
      have : "#instanceVariable-" ++ w = "#instanceVariable-" ++ v := by
        rw [← hid, ← he]
      exact string_append_left_cancel this
    subst hwv
    rw [← he]
    have hcond : (amem m.missing_ranges w ||
        (m.missing_ranges.isEmpty && amem m.missing_user_values w)) = false := by
      cases hm : m.missing_ranges with
      | nil => exact absurd hm hne
      | cons a t =>
        rw [hm] at hnv
        simp [hnv]
    simp only [hcond, Bool.false_eq_true, if_false]
    rfl
  · intro n hn
    unfold generate_SentinelValueDomain at hn
    rw [hrel] at hn
    obtain ⟨w, hw, he⟩ := List.mem_map.mp hn
    intro hid
    rw [← he] at hid
    have hwv : w = v := string_append_left_cancel hid
    exact hkeys (hwv ▸ hw)
  · intro n hn
    unfold generate_ValueAndConceptDescription at hn
    rw [List.mem_append] at hn
    rcases hn with hn | hn
    · obtain ⟨w, hw, he⟩ := List.mem_map.mp hn
      intro hid
      rw [← he] at hid
      exact absurd hid (by
        apply string_ne_of_data_get "#substantiveValueAndConceptDescription-"
          "#sentinelValueAndConceptDescription-" w v 2 (by decide) (by decide) (by decide))
    · have hsel : (if !m.missing_ranges.isEmpty then
          m.missing_ranges.map (fun p => mkSentinelVaCD p.1 (pyReprRanges p.2)
            (pyMinL (p.2.map (·.lo))) (pyMaxL (p.2.map (·.hi))))
          else m.missing_user_values.map (fun p =>
            mkSentinelVaCD p.1 (pyReprScalars p.2) (pyMinL p.2) (pyMaxL p.2))) =
          m.missing_ranges.map (fun p => mkSentinelVaCD p.1 (pyReprRanges p.2)
            (pyMinL (p.2.map (·.lo))) (pyMaxL (p.2.map (·.hi)))) := by
        cases hm : m.missing_ranges with
        | nil => exact absurd hm hne
        | cons a t => simp
      rw [hsel] at hn
      obtain ⟨q, hq, he⟩ := List.mem_map.mp hn
      intro hid
      rw [← he] at hid
      have hwv : q.1 = v := string_append_left_cancel hid
      refine hkeys ?_
      rw [← hwv]
      unfold akeys
      exact List.mem_map.mpr ⟨q, hq, rfl⟩
  · intro n hn
    unfold generate_SentinelConceptScheme at hn
    rw [hrel] at hn
    obtain ⟨w, hw, he⟩ := List.mem_flatMap.mp hn
    intro hid
    by_cases hlab : amem m.variable_value_labels w
    · simp only [hlab] at he
      by_cases htop : (sentinelTop m w).isEmpty
      · simp [htop] at he
      · simp [htop] at he
        rw [he] at hid
        simp at hid
        have hwv : w = v := string_append_left_cancel hid
        exact hkeys (hwv ▸ hw)
    · simp [hlab] at he

/-- Fixture: variable a carries a missing range, variable b only
missing_user_values. -/
def mShadow : Meta :=
  { mAgeFloat with
    column_names := ["a", "b"]
    readstat_variable_types := [("a", "double"), ("b", "double")]
    variable_measure := [("a", "scale"), ("b", "scale")]
    missing_ranges := [("a", [⟨.float_ ⟨98, 0⟩, .float_ ⟨99, 0⟩⟩])]
    missing_user_values := [("b", [.float_ ⟨7, 0⟩])]
    number_rows := 0 }

/-- C10 witness: with a's range present, b's user-missing codes leave
no trace in any sentinel artefact. -/
theorem claim10_witness :
    (∀ n ∈ generate_InstanceVariable mShadow, n.id = "#instanceVariable-" ++ "b" →
      alookup n.attrs "takesSentinelValuesFrom" = none) ∧
    (∀ n ∈ generate_SentinelValueDomain mShadow, n.id ≠ "#sentinelValueDomain-" ++ "b") ∧
    (∀ n ∈ generate_ValueAndConceptDescription mShadow,
      n.id ≠ "#sentinelValueAndConceptDescription-" ++ "b") ∧
    (∀ n ∈ generate_SentinelConceptScheme mShadow, n.id ≠ "#sentinelConceptScheme-" ++ "b") :=
  claim10_user_values_shadowed mShadow "b" (by decide) (by decide)

/-! ## Claim C4: ComponentPosition counts -/

theorem enumFrom_length {α : Type} : ∀ (k : Nat) (l : List α), (enumFrom k l).length = l.length := by
  intro k l
  induction l generalizing k with
  | nil => rfl
  | cons x t ih => simp [enumFrom, ih]

theorem enumFrom_map_proj {α β : Type} (g : Nat → β) :
    ∀ (l : List α) (k : Nat),
      (enumFrom k l).map (fun p => g p.1) = (List.range l.length).map (fun i => g (k + i)) := by
  intro l
  induction l with
  | nil => intro k; rfl
  | cons x t ih =>
    intro k
    simp only [enumFrom, List.map_cons, List.length_cons, List.range_succ_eq_map]
    rw [ih (k+1)]
    simp only [List.map_map]
    congr 1
    apply List.map_congr_left
    intro i _
    simp only [Function.comp]
    exact congrArg g (by omega)

/-- Per-variable reference counts agree between the ComponentPosition
generator and the structure generator when the variable has a role (or
the format is key-value json, whose branches mirror each other). -/
theorem cp_dsc_len_eq (m : Meta) (v : String)
    (h : hasFmt m "json" = true ∨
      (m.identifier_vars.contains v || m.attribute_vars.contains v ||
       m.measure_vars.contains v) = true) :
    (cpRefsFor m v).length = (dscRefsFor m v).length ∧
    (dscRefsFor m v).length = dscCountFor m v := by
  unfold cpRefsFor dscRefsFor dscCountFor
  cases hj : hasFmt m "json" with
  | true =>
    have hnc : hasFmt m "netcdf" = false := by
      unfold hasFmt at hj ⊢
      rw [beq_iff_eq.mp hj]
      decide
    simp only [hj, hnc]
    split_ifs <;> simp_all
  | false =>
    have hc : (m.identifier_vars.contains v || m.attribute_vars.contains v ||
        m.measure_vars.contains v) = true := by
      rcases h with h | h
      · rw [hj] at h; cases h
      · exact h
    simp only [hj]
    by_cases hi : m.identifier_vars.contains v <;>
      by_cases ha : m.attribute_vars.contains v <;>
      by_cases hm2 : m.measure_vars.contains v <;>
      simp_all

/-- C4 (amended): for json inputs, and for other formats whenever every
column carries at least one explicit role, the ComponentPosition nodes
match the structure's DataStructureComponent references one to one, with
ids componentPosition-0 .. componentPosition-(n-1) in a single running
counter; a roleless non-json column instead contributes a default
measure reference with NO matching ComponentPosition node. -/
theorem claim4_amended (m : Meta)
    (h : hasFmt m "json" = true ∨
      ∀ v ∈ m.column_names, (m.identifier_vars.contains v || m.attribute_vars.contains v ||
        m.measure_vars.contains v) = true) :
    (generate_ComponentPosition m).length = (m.column_names.flatMap (dscRefsFor m)).length ∧
    (m.column_names.map (dscCountFor m)).sum = (m.column_names.flatMap (dscRefsFor m)).length ∧
    (generate_ComponentPosition m).map Node.id =
      (List.range (m.column_names.flatMap (dscRefsFor m)).length).map
        (fun i => "#componentPosition-" ++ decRepr i) := by
  have hv : ∀ v ∈ m.column_names, (cpRefsFor m v).length = (dscRefsFor m v).length ∧
      (dscRefsFor m v).length = dscCountFor m v := by
    intro v hvm
    apply cp_dsc_len_eq
    rcases h with h | h
    · exact Or.inl h
    · exact Or.inr (h v hvm)
  have hlen : (m.column_names.flatMap (cpRefsFor m)).length =
      (m.column_names.flatMap (dscRefsFor m)).length := by
    rw [List.length_flatMap, List.length_flatMap]
    congr 1
    apply List.map_congr_left
    intro v hvm
    exact (hv v hvm).1
  refine ⟨?_, ?_, ?_⟩
  · unfold generate_ComponentPosition
    rw [List.length_map, enumFrom_length, hlen]
  · rw [List.length_flatMap]
    congr 1
    apply List.map_congr_left
    intro v hvm
    exact ((hv v hvm).2).symm
  · unfold generate_ComponentPosition
    rw [List.map_map]
    have : ((fun n => Node.id n) ∘ (fun p : Nat × String =>
        ⟨"#componentPosition-" ++ decRepr p.1, "ComponentPosition",
         [("value", .n p.1), ("indexes", .s p.2)]⟩)) =
        (fun p : Nat × String => "#componentPosition-" ++ decRepr p.1) := rfl
    rw [this, enumFrom_map_proj (fun i => "#componentPosition-" ++ decRepr i)
      (m.column_names.flatMap (cpRefsFor m)) 0, hlen]
    simp

/-- Fixture: a single roleless column in the default format. -/
def mNoRole : Meta :=
  { mAgeFloat with
    column_names := ["c"]
    readstat_variable_types := [("c", "double")]
    variable_measure := [("c", "scale")]
    missing_ranges := []
    number_rows := 0 }

/-- C4 counterexample: the roleless column defaults to a measure
reference inside has_DataStructureComponent (and the structure reserves
componentPosition-0 for it), but generate_ComponentPosition has no
default-to-measure branch and emits zero nodes: 0 positions vs 1
structural reference. -/
theorem claim4_counterexample :
    (generate_ComponentPosition mNoRole).length = 0 ∧
    mNoRole.column_names.flatMap (dscRefsFor mNoRole) = ["#measureComponent-c"] ∧
    (mNoRole.column_names.map (dscCountFor mNoRole)).sum = 1 := by
  refine ⟨by decide, by decide, by decide⟩

/-- Fixture: both columns carry explicit roles. -/
def mRoles : Meta :=
  { mNoRole with
    column_names := ["k", "x"]
    readstat_variable_types := [("k", "double"), ("x", "double")]
    variable_measure := [("k", "scale"), ("x", "scale")]
    identifier_vars := ["k"]
    measure_vars := ["x"] }

/-- C4 witness: the amended count equality at a fully-role-assigned
fixture. -/
theorem claim4_witness :
    (generate_ComponentPosition mRoles).length =
      (mRoles.column_names.flatMap (dscRefsFor mRoles)).length ∧
    (mRoles.column_names.map (dscCountFor mRoles)).sum =
      (mRoles.column_names.flatMap (dscRefsFor mRoles)).length ∧
    (generate_ComponentPosition mRoles).map Node.id =
      (List.range (mRoles.column_names.flatMap (dscRefsFor mRoles)).length).map
        (fun i => "#componentPosition-" ++ decRepr i) :=
  claim4_amended mRoles (Or.inr (by decide))

/-! ## Membership characterizations of the generators -/

theorem mem_allDocNodes (l : List Node) (n : Node) :
    n ∈ allDocNodes ⟨(wrap_in_graph l).1, (wrap_in_graph l).2⟩ ↔ n ∈ l := by
  unfold allDocNodes wrap_in_graph
  simp only
  by_cases hs : (l.filter isSkosNode).isEmpty
  · have hnil : l.filter isSkosNode = [] := by
      cases hl : l.filter isSkosNode with
      | nil => rfl
      | cons a t => rw [hl] at hs; simp at hs
    simp only [hnil, List.isEmpty_nil, Bool.not_true, Bool.false_eq_true, if_false,
      Option.getD_none, List.append_nil]
    constructor
    · intro h
      exact (List.mem_filter.mp h).1
    · intro h
      refine List.mem_filter.mpr ⟨h, ?_⟩
      have := List.filter_eq_nil_iff.mp hnil n h
      simp [this]
  · have hcons : (l.filter isSkosNode).isEmpty = false := by
      simpa using hs
    simp only [hcons, Bool.not_false, if_true, Option.getD_some, List.mem_append]
    constructor
    · intro h
      rcases h with h | h
      · exact (List.mem_filter.mp h).1
      · exact (List.mem_filter.mp h).1
    · intro h
      by_cases hskos : isSkosNode n
      · exact Or.inr (List.mem_filter.mpr ⟨h, hskos⟩)
      · exact Or.inl (List.mem_filter.mpr ⟨h, by simp [hskos]⟩)

theorem mem_doc_iff_components (df : DF) (m : Meta) (f : String)
    (cs : Nat) (pa : Bool) (mr : Nat) (n : Node) :
    n ∈ allDocNodes (generate_complete_json_ld df m f cs pa mr) ↔
      n ∈ pipelineComponents df m f cs pa mr := by
  exact mem_allDocNodes (pipelineComponents df m f cs pa mr) n

theorem mem_enumFrom {α : Type} (p : Nat × α) :
    ∀ (l : List α) (k : Nat), p ∈ enumFrom k l → k ≤ p.1 ∧ p.1 - k < l.length ∧ p.2 ∈ l := by
  intro l
  induction l with
  | nil => intro k h; cases h
  | cons x t ih =>
    intro k h
    rcases List.mem_cons.mp h with h | h
    · subst h
      simp
    · obtain ⟨h1, h2, h3⟩ := ih (k+1) h
      exact ⟨by omega, by simp; omega, by simp [h3]⟩

/-! ## Claim C7: format branching -/

theorem hasFmt_excl (m : Meta) {a b : String} (h : hasFmt m a = true) (hne : a ≠ b) :
    hasFmt m b = false := by
  unfold hasFmt at h ⊢
  rw [beq_iff_eq.mp h]
  exact beq_eq_false_iff_ne.mpr (fun he => hne (Option.some.inj he))

theorem mem_ite_singleton {α : Type} {c : Prop} [Decidable c] {x n : α}
    (h : n ∈ if c then [x] else ([] : List α)) : n = x := by
  split at h
  · exact List.mem_singleton.mp h
  · cases h

/-- Every node of a key-value (json) document has a type other than
PrimaryKey, although identifier components are still emitted. -/
theorem json_doc_no_primary_key (df : DF) (m : Meta) (f : String)
    (cs : Nat) (pa : Bool) (mr : Nat) (hj : hasFmt m "json" = true) :
    ∀ n ∈ allDocNodes (generate_complete_json_ld df m f cs pa mr), n.type ≠ "PrimaryKey" := by
  have hnc : hasFmt m "netcdf" = false := hasFmt_excl m hj (by decide)
  intro n hn
  rw [mem_doc_iff_components] at hn
  unfold pipelineComponents rowIVNodes rowDPNodes rowDPPNodes rowVMNodes at hn
  simp only [hj, Bool.and_true, Bool.and_false, Bool.not_true, Bool.false_eq_true,
    if_false, List.mem_append] at hn
  rcases hn with ((((((((((((((((((((((((((h | h) | h) | h) | h) | h) | h) | h) | h) | h) | h)
    | h) | h) | h) | h) | h) | h) | h) | h) | h) | h) | h) | h) | h) | h) | h) | h) | h
  · rw [List.mem_singleton.mp h]; exact (by decide : ("PhysicalDataSet" : String) ≠ "PrimaryKey")
  · rw [List.mem_singleton.mp h]; exact (by decide : ("PhysicalRecordSegment" : String) ≠ "PrimaryKey")
  · rw [List.mem_singleton.mp h]; exact (by decide : ("PhysicalSegmentLayout" : String) ≠ "PrimaryKey")
  · unfold generate_ValueMapping at h
    split at h <;>
      (obtain ⟨x, _, he⟩ := List.mem_map.mp h; rw [← he]; exact (by decide : ("ValueMapping" : String) ≠ "PrimaryKey"))
  · unfold generate_ValueMappingPosition at h
    obtain ⟨x, _, he⟩ := List.mem_map.mp h
    rw [← he]; exact (by decide : ("ValueMappingPosition" : String) ≠ "PrimaryKey")
  · unfold generate_DataPoint at h
    split at h <;>
      (obtain ⟨v, _, hv⟩ := List.mem_flatMap.mp h;
       obtain ⟨i, _, he⟩ := List.mem_map.mp hv; rw [← he]; exact (by decide : ("DataPoint" : String) ≠ "PrimaryKey"))
  · unfold generate_DataPointPosition at h
    split at h <;>
      (obtain ⟨v, _, hv⟩ := List.mem_flatMap.mp h;
       obtain ⟨i, _, he⟩ := List.mem_map.mp hv; rw [← he]; exact (by decide : ("DataPointPosition" : String) ≠ "PrimaryKey"))
  · split at h
    · unfold chunkInstanceValues chunkBlock at h
      obtain ⟨ci, _, hci⟩ := List.mem_flatMap.mp h
      obtain ⟨v, _, hv⟩ := List.mem_flatMap.mp hci
      obtain ⟨p, _, he⟩ := List.mem_map.mp hv
      rw [← he]; exact (by decide : ("InstanceValue" : String) ≠ "PrimaryKey")
    · unfold generate_InstanceValue at h
      obtain ⟨v, _, hv⟩ := List.mem_flatMap.mp h
      obtain ⟨p, _, he⟩ := List.mem_map.mp hv
      rw [← he]; exact (by decide : ("InstanceValue" : String) ≠ "PrimaryKey")
  · rw [List.mem_singleton.mp h]; exact (by decide : ("DataStore" : String) ≠ "PrimaryKey")
  · rw [List.mem_singleton.mp h]; exact (by decide : ("LogicalRecord" : String) ≠ "PrimaryKey")
  · rw [List.mem_singleton.mp h]
    show datasetType m ≠ "PrimaryKey"
    unfold datasetType
    split <;> decide
  · rw [List.mem_singleton.mp h]
    show structureType m ≠ "PrimaryKey"
    unfold structureType
    split <;> decide
  · unfold generate_MeasureComponent at h
    rw [hj] at h
    simp at h
  · unfold generate_InstanceVariable at h
    obtain ⟨v, _, he⟩ := List.mem_map.mp h
    rw [← he]; exact (by decide : ("InstanceVariable" : String) ≠ "PrimaryKey")
  · unfold generate_SubstantiveValueDomain at h
    obtain ⟨v, _, he⟩ := List.mem_map.mp h
    rw [← he]; exact (by decide : ("SubstantiveValueDomain" : String) ≠ "PrimaryKey")
  · unfold generate_SubstantiveEnumerationDomain at h
    obtain ⟨v, _, hv⟩ := List.mem_flatMap.mp h
    split at hv
    · split at hv
      · rw [List.mem_singleton.mp hv]; exact (by decide : ("EnumerationDomain" : String) ≠ "PrimaryKey")
      · cases hv
    · cases hv
  · unfold generate_SentinelValueDomain at h
    obtain ⟨v, _, he⟩ := List.mem_map.mp h
    rw [← he]; exact (by decide : ("SentinelValueDomain" : String) ≠ "PrimaryKey")
  · unfold generate_SentinelEnumerationDomain at h
    obtain ⟨v, _, hv⟩ := List.mem_flatMap.mp h
    split at hv
    · rw [List.mem_singleton.mp hv]; exact (by decide : ("EnumerationDomain" : String) ≠ "PrimaryKey")
    · cases hv
  · unfold generate_ValueAndConceptDescription at h
    rcases List.mem_append.mp h with h2 | h2
    · obtain ⟨v, _, he⟩ := List.mem_map.mp h2
      rw [← he]; exact (by decide : ("ValueAndConceptDescription" : String) ≠ "PrimaryKey")
    · split at h2 <;>
        (obtain ⟨p, _, he⟩ := List.mem_map.mp h2; rw [← he]; exact (by decide : ("ValueAndConceptDescription" : String) ≠ "PrimaryKey"))
  · unfold generate_SubstantiveConceptScheme at h
    obtain ⟨p, _, hp⟩ := List.mem_flatMap.mp h
    rw [mem_ite_singleton (h := hp)]
    exact (by decide : ("skos:ConceptScheme" : String) ≠ "PrimaryKey")
  · unfold generate_SentinelConceptScheme at h
    obtain ⟨v, _, hv⟩ := List.mem_flatMap.mp h
    by_cases hlab : amem m.variable_value_labels v = true
    · simp only [hlab, if_true] at hv
      rw [mem_ite_singleton (h := hv)]
      exact (by decide : ("skos:ConceptScheme" : String) ≠ "PrimaryKey")
    · simp only [hlab, Bool.false_eq_true, if_false] at hv
      cases hv
  · unfold generate_Concept at h
    obtain ⟨p, _, hp⟩ := List.mem_flatMap.mp h
    obtain ⟨q, _, he⟩ := List.mem_map.mp hp
    rw [← he]; exact (by decide : ("skos:Concept" : String) ≠ "PrimaryKey")
  · split at h
    · unfold generate_IdentifierComponent at h
      rw [hnc] at h
      obtain ⟨v, _, he⟩ := List.mem_map.mp h
      rw [← he]; exact (by decide : ("IdentifierComponent" : String) ≠ "PrimaryKey")
    · cases h
  · split at h
    · unfold generate_AttributeComponent at h
      obtain ⟨v, _, he⟩ := List.mem_map.mp h
      rw [← he]; exact (by decide : ("AttributeComponent" : String) ≠ "PrimaryKey")
    · cases h
  · split at h
    · unfold generate_ContextualComponent at h
      rw [hj] at h
      simp only [if_true] at h
      obtain ⟨v, _, he⟩ := List.mem_map.mp h
      rw [← he]; exact (by decide : ("ContextualComponent" : String) ≠ "PrimaryKey")
    · cases h
  · split at h
    · unfold generate_SyntheticIdComponent at h
      rw [hj] at h
      simp only [if_true] at h
      obtain ⟨v, _, he⟩ := List.mem_map.mp h
      rw [← he]; exact (by decide : ("SyntheticIdComponent" : String) ≠ "PrimaryKey")
    · cases h
  · split at h
    · rcases List.mem_append.mp h with h2 | h2
      · unfold generate_VariableValueComponent at h2
        rw [hj] at h2
        simp only [if_true] at h2
        obtain ⟨v, _, he⟩ := List.mem_map.mp h2
        rw [← he]; exact (by decide : ("VariableValueComponent" : String) ≠ "PrimaryKey")
      · unfold generate_VariableDescriptorComponent at h2
        rw [hj] at h2
        simp only [if_true] at h2
        obtain ⟨v, _, he⟩ := List.mem_map.mp h2
        rw [← he]; exact (by decide : ("VariableDescriptorComponent" : String) ≠ "PrimaryKey")
    · cases h
  · unfold generate_ComponentPosition at h
    obtain ⟨p, _, he⟩ := List.mem_map.mp h
    rw [← he]; exact (by decide : ("ComponentPosition" : String) ≠ "PrimaryKey")

/-- C7: dimensional (netcdf) format uses dimensionComponent- and
qualifiedMeasure- id prefixes while PrimaryKey and PrimaryKeyComponent
generation is literally that of the tabular format (and the primary key
is emitted); key-value (json) format emits no PrimaryKey node even with
identifiers present, yet still emits the identifier components. -/
theorem claim7_format_branching (m mj : Meta) (df dfj : DF) (f fj : String)
    (cs csj : Nat) (pa paj : Bool) (mr mrj : Nat)
    (hn : hasFmt m "netcdf" = true) (hj : hasFmt mj "json" = true) :
    (∀ n ∈ generate_IdentifierComponent m, n.type = "DimensionComponent" ∧
      leadsWith "#dimensionComponent-".data n.id.data = true) ∧
    (∀ n ∈ generate_MeasureComponent m, n.type = "QualifiedMeasure" ∧
      leadsWith "#qualifiedMeasure-".data n.id.data = true) ∧
    generate_PrimaryKey m = generate_PrimaryKey { m with file_format := none } ∧
    generate_PrimaryKeyComponent m = generate_PrimaryKeyComponent { m with file_format := none } ∧
    (m.identifier_vars ≠ [] →
      "#primaryKey" ∈ (allDocNodes (generate_complete_json_ld df m f cs pa mr)).map Node.id) ∧
    (∀ n ∈ allDocNodes (generate_complete_json_ld dfj mj fj csj paj mrj),
      n.type ≠ "PrimaryKey") ∧
    (∀ v, v ∈ mj.identifier_vars → v ∈ mj.column_names →
      "#identifierComponent-" ++ v ∈
        (allDocNodes (generate_complete_json_ld dfj mj fj csj paj mrj)).map Node.id) := by
  have hnj : hasFmt m "json" = false := hasFmt_excl m hn (by decide)
  have hjn : hasFmt mj "netcdf" = false := hasFmt_excl mj hj (by decide)
  refine ⟨?_, ?_, rfl, rfl, ?_, json_doc_no_primary_key dfj mj fj csj paj mrj hj, ?_⟩
  · intro n hmem
    unfold generate_IdentifierComponent at hmem
    rw [hn] at hmem
    simp only [if_true] at hmem
    obtain ⟨v, _, he⟩ := List.mem_map.mp hmem
    refine ⟨by rw [← he], ?_⟩
    rw [← he]
    show leadsWith "#dimensionComponent-".data ("#" ++ "dimensionComponent" ++ "-" ++ v).data = true
    have : ("#" ++ "dimensionComponent" ++ "-" ++ v).data =
        "#dimensionComponent-".data ++ v.data := by
      simp [string_append_data]
    rw [this]
    exact leadsWith_append _ _
  · intro n hmem
    unfold generate_MeasureComponent at hmem
    rw [hnj] at hmem
    simp only [Bool.false_eq_true, if_false, hn, if_true] at hmem
    split at hmem <;>
    · obtain ⟨v, _, he⟩ := List.mem_map.mp hmem
      refine ⟨by rw [← he], ?_⟩
      rw [← he]
      show leadsWith "#qualifiedMeasure-".data ("#" ++ "qualifiedMeasure" ++ "-" ++ v).data = true
      have : ("#" ++ "qualifiedMeasure" ++ "-" ++ v).data =
          "#qualifiedMeasure-".data ++ v.data := by
        simp [string_append_data]
      rw [this]
      exact leadsWith_append _ _
  · intro hid
    have hidb : m.identifier_vars.isEmpty = false := by
      cases hm : m.identifier_vars with
      | nil => exact absurd hm hid
      | cons a t => rfl
    refine List.mem_map.mpr ⟨⟨"#primaryKey", "PrimaryKey",
      [("isComposedOf", .strs ((m.identifier_vars.filter
          (fun v => m.column_names.contains v)).map
          (fun v => "#primaryKeyComponent-" ++ v)))]⟩, ?_, rfl⟩
    rw [mem_doc_iff_components]
    unfold pipelineComponents
    simp only [List.mem_append]
    refine Or.inl (Or.inl (Or.inl (Or.inl (Or.inl (Or.inr ?_)))))
    rw [hnj, hidb]
    simp only [Bool.not_false, Bool.and_true, if_true]
    rw [List.mem_append]
    refine Or.inl ?_
    rw [List.mem_append]
    refine Or.inr ?_
    unfold generate_PrimaryKey
    rw [hidb]
    simp
  · intro v hv1 hv2
    have hidb : mj.identifier_vars.isEmpty = false := by
      cases hm : mj.identifier_vars with
      | nil => rw [hm] at hv1; cases hv1
      | cons a t => rfl
    refine List.mem_map.mpr ⟨⟨"#identifierComponent-" ++ v, "IdentifierComponent",
      [("isDefinedBy_InstanceVariable", .s ("#instanceVariable-" ++ v))]⟩, ?_, rfl⟩
    rw [mem_doc_iff_components]
    unfold pipelineComponents
    simp only [List.mem_append]
    refine Or.inl (Or.inl (Or.inl (Or.inl (Or.inl (Or.inr ?_)))))
    rw [hj, hidb]
    simp only [Bool.not_true, Bool.and_false, Bool.false_eq_true, if_false,
      Bool.not_false, Bool.and_true, if_true]
    unfold generate_IdentifierComponent
    rw [hjn]
    simp only [Bool.false_eq_true, if_false]
    refine List.mem_map.mpr ⟨v, ?_, ?_⟩
    · refine List.mem_filter.mpr ⟨hv1, ?_⟩
      show mj.column_names.contains v = true
      rw [contains_eq_any]
      exact List.any_eq_true.mpr ⟨v, hv2, by simp⟩
    · show (⟨"#" ++ "identifierComponent" ++ "-" ++ v, "IdentifierComponent",
        [("isDefinedBy_InstanceVariable", .s ("#instanceVariable-" ++ v))]⟩ : Node) =
        ⟨"#identifierComponent-" ++ v, "IdentifierComponent",
        [("isDefinedBy_InstanceVariable", .s ("#instanceVariable-" ++ v))]⟩
      have hpre : ("#identifierComponent-" : String) = "#" ++ "identifierComponent" ++ "-" := by
        decide
      rw [hpre]

/-- Fixture: a netcdf (dimensional) dataset with a dimension and a measure. -/
def mNc : Meta :=
  { mAgeFloat with
    column_names := ["lat", "temp"]
    readstat_variable_types := [("lat", "double"), ("temp", "double")]
    variable_measure := [("lat", "scale"), ("temp", "scale")]
    missing_ranges := []
    identifier_vars := ["lat"]
    measure_vars := ["temp"]
    file_format := some "netcdf"
    number_rows := 0 }

def dfNc : DF := ⟨0, [("lat", ⟨true, []⟩), ("temp", ⟨true, []⟩)]⟩

/-- Fixture: a key-value (json) dataset with an identifier variable. -/
def mJs : Meta :=
  { mAgeFloat with
    column_names := ["k", "val"]
    readstat_variable_types := [("k", "string"), ("val", "string")]
    variable_measure := [("k", "nominal"), ("val", "nominal")]
    missing_ranges := []
    identifier_vars := ["k"]
    file_format := some "json"
    number_rows := 0 }

def dfJs : DF := ⟨0, [("k", ⟨false, []⟩), ("val", ⟨false, []⟩)]⟩

/-- C7 witness: the format-branching facts at concrete netcdf and json
fixtures. -/
theorem claim7_witness :
    (∀ n ∈ generate_IdentifierComponent mNc, n.type = "DimensionComponent" ∧
      leadsWith "#dimensionComponent-".data n.id.data = true) ∧
    (∀ n ∈ generate_MeasureComponent mNc, n.type = "QualifiedMeasure" ∧
      leadsWith "#qualifiedMeasure-".data n.id.data = true) ∧
    generate_PrimaryKey mNc = generate_PrimaryKey { mNc with file_format := none } ∧
    generate_PrimaryKeyComponent mNc =
      generate_PrimaryKeyComponent { mNc with file_format := none } ∧
    (mNc.identifier_vars ≠ [] →
      "#primaryKey" ∈ (allDocNodes (generate_complete_json_ld dfNc mNc "a.nc" 5 false 5)).map Node.id) ∧
    (∀ n ∈ allDocNodes (generate_complete_json_ld dfJs mJs "b.json" 5 false 5),
      n.type ≠ "PrimaryKey") ∧
    (∀ v, v ∈ mJs.identifier_vars → v ∈ mJs.column_names →
      "#identifierComponent-" ++ v ∈
        (allDocNodes (generate_complete_json_ld dfJs mJs "b.json" 5 false 5)).map Node.id) :=
  claim7_format_branching mNc mJs dfNc dfJs "a.nc" "b.json" 5 5 false false 5 5
    (by decide) (by decide)

/-! ## Claim C2 -/

def mC2 : Meta :=
  { column_names := ["c"], column_labels := [], original_variable_types := [],
    readstat_variable_types := [], variable_measure := [],
    variable_value_labels := [],
    missing_ranges := [],
    missing_user_values := [], identifier_vars := [], measure_vars := [],
    attribute_vars := [], contextual_vars := [], synthetic_id_vars := [],
    variable_value_vars := [], file_format := none, delimiter := none, number_rows := 4 }

def dfC2 : DF :=
  ⟨4, [("c", ⟨false, [.str_ "025", .str_ "1", .str_ "2", .str_ "3"]⟩)]⟩

/-- C2 counterexample: the chunked path coerces the object column "025",
"1", "2", "3" to numeric per chunk, so chunk_size=3 emits content "25"
for row 0 while the direct path (chunk_size=1000, four rows) emits
"025": the documents do not even agree up to permutation. -/
theorem claim2_counterexample :
    ((generate_complete_json_ld dfC2 mC2 "c.csv" 1000 true 5).ddi.count
        (mkInstanceValue "c" 0 "025" "#substantiveValueDomain-c") = 1) ∧
    ((generate_complete_json_ld dfC2 mC2 "c.csv" 3 true 5).ddi.count
        (mkInstanceValue "c" 0 "025" "#substantiveValueDomain-c") = 0) ∧
    ¬ List.Perm (generate_complete_json_ld dfC2 mC2 "c.csv" 1000 true 5).ddi
        (generate_complete_json_ld dfC2 mC2 "c.csv" 3 true 5).ddi := by
  refine ⟨by decide, by decide, fun hp => ?_⟩
  have hc := hp.count_eq (mkInstanceValue "c" 0 "025" "#substantiveValueDomain-c")
  rw [(by decide : (generate_complete_json_ld dfC2 mC2 "c.csv" 1000 true 5).ddi.count
        (mkInstanceValue "c" 0 "025" "#substantiveValueDomain-c") = 1),
      (by decide : (generate_complete_json_ld dfC2 mC2 "c.csv" 3 true 5).ddi.count
        (mkInstanceValue "c" 0 "025" "#substantiveValueDomain-c") = 0)] at hc
  exact one_ne_zero hc

theorem enumFrom_append {α : Type} (a b : List α) : ∀ (k : Nat),
    enumFrom k (a ++ b) = enumFrom k a ++ enumFrom (k + a.length) b := by
  induction a with
  | nil => intro k; simp [enumFrom]
  | cons x t ih =>
    intro k
    show (k, x) :: enumFrom (k+1) (t ++ b) =
      ((k, x) :: enumFrom (k+1) t) ++ enumFrom (k + (t.length + 1)) b
    rw [List.cons_append, ih (k+1)]
    have h : k + 1 + t.length = k + (t.length + 1) := by omega
    rw [h]

theorem alookup_map_snd {α β : Type} (f : α → β) (k : String) :
    ∀ (l : List (String × α)),
    alookup (l.map (fun p => (p.1, f p.2))) k = (alookup l k).map f := by
  intro l
  induction l with
  | nil => rfl
  | cons p t ih =>
    simp only [List.map_cons, alookup, List.find?]
    by_cases h : (p.1 == k) = true
    · simp only [h]; rfl
    · simp only [h]; exact ih

theorem slice_col (df : DF) (a b : Nat) (v : String) :
    (df.slice a b).col v = ⟨(df.col v).numericDtype, ((df.col v).cells.take b).drop a⟩ := by
  unfold DF.slice DF.col
  rw [alookup_map_snd (fun c : Column => (⟨c.numericDtype, (c.cells.take b).drop a⟩ : Column)) v df.cols]
  cases alookup df.cols v <;> simp

theorem headRows_col (df : DF) (n : Nat) (v : String) :
    (df.headRows n).col v = ⟨(df.col v).numericDtype, (df.col v).cells.take n⟩ := by
  unfold DF.headRows DF.col
  rw [alookup_map_snd (fun c : Column => (⟨c.numericDtype, c.cells.take n⟩ : Column)) v df.cols]
  cases alookup df.cols v <;> simp

theorem enumFrom_shift {α : Type} (a : Nat) : ∀ (l : List α) (b : Nat),
    enumFrom (a + b) l = (enumFrom b l).map (fun p => (a + p.1, p.2)) := by
  intro l
  induction l with
  | nil => intro b; rfl
  | cons x t ih =>
    intro b
    show (a + b, x) :: enumFrom (a + b + 1) t =
      (a + b, x) :: (enumFrom (b + 1) t).map (fun p => (a + p.1, p.2))
    rw [← ih (b + 1)]
    rfl

theorem chunk_cover {α β : Type} (f : Nat → α → β) (cs : Nat) :
    ∀ (K : Nat) (off : Nat) (L : List α), L.length ≤ K * cs →
    (List.range K).flatMap (fun ci =>
      (enumFrom 0 ((L.take (ci * cs + cs)).drop (ci * cs))).map
        (fun p => f (off + (ci * cs + p.1)) p.2)) =
    (enumFrom off L).map (fun p => f p.1 p.2) := by
  intro K
  induction K with
  | zero =>
    intro off L hL
    have hnil : L = [] := List.eq_nil_of_length_eq_zero (by simpa using hL)
    subst hnil
    simp [enumFrom]
  | succ K ih =>
    intro off L hL
    rw [List.range_succ_eq_map, List.flatMap_cons, List.flatMap_map]
    have hb0 : (L.take (0 * cs + cs)).drop (0 * cs) = L.take cs := by
      simp
    have hbs : ((List.range K).flatMap (fun ci =>
        (enumFrom 0 ((L.take (Nat.succ ci * cs + cs)).drop (Nat.succ ci * cs))).map
          (fun p => f (off + (Nat.succ ci * cs + p.1)) p.2))) =
        (enumFrom (off + cs) (L.drop cs)).map (fun p => f p.1 p.2) := by
      have hlen : (L.drop cs).length ≤ K * cs := by
        rw [List.length_drop]
        rw [Nat.succ_mul] at hL
        omega
      rw [← ih (off + cs) (L.drop cs) hlen]
      apply List.flatMap_congr
      intro ci _
      have hlist : (L.take (Nat.succ ci * cs + cs)).drop (Nat.succ ci * cs)
          = ((L.drop cs).take (ci * cs + cs)).drop (ci * cs) := by
        rw [List.take_drop, List.drop_drop]
        have h1 : cs + (ci * cs + cs) = Nat.succ ci * cs + cs := by
          rw [Nat.succ_mul]; omega
        have h2 : cs + ci * cs = Nat.succ ci * cs := by
          rw [Nat.succ_mul]; omega
        rw [h1, h2]
      rw [hlist]
      apply List.map_congr_left
      intro p _
      have harg : off + (Nat.succ ci * cs + p.1) = off + cs + (ci * cs + p.1) := by
        rw [Nat.succ_mul]; omega
      rw [harg]
    rw [hb0, hbs]
    conv_rhs => rw [← List.take_append_drop cs L]
    rw [enumFrom_append, List.map_append]
    congr 1
    · have hsh : enumFrom off (L.take cs) =
          (enumFrom 0 (L.take cs)).map (fun p => (off + p.1, p.2)) := enumFrom_shift off _ 0
      rw [hsh, List.map_map]
      apply List.map_congr_left
      intro p _
      show f (off + (0 * cs + p.1)) p.2 = f (off + p.1) p.2
      rw [Nat.zero_mul, Nat.zero_add]
    · by_cases hlen : cs ≤ L.length
      · rw [List.length_take, Nat.min_eq_left hlen]
      · rw [List.drop_eq_nil_of_le (Nat.le_of_not_le hlen)]
        rfl

theorem count_flatMap_append {γ β : Type} [DecidableEq β] (g h : γ → List β) (b : β) :
    ∀ (l : List γ),
    (l.flatMap (fun c => g c ++ h c)).count b = (l.flatMap g).count b + (l.flatMap h).count b := by
  intro l
  induction l with
  | nil => rfl
  | cons y s ih =>
    simp only [List.flatMap_cons, List.count_append, ih]
    omega

theorem flatMap_swap_perm {α γ β : Type} [DecidableEq β] (l1 : List α) (l2 : List γ)
    (f : α → γ → List β) :
    (l1.flatMap (fun a => l2.flatMap (fun c => f a c))).Perm
      (l2.flatMap (fun c => l1.flatMap (fun a => f a c))) := by
  apply List.perm_iff_count.mpr
  intro b
  induction l1 with
  | nil =>
    have hz : l2.flatMap (fun _ => ([] : List β)) = [] := by
      induction l2 with
      | nil => rfl
      | cons y s ih2 => simp [List.flatMap_cons, ih2]
    simp [hz]
  | cons x t ih =>
    simp only [List.flatMap_cons, List.count_append, ih, count_flatMap_append]

def colStable (c : Column) : Bool :=
  c.numericDtype ||
  c.cells.all (fun x => !x.isFloat && !x.isStr) ||
  c.cells.all PyScalar.isFloat ||
  c.cells.all (fun x => x.isStr && (pyParse x).isNone)

def dtypeOkB (c : Column) : Bool := !c.numericDtype || c.cells.all PyScalar.isNum

theorem allParse_int : ∀ (cells : List PyScalar),
    cells.all (fun x => !x.isFloat && !x.isStr) = true →
    ∃ qs, allParseCells cells = some qs ∧ qs.any PyNum.isF = false ∧
      qs.map (fun q => match q with | .I n => PyScalar.int_ n | .F d => PyScalar.float_ d) = cells := by
  intro cells
  induction cells with
  | nil => intro _; exact ⟨[], rfl, rfl, rfl⟩
  | cons x t ih =>
    intro h
    rw [List.all_cons, Bool.and_eq_true] at h
    obtain ⟨qs, hq, hf, hmap⟩ := ih h.2
    cases x with
    | int_ n =>
      refine ⟨.I n :: qs, ?_, ?_, ?_⟩
      · show allParseCells (.int_ n :: t) = _
        unfold allParseCells
        rw [hq]; rfl
      · simp [List.any_cons, hf, PyNum.isF]
      · simp [List.map_cons, hmap]
    | float_ d => simp [PyScalar.isFloat] at h
    | str_ s => simp [PyScalar.isStr] at h

theorem allParse_float : ∀ (cells : List PyScalar),
    cells.all PyScalar.isFloat = true →
    ∃ qs, allParseCells cells = some qs ∧
      qs.map (fun q => match q with | .I n => PyScalar.int_ n | .F d => PyScalar.float_ d) = cells ∧
      qs.map (fun q => PyScalar.float_ q.toDec) = cells := by
  intro cells
  induction cells with
  | nil => intro _; exact ⟨[], rfl, rfl, rfl⟩
  | cons x t ih =>
    intro h
    rw [List.all_cons, Bool.and_eq_true] at h
    obtain ⟨qs, hq, hm1, hm2⟩ := ih h.2
    cases x with
    | int_ n => simp [PyScalar.isFloat] at h
    | float_ d =>
      refine ⟨.F d :: qs, ?_, ?_, ?_⟩
      · show allParseCells (.float_ d :: t) = _
        unfold allParseCells
        rw [hq]; rfl
      · simp [List.map_cons, hm1]
      · show PyScalar.float_ d :: qs.map (fun q => PyScalar.float_ q.toDec) =
          PyScalar.float_ d :: t
        rw [hm2]
    | str_ s => simp [PyScalar.isFloat] at h

theorem allParse_badstr : ∀ (cells : List PyScalar),
    cells.all (fun x => x.isStr && (pyParse x).isNone) = true →
    cells ≠ [] → allParseCells cells = none := by
  intro cells
  cases cells with
  | nil => intro _ h; exact absurd rfl h
  | cons x t =>
    intro h _
    rw [List.all_cons, Bool.and_eq_true, Bool.and_eq_true] at h
    unfold allParseCells
    have : pyParse x = none := Option.isNone_iff_eq_none.mp h.1.2
    rw [this]

theorem toNumericIgnore_cells (c : Column) (h : colStable c = true) :
    (toNumericIgnore c).cells = c.cells := by
  unfold colStable at h
  unfold toNumericIgnore
  by_cases hnum : c.numericDtype = true
  · rw [if_pos hnum]
  · rw [if_neg hnum]
    rw [Bool.or_eq_true, Bool.or_eq_true, Bool.or_eq_true] at h
    rcases h with ((h | h) | h) | h
    · exact absurd h hnum
    · obtain ⟨qs, hq, hf, hmap⟩ := allParse_int c.cells h
      rw [hq]
      show (if qs.any PyNum.isF = true then
          ({ numericDtype := true, cells := qs.map (fun q => PyScalar.float_ q.toDec) } : Column)
        else
          { numericDtype := true, cells := qs.map (fun q =>
              match q with | .I n => PyScalar.int_ n | .F d => PyScalar.float_ d) }).cells = c.cells
      rw [hf]
      exact hmap
    · obtain ⟨qs, hq, hm1, hm2⟩ := allParse_float c.cells h
      rw [hq]
      show (if qs.any PyNum.isF = true then
          ({ numericDtype := true, cells := qs.map (fun q => PyScalar.float_ q.toDec) } : Column)
        else
          { numericDtype := true, cells := qs.map (fun q =>
              match q with | .I n => PyScalar.int_ n | .F d => PyScalar.float_ d) }).cells = c.cells
      by_cases hf : qs.any PyNum.isF = true
      · rw [if_pos hf]; exact hm2
      · rw [if_neg hf]; exact hm1
    · by_cases hnil : c.cells = []
      · rw [hnil]
        rfl
      · rw [allParse_badstr c.cells h hnil]

theorem dtypeOkB_toNumericIgnore (c : Column) (h : dtypeOkB c = true) :
    dtypeOkB (toNumericIgnore c) = true := by
  unfold toNumericIgnore
  by_cases hnum : c.numericDtype = true
  · rw [if_pos hnum]; exact h
  · rw [if_neg hnum]
    cases hp : allParseCells c.cells with
    | none => exact h
    | some qs =>
      show dtypeOkB (if qs.any PyNum.isF = true then
          ({ numericDtype := true, cells := qs.map (fun q => PyScalar.float_ q.toDec) } : Column)
        else
          { numericDtype := true, cells := qs.map (fun q =>
              match q with | .I n => PyScalar.int_ n | .F d => PyScalar.float_ d) }) = true
      by_cases hf : qs.any PyNum.isF = true
      · rw [if_pos hf]
        unfold dtypeOkB
        simp only [Bool.not_true, Bool.false_or]
        rw [List.all_eq_true]
        intro x hx
        obtain ⟨q, _, hqe⟩ := List.mem_map.mp hx
        rw [← hqe]; rfl
      · rw [if_neg hf]
        unfold dtypeOkB
        simp only [Bool.not_true, Bool.false_or]
        rw [List.all_eq_true]
        intro x hx
        obtain ⟨q, _, hqe⟩ := List.mem_map.mp hx
        rw [← hqe]
        cases q <;> rfl

theorem ivSentinel_nil (x : PyScalar) : ivSentinel [] x = false := by
  unfold ivSentinel
  cases pyParse x <;> rfl

theorem num_classify (nr : List MRange) (x : PyScalar) (hx : x.isNum = true) :
    (nr.any (fun r => match numDec? x with | some q => rangeHit r q | none => false)) =
      ivSentinel nr x := by
  cases x with
  | int_ n => rfl
  | float_ d => rfl
  | str_ s => exact absurd hx (by simp [PyScalar.isNum])

theorem amem_of_ranges_ne_nil (m : Meta) (v : String) (h : numericRangesOf m v ≠ []) :
    amem m.missing_ranges v = true := by
  unfold numericRangesOf at h
  unfold amem
  cases halk : alookup m.missing_ranges v with
  | none => rw [halk] at h; exact absurd rfl h
  | some rs => rfl

theorem chunkCellDomain_eq (v : String) (hm : Bool) (nr : List MRange) (dt : Bool) (x : PyScalar)
    (hmr : nr ≠ [] → hm = true) (hx : dt = true → x.isNum = true) :
    chunkCellDomain v hm nr dt x =
      (if hm && !nr.isEmpty && ivSentinel nr x then "#sentinelValueDomain-" ++ v
       else "#substantiveValueDomain-" ++ v) := by
  unfold chunkCellDomain
  by_cases hdt : dt = true
  · by_cases hnr : nr = []
    · subst hnr
      simp [ivSentinel_nil]
    · rw [hmr hnr, hdt]
      have hne : nr.isEmpty = false := by
        cases nr with
        | nil => exact absurd rfl hnr
        | cons a t => rfl
      rw [hne]
      show (if (true && true) = true then _ else _) = _
      rw [num_classify nr x (hx hdt)]
      simp
  · rw [Bool.not_eq_true] at hdt
    rw [hdt]
    simp only [Bool.and_false, Bool.false_eq_true, if_false]
    by_cases hnr : nr = []
    · subst hnr
      simp [ivSentinel_nil]
    · have hne : nr.isEmpty = false := by
        cases nr with
        | nil => exact absurd rfl hnr
        | cons a t => rfl
      rw [hne]
      simp

/-- The direct-path InstanceValue block of one variable (process_all_rows). -/
def directIVBlock (df : DF) (m : Meta) (v : String) : List Node :=
  (enumFrom 0 (((df.headRows df.nrows).col v).cells)).map (fun p =>
    mkInstanceValue v p.1 (pyStr p.2)
      (if amem m.missing_ranges v && !(numericRangesOf m v).isEmpty &&
          ivSentinel (numericRangesOf m v) p.2 then
        "#sentinelValueDomain-" ++ v
      else "#substantiveValueDomain-" ++ v))

theorem gIV_direct (df : DF) (m : Meta) (mr : Nat) :
    generate_InstanceValue df m true mr = m.column_names.flatMap (directIVBlock df m) := rfl

theorem all_take_drop {α : Type} (p : α → Bool) (l : List α) (a b : Nat)
    (h : l.all p = true) : ((l.take b).drop a).all p = true := by
  rw [List.all_eq_true] at h ⊢
  intro x hx
  exact h x (List.mem_of_mem_take (List.mem_of_mem_drop hx))

theorem colStable_slice (df : DF) (v : String) (a b : Nat)
    (h : colStable (df.col v) = true) : colStable ((df.slice a b).col v) = true := by
  rw [slice_col]
  unfold colStable at h ⊢
  rw [Bool.or_eq_true, Bool.or_eq_true, Bool.or_eq_true] at h ⊢
  rcases h with ((h | h) | h) | h
  · exact Or.inl (Or.inl (Or.inl h))
  · exact Or.inl (Or.inl (Or.inr (all_take_drop _ _ a b h)))
  · exact Or.inl (Or.inr (all_take_drop _ _ a b h))
  · exact Or.inr (all_take_drop _ _ a b h)

theorem dtypeOkB_slice (df : DF) (v : String) (a b : Nat)
    (h : dtypeOkB (df.col v) = true) : dtypeOkB ((df.slice a b).col v) = true := by
  rw [slice_col]
  unfold dtypeOkB at h ⊢
  rw [Bool.or_eq_true] at h ⊢
  rcases h with h | h
  · exact Or.inl h
  · exact Or.inr (all_take_drop _ _ a b h)

theorem cell_num_of_dtypeOk (c : Column) (h : dtypeOkB c = true) (x : PyScalar)
    (hx : x ∈ c.cells) (hdt : c.numericDtype = true) : x.isNum = true := by
  unfold dtypeOkB at h
  rw [hdt] at h
  simp only [Bool.not_true, Bool.false_or] at h
  exact List.all_eq_true.mp h x hx

theorem chunkBlock_eq (df : DF) (m : Meta) (cs : Nat) (v : String) (ci : Nat)
    (hst : colStable (df.col v) = true) (hdt : dtypeOkB (df.col v) = true) :
    chunkBlock df m cs ci v =
      (enumFrom 0 ((((df.col v).cells.take df.nrows).take (ci * cs + cs)).drop (ci * cs))).map
        (fun p => mkInstanceValue v (0 + (ci * cs + p.1)) (pyStr p.2)
          (if amem m.missing_ranges v && !(numericRangesOf m v).isEmpty &&
              ivSentinel (numericRangesOf m v) p.2 then
            "#sentinelValueDomain-" ++ v
          else "#substantiveValueDomain-" ++ v)) := by
  have hst' : colStable ((df.slice (ci * cs) (min (ci * cs + cs) df.nrows)).col v) = true :=
    colStable_slice df v _ _ hst
  have hdt' : dtypeOkB ((df.slice (ci * cs) (min (ci * cs + cs) df.nrows)).col v) = true :=
    dtypeOkB_slice df v _ _ hdt
  have hdt2 : dtypeOkB (toNumericIgnore
      ((df.slice (ci * cs) (min (ci * cs + cs) df.nrows)).col v)) = true :=
    dtypeOkB_toNumericIgnore _ hdt'
  have hc := toNumericIgnore_cells _ hst'
  have hcells : ((df.slice (ci * cs) (min (ci * cs + cs) df.nrows)).col v).cells =
      (((df.col v).cells.take df.nrows).take (ci * cs + cs)).drop (ci * cs) := by
    rw [slice_col, List.take_take]
  unfold chunkBlock
  show List.map
      (fun p => mkInstanceValue v (ci * cs + p.1) (pyStr p.2)
        (chunkCellDomain v (amem m.missing_ranges v) (numericRangesOf m v)
          (toNumericIgnore ((df.slice (ci * cs) (min (ci * cs + cs) df.nrows)).col v)).numericDtype
          p.2))
      (enumFrom 0 (toNumericIgnore
        ((df.slice (ci * cs) (min (ci * cs + cs) df.nrows)).col v)).cells) = _
  rw [hc, hcells]
  apply List.map_congr_left
  intro p hp
  rw [Nat.zero_add]
  have hmem : p.2 ∈ (toNumericIgnore
      ((df.slice (ci * cs) (min (ci * cs + cs) df.nrows)).col v)).cells := by
    rw [hc, hcells]
    exact (mem_enumFrom p _ 0 hp).2.2
  have hx : (toNumericIgnore
      ((df.slice (ci * cs) (min (ci * cs + cs) df.nrows)).col v)).numericDtype = true →
      p.2.isNum = true :=
    fun h => cell_num_of_dtypeOk _ hdt2 p.2 hmem h
  rw [chunkCellDomain_eq v _ _ _ _ (amem_of_ranges_ne_nil m v) hx]

theorem chunkIV_var (df : DF) (m : Meta) (cs : Nat) (v : String) (hcs : 0 < cs)
    (hst : colStable (df.col v) = true) (hdt : dtypeOkB (df.col v) = true) :
    (List.range ((df.nrows + cs - 1) / cs)).flatMap (fun ci => chunkBlock df m cs ci v) =
      directIVBlock df m v := by
  have hlen : ((df.col v).cells.take df.nrows).length ≤ ((df.nrows + cs - 1) / cs) * cs := by
    rw [List.length_take, Nat.mul_comm]
    have hdm := Nat.div_add_mod (df.nrows + cs - 1) cs
    have hmod : (df.nrows + cs - 1) % cs < cs := Nat.mod_lt _ hcs
    have h1 : min df.nrows (df.col v).cells.length ≤ df.nrows := Nat.min_le_left _ _
    omega
  have hcover := chunk_cover (fun i x => mkInstanceValue v i (pyStr x)
      (if amem m.missing_ranges v && !(numericRangesOf m v).isEmpty &&
          ivSentinel (numericRangesOf m v) x then "#sentinelValueDomain-" ++ v
        else "#substantiveValueDomain-" ++ v)) cs ((df.nrows + cs - 1) / cs) 0
      ((df.col v).cells.take df.nrows) hlen
  unfold directIVBlock
  rw [headRows_col]
  rw [List.flatMap_congr (fun ci _ => chunkBlock_eq df m cs v ci hst hdt)]
  exact hcover

theorem chunkBlock_filter_of (df : DF) (m : Meta) (cs ci : Nat) (v w : String) :
    (chunkBlock df m cs ci v).filter (fun n => ivIdOf w n.id) =
      if v = w then chunkBlock df m cs ci v else [] := by
  by_cases hvw : v = w
  · rw [if_pos hvw]
    apply List.filter_eq_self.mpr
    intro n hn
    obtain ⟨p, _, he⟩ := List.mem_map.mp hn
    rw [← he, ivIdOf_mkInstanceValue, hvw]
    simp
  · rw [if_neg hvw]
    apply List.filter_eq_nil_iff.mpr
    intro n hn
    obtain ⟨p, _, he⟩ := List.mem_map.mp hn
    rw [← he, ivIdOf_mkInstanceValue]
    simp [hvw]

theorem directIVBlock_filter_of (df : DF) (m : Meta) (v w : String) :
    (directIVBlock df m v).filter (fun n => ivIdOf w n.id) =
      if v = w then directIVBlock df m v else [] := by
  by_cases hvw : v = w
  · rw [if_pos hvw]
    apply List.filter_eq_self.mpr
    intro n hn
    obtain ⟨p, _, he⟩ := List.mem_map.mp hn
    rw [← he, ivIdOf_mkInstanceValue, hvw]
    simp
  · rw [if_neg hvw]
    apply List.filter_eq_nil_iff.mpr
    intro n hn
    obtain ⟨p, _, he⟩ := List.mem_map.mp hn
    rw [← he, ivIdOf_mkInstanceValue]
    simp [hvw]

theorem directIV_filter_var (df : DF) (m : Meta) (mr : Nat) (w : String)
    (hnd : m.column_names.Nodup) (hw : w ∈ m.column_names) :
    (generate_InstanceValue df m true mr).filter (fun n => ivIdOf w n.id) =
      directIVBlock df m w := by
  rw [gIV_direct]
  rw [flatMap_filter_single m.column_names (directIVBlock df m) _ w hnd hw
    (fun v _ hne => by rw [directIVBlock_filter_of, if_neg hne])]
  rw [directIVBlock_filter_of, if_pos rfl]

theorem chunkIV_filter_var (df : DF) (m : Meta) (cs : Nat) (w : String) (hcs : 0 < cs)
    (hnd : m.column_names.Nodup) (hw : w ∈ m.column_names)
    (hst : colStable (df.col w) = true) (hdt : dtypeOkB (df.col w) = true) :
    (chunkInstanceValues df m cs).filter (fun n => ivIdOf w n.id) =
      directIVBlock df m w := by
  unfold chunkInstanceValues
  rw [List.filter_flatMap]
  have hper : ∀ ci ∈ List.range ((df.nrows + cs - 1) / cs),
      (m.column_names.flatMap (fun v => chunkBlock df m cs ci v)).filter
        (fun n => ivIdOf w n.id) = chunkBlock df m cs ci w := by
    intro ci _
    rw [flatMap_filter_single m.column_names _ _ w hnd hw
      (fun v _ hne => by rw [chunkBlock_filter_of, if_neg hne])]
    rw [chunkBlock_filter_of, if_pos rfl]
  rw [List.flatMap_congr hper]
  exact chunkIV_var df m cs w hcs hst hdt

theorem chunkIV_perm (df : DF) (m : Meta) (cs mr : Nat) (hcs : 0 < cs)
    (hst : ∀ v ∈ m.column_names, colStable (df.col v) = true)
    (hdt : ∀ v ∈ m.column_names, dtypeOkB (df.col v) = true) :
    (chunkInstanceValues df m cs).Perm (generate_InstanceValue df m true mr) := by
  unfold chunkInstanceValues
  have hswap := flatMap_swap_perm (List.range ((df.nrows + cs - 1) / cs)) m.column_names
    (fun ci v => chunkBlock df m cs ci v)
  apply hswap.trans
  rw [gIV_direct]
  have heq : m.column_names.flatMap
      (fun v => (List.range ((df.nrows + cs - 1) / cs)).flatMap
        (fun ci => chunkBlock df m cs ci v)) =
      m.column_names.flatMap (directIVBlock df m) :=
    List.flatMap_congr (fun v hv => chunkIV_var df m cs v hcs (hst v hv) (hdt v hv))
  rw [heq]

theorem chunkIV_not_skos (df : DF) (m : Meta) (cs : Nat) :
    ∀ n ∈ chunkInstanceValues df m cs, isSkosNode n = false := by
  intro n hn
  obtain ⟨ci, _, hci⟩ := List.mem_flatMap.mp hn
  obtain ⟨v, _, hv⟩ := List.mem_flatMap.mp hci
  unfold chunkBlock at hv
  obtain ⟨p, _, he⟩ := List.mem_map.mp hv
  rw [← he]
  rfl

theorem directIV_not_skos (df : DF) (m : Meta) (pa : Bool) (cs : Nat) :
    ∀ n ∈ generate_InstanceValue df m pa cs, isSkosNode n = false := by
  intro n hn
  unfold generate_InstanceValue at hn
  obtain ⟨v, _, hv⟩ := List.mem_flatMap.mp hn
  obtain ⟨p, _, he⟩ := List.mem_map.mp hv
  rw [← he]
  rfl

theorem dfLimited_true (df : DF) (cs mr : Nat) : dfLimited df cs true mr = df := by
  unfold dfLimited
  split
  · rfl
  · show (if (decide (df.nrows > mr) && !true) = true then df.headRows mr else df) = df
    rw [Bool.not_true, Bool.and_false]
    rfl

theorem rowVM_canon (df : DF) (m : Meta) (cs mr : Nat) :
    rowVMNodes df m cs true mr = generate_ValueMapping df m true 0 := by
  unfold rowVMNodes
  split
  · rfl
  · rw [dfLimited_true]
    rfl

theorem rowDP_canon (df : DF) (m : Meta) (cs mr : Nat) :
    rowDPNodes df m cs true mr = generate_DataPoint df m true 0 := by
  unfold rowDPNodes
  split
  · rfl
  · rw [dfLimited_true]
    rfl

theorem rowDPP_canon (df : DF) (m : Meta) (cs mr : Nat) :
    rowDPPNodes df m cs true mr = generate_DataPointPosition df m true 0 := by
  unfold rowDPPNodes
  split
  · rfl
  · rw [dfLimited_true]
    rfl

theorem rowIV_perm (df : DF) (m : Meta) (cs mr : Nat) (hcs : 0 < cs)
    (hst : ∀ v ∈ m.column_names, colStable (df.col v) = true)
    (hdt : ∀ v ∈ m.column_names, dtypeOkB (df.col v) = true) :
    (rowIVNodes df m cs true mr).Perm (generate_InstanceValue df m true 0) := by
  unfold rowIVNodes
  split
  · exact chunkIV_perm df m cs 0 hcs hst hdt
  · rw [dfLimited_true]
    exact List.Perm.refl _

theorem rowIV_filter (df : DF) (m : Meta) (cs mr : Nat) (w : String) (hcs : 0 < cs)
    (hnd : m.column_names.Nodup) (hw : w ∈ m.column_names)
    (hst : colStable (df.col w) = true) (hdt : dtypeOkB (df.col w) = true) :
    (rowIVNodes df m cs true mr).filter (fun n => ivIdOf w n.id) = directIVBlock df m w := by
  unfold rowIVNodes
  split
  · exact chunkIV_filter_var df m cs w hcs hnd hw hst hdt
  · rw [dfLimited_true]
    exact directIV_filter_var df m mr w hnd hw

theorem rowIV_not_skos (df : DF) (m : Meta) (cs mr : Nat) :
    ∀ n ∈ rowIVNodes df m cs true mr, isSkosNode n = false := by
  unfold rowIVNodes
  split
  · exact chunkIV_not_skos df m cs
  · exact directIV_not_skos _ m true mr

/-- The pipeline segment before the InstanceValue slot, with the
process_all_rows=true row windows already canonicalized. -/
def preIVComponents (df : DF) (m : Meta) (spssfile : String) : List Node :=
  generate_PhysicalDataset m spssfile ++
  generate_PhysicalRecordSegment m df ++
  generate_PhysicalSegmentLayout m ++
  generate_ValueMapping df m true 0 ++
  generate_ValueMappingPosition m ++
  generate_DataPoint df m true 0 ++
  generate_DataPointPosition df m true 0

/-- The pipeline segment after the InstanceValue slot. -/
def postIVComponents (m : Meta) : List Node :=
  generate_DataStore m ++
  generate_LogicalRecord m ++
  generate_DimensionalDataSet m ++
  generate_DimensionalDataStructure m ++
  generate_MeasureComponent m ++
  generate_InstanceVariable m ++
  generate_SubstantiveValueDomain m ++
  generate_SubstantiveEnumerationDomain m ++
  generate_SentinelValueDomain m ++
  generate_SentinelEnumerationDomain m ++
  generate_ValueAndConceptDescription m ++
  generate_SubstantiveConceptScheme m ++
  generate_SentinelConceptScheme m ++
  generate_Concept m ++
  (if !m.identifier_vars.isEmpty && !hasFmt m "json" then
    generate_IdentifierComponent m ++ generate_PrimaryKey m ++
      generate_PrimaryKeyComponent m
   else if !m.identifier_vars.isEmpty && hasFmt m "json" then
    generate_IdentifierComponent m
   else []) ++
  (if !m.attribute_vars.isEmpty then generate_AttributeComponent m else []) ++
  (if !m.contextual_vars.isEmpty then generate_ContextualComponent m else []) ++
  (if !m.synthetic_id_vars.isEmpty then generate_SyntheticIdComponent m else []) ++
  (if !m.variable_value_vars.isEmpty then
    generate_VariableValueComponent m ++ generate_VariableDescriptorComponent m
   else []) ++
  generate_ComponentPosition m

theorem pipeline_decomp (df : DF) (m : Meta) (f : String) (cs mr : Nat) :
    pipelineComponents df m f cs true mr =
      preIVComponents df m f ++ (rowIVNodes df m cs true mr ++ postIVComponents m) := by
  unfold pipelineComponents preIVComponents postIVComponents
  rw [dfLimited_true, rowVM_canon, rowDP_canon, rowDPP_canon]
  simp only [List.append_assoc]

theorem projmk_ddi (l : List Node) :
    (⟨(wrap_in_graph l).1, (wrap_in_graph l).2⟩ : JsonLdDoc).ddi =
      l.filter (fun n => !isSkosNode n) := rfl

theorem projmk_included (l : List Node) :
    (⟨(wrap_in_graph l).1, (wrap_in_graph l).2⟩ : JsonLdDoc).included =
      (if !(l.filter isSkosNode).isEmpty then some (l.filter isSkosNode) else none) := rfl

set_option maxHeartbeats 2000000 in
theorem doc_eq (df : DF) (m : Meta) (f : String) (cs : Nat) (pa : Bool) (mr : Nat) :
    generate_complete_json_ld df m f cs pa mr =
      ⟨(wrap_in_graph (pipelineComponents df m f cs pa mr)).1,
       (wrap_in_graph (pipelineComponents df m f cs pa mr)).2⟩ := rfl

theorem ddi_eq (df : DF) (m : Meta) (f : String) (cs : Nat) (pa : Bool) (mr : Nat) :
    (generate_complete_json_ld df m f cs pa mr).ddi =
      (pipelineComponents df m f cs pa mr).filter (fun n => !isSkosNode n) :=
  Eq.trans (congrArg JsonLdDoc.ddi (doc_eq df m f cs pa mr))
    (projmk_ddi (pipelineComponents df m f cs pa mr))

theorem included_eq (df : DF) (m : Meta) (f : String) (cs : Nat) (pa : Bool) (mr : Nat) :
    (generate_complete_json_ld df m f cs pa mr).included =
      (if !((pipelineComponents df m f cs pa mr).filter isSkosNode).isEmpty then
        some ((pipelineComponents df m f cs pa mr).filter isSkosNode) else none) :=
  Eq.trans (congrArg JsonLdDoc.included (doc_eq df m f cs pa mr))
    (projmk_included (pipelineComponents df m f cs pa mr))

/-- C2 (amended): for process_all_rows=true and chunking-stable columns
(numeric dtype with numeric cells, or an object column that is all int,
all float, or all non-numeric strings), the chunked and direct paths
agree: the SKOS partition is identical, the DDI-CDI array is a
permutation, and each variable's InstanceValue run (`filter` by id
shape) is byte-identical, for any two chunk sizes and row caps. -/
theorem claim2_amended (df : DF) (m : Meta) (f : String) (cs1 cs2 mr1 mr2 : Nat)
    (h1 : 0 < cs1) (h2 : 0 < cs2) (hnd : m.column_names.Nodup)
    (hst : ∀ v ∈ m.column_names, colStable (df.col v) = true)
    (hdt : ∀ v ∈ m.column_names, dtypeOkB (df.col v) = true) :
    (generate_complete_json_ld df m f cs1 true mr1).included =
      (generate_complete_json_ld df m f cs2 true mr2).included ∧
    ((generate_complete_json_ld df m f cs1 true mr1).ddi).Perm
      ((generate_complete_json_ld df m f cs2 true mr2).ddi) ∧
    ∀ w ∈ m.column_names,
      ((generate_complete_json_ld df m f cs1 true mr1).ddi).filter
          (fun n => ivIdOf w n.id) =
        ((generate_complete_json_ld df m f cs2 true mr2).ddi).filter
          (fun n => ivIdOf w n.id) := by
  have hiv1 := rowIV_not_skos df m cs1 mr1
  have hiv2 := rowIV_not_skos df m cs2 mr2
  have hskos : (pipelineComponents df m f cs1 true mr1).filter isSkosNode =
      (pipelineComponents df m f cs2 true mr2).filter isSkosNode := by
    rw [pipeline_decomp, pipeline_decomp]
    simp only [List.filter_append]
    have hz1 : (rowIVNodes df m cs1 true mr1).filter isSkosNode = [] :=
      List.filter_eq_nil_iff.mpr (fun n hn => by simp [hiv1 n hn])
    have hz2 : (rowIVNodes df m cs2 true mr2).filter isSkosNode = [] :=
      List.filter_eq_nil_iff.mpr (fun n hn => by simp [hiv2 n hn])
    rw [hz1, hz2]
  have hddi1 : (generate_complete_json_ld df m f cs1 true mr1).ddi =
      ((preIVComponents df m f).filter (fun n => !isSkosNode n)) ++
      ((rowIVNodes df m cs1 true mr1) ++
        ((postIVComponents m).filter (fun n => !isSkosNode n))) := by
    have hself1 : (rowIVNodes df m cs1 true mr1).filter (fun n => !isSkosNode n) =
        rowIVNodes df m cs1 true mr1 :=
      List.filter_eq_self.mpr (fun n hn => by simp [hiv1 n hn])
    rw [ddi_eq df m f cs1 true mr1, pipeline_decomp]
    simp only [List.filter_append]
    rw [hself1]
  have hddi2 : (generate_complete_json_ld df m f cs2 true mr2).ddi =
      ((preIVComponents df m f).filter (fun n => !isSkosNode n)) ++
      ((rowIVNodes df m cs2 true mr2) ++
        ((postIVComponents m).filter (fun n => !isSkosNode n))) := by
    have hself2 : (rowIVNodes df m cs2 true mr2).filter (fun n => !isSkosNode n) =
        rowIVNodes df m cs2 true mr2 :=
      List.filter_eq_self.mpr (fun n hn => by simp [hiv2 n hn])
    rw [ddi_eq df m f cs2 true mr2, pipeline_decomp]
    simp only [List.filter_append]
    rw [hself2]
  refine ⟨?_, ?_, ?_⟩
  · rw [included_eq df m f cs1 true mr1, included_eq df m f cs2 true mr2, hskos]
  · rw [hddi1, hddi2]
    exact List.Perm.append_left _
      (List.Perm.append_right _
        ((rowIV_perm df m cs1 mr1 h1 hst hdt).trans
          (rowIV_perm df m cs2 mr2 h2 hst hdt).symm))
  · intro w hw
    rw [hddi1, hddi2]
    simp only [List.filter_append]
    rw [rowIV_filter df m cs1 mr1 w h1 hnd hw (hst w hw) (hdt w hw),
        rowIV_filter df m cs2 mr2 w h2 hnd hw (hst w hw) (hdt w hw)]

/-- Fixture: the same single-column frame with an all-int object column,
which is chunking-stable. -/
def dfW : DF :=
  ⟨4, [("c", ⟨false, [.int_ 7, .int_ 8, .int_ 9, .int_ 10]⟩)]⟩

theorem claim2_witness :
    (0 < 3 ∧ 0 < 1000 ∧ mC2.column_names.Nodup ∧
      (∀ v ∈ mC2.column_names, colStable (dfW.col v) = true) ∧
      (∀ v ∈ mC2.column_names, dtypeOkB (dfW.col v) = true)) ∧
    ((generate_complete_json_ld dfW mC2 "c.csv" 3 true 5).included =
        (generate_complete_json_ld dfW mC2 "c.csv" 1000 true 5).included ∧
      ((generate_complete_json_ld dfW mC2 "c.csv" 3 true 5).ddi).Perm
        ((generate_complete_json_ld dfW mC2 "c.csv" 1000 true 5).ddi) ∧
      ∀ w ∈ mC2.column_names,
        ((generate_complete_json_ld dfW mC2 "c.csv" 3 true 5).ddi).filter
            (fun n => ivIdOf w n.id) =
          ((generate_complete_json_ld dfW mC2 "c.csv" 1000 true 5).ddi).filter
            (fun n => ivIdOf w n.id)) :=
  ⟨⟨by decide, by decide, by decide, by decide, by decide⟩,
   claim2_amended dfW mC2 "c.csv" 3 1000 5 5 (by decide) (by decide) (by decide)
     (by decide) (by decide)⟩

def mCol : Meta :=
  { column_names := ["a", "a-concept-b"], column_labels := [], original_variable_types := [],
    readstat_variable_types := [], variable_measure := [],
    variable_value_labels := [("a", [(.str_ "b-concept-c", "x")]),
                              ("a-concept-b", [(.str_ "c", "y")])],
    missing_ranges := [],
    missing_user_values := [], identifier_vars := [], measure_vars := [],
    attribute_vars := [], contextual_vars := [], synthetic_id_vars := [],
    variable_value_vars := [], file_format := none, delimiter := none, number_rows := 0 }

def dfCol : DF := ⟨0, [("a", ⟨false, []⟩), ("a-concept-b", ⟨false, []⟩)]⟩

/-- C5 counterexample: with columns "a" and "a-concept-b" and value
labels "b-concept-c" and "c", both variables emit the SKOS Concept id
"#a-concept-b-concept-c": node ids are not unique in the document. -/
theorem claim5_counterexample :
    (((allDocNodes (generate_complete_json_ld dfCol mCol "t.sav" 1000 true 5)).map
        Node.id).count "#a-concept-b-concept-c" = 2) ∧
    ¬ ((allDocNodes (generate_complete_json_ld dfCol mCol "t.sav" 1000 true 5)).map
        Node.id).Nodup := by
  refine ⟨by decide, fun hnd => ?_⟩
  have hle := List.nodup_iff_count_le_one.mp hnd "#a-concept-b-concept-c"
  rw [(by decide : (((allDocNodes (generate_complete_json_ld dfCol mCol "t.sav" 1000 true 5)).map
      Node.id).count "#a-concept-b-concept-c" = 2))] at hle
  omega

/-! ## Claim C5: identifier uniqueness machinery -/

theorem nodup_flatMap_classified {α β κ : Type} (l : List α) (f : α → List β)
    (K : β → κ) (key : α → κ)
    (hkey : (l.map key).Nodup)
    (hclass : ∀ a ∈ l, ∀ b ∈ f a, K b = key a)
    (hf : ∀ a ∈ l, (f a).Nodup) :
    (l.flatMap f).Nodup := by
  induction l with
  | nil => simp
  | cons a t ih =>
    rw [List.flatMap_cons]
    apply List.Nodup.append
    · exact hf a (by simp)
    · exact ih (List.nodup_cons.mp (by simpa using hkey)).2
        (fun x hx b hb => hclass x (by simp [hx]) b hb)
        (fun x hx => hf x (by simp [hx]))
    · intro b hb hb2
      obtain ⟨x, hx, hbx⟩ := List.mem_flatMap.mp hb2
      have h1 : K b = key a := hclass a (by simp) b hb
      have h2 : K b = key x := hclass x (by simp [hx]) b hbx
      have : key a ∈ t.map key := List.mem_map.mpr ⟨x, hx, (h1 ▸ h2).symm⟩
      exact (List.nodup_cons.mp (by simpa using hkey)).1 this

theorem flatMap_if_singleton {α β : Type} (l : List α) (P : α → Bool) (g : α → β) :
    l.flatMap (fun x => if P x then [g x] else []) = (l.filter P).map g := by
  induction l with
  | nil => rfl
  | cons a t ih =>
    rw [List.flatMap_cons, List.filter_cons]
    cases hPa : P a
    · simp [hPa, ih]
    · simp [hPa, ih]

theorem leadsWith_prefix : ∀ (p s : List Char), leadsWith p s = true → ∃ r, s = p ++ r := by
  intro p
  induction p with
  | nil => intro s _; exact ⟨s, rfl⟩
  | cons c cs ih =>
    intro s h
    cases s with
    | nil => simp [leadsWith] at h
    | cons d ds =>
      rw [leadsWith, Bool.and_eq_true, beq_iff_eq] at h
      obtain ⟨r, hr⟩ := ih ds h.2
      exact ⟨r, by rw [h.1, hr]; rfl⟩

/-- Decode an emitted id into a family signature: the hyphen-free token
after the #, and the remainder; ids whose remainder starts with
-concept- (the SKOS Concept family) are classified apart with their full
payload. -/
def idSig (s : String) : String × String :=
  let t := s.data.drop 1
  let tok := t.takeWhile (fun c => c != '-')
  let rest := t.dropWhile (fun c => c != '-')
  if leadsWith "-concept-".data rest then ("-concept", ⟨tok ++ rest⟩) else (⟨tok⟩, ⟨rest⟩)

theorem sig_var (w v : String) (hw : '-' ∉ w.data) (hv : '-' ∉ v.data) :
    idSig ("#" ++ w ++ "-" ++ v) = (w, "-" ++ v) := by
  have hdata : ("#" ++ w ++ "-" ++ v).data = '#' :: (w.data ++ '-' :: v.data) := by
    simp [string_append_data]
  have hsplit := takeWhile_append_stop (p := fun c => c != '-') w.data v.data '-'
    (fun x hx => by simp only [bne_iff_ne]; exact fun he => hw (he ▸ hx)) (by simp)
  have hlw : leadsWith "-concept-".data ('-' :: v.data) = false := by
    by_contra hc
    rw [Bool.not_eq_false] at hc
    show False
    have : leadsWith "concept-".data v.data = true := by
      rw [show "-concept-".data = '-' :: "concept-".data from rfl, leadsWith] at hc
      simpa using hc
    obtain ⟨r, hr⟩ := leadsWith_prefix _ _ this
    exact hv (by rw [hr]; exact List.mem_append.mpr (Or.inl (by decide)))
  unfold idSig
  rw [hdata]
  simp only [List.drop_succ_cons, List.drop_zero]
  rw [hsplit.1, hsplit.2, hlw]
  show ((⟨w.data⟩ : String), (⟨'-' :: v.data⟩ : String)) = (w, "-" ++ v)
  have h2 : (⟨'-' :: v.data⟩ : String) = "-" ++ v := String.ext (by simp [string_append_data])
  rw [h2]

theorem sig_ivar (w : String) (hw : '-' ∉ w.data) (i : Nat) (v : String) :
    idSig ("#" ++ w ++ "-" ++ decRepr i ++ "-" ++ v) =
      (w, "-" ++ decRepr i ++ "-" ++ v) := by
  have hdata : ("#" ++ w ++ "-" ++ decRepr i ++ "-" ++ v).data =
      '#' :: (w.data ++ '-' :: ((decRepr i).data ++ '-' :: v.data)) := by
    simp [string_append_data]
  have hsplit := takeWhile_append_stop (p := fun c => c != '-') w.data
    ((decRepr i).data ++ '-' :: v.data) '-'
    (fun x hx => by simp only [bne_iff_ne]; exact fun he => hw (he ▸ hx)) (by simp)
  have hlw : leadsWith "-concept-".data
      ('-' :: ((decRepr i).data ++ '-' :: v.data)) = false := by
    cases hd : (decRepr i).data with
    | nil => exact absurd hd (decRepr_ne_nil i)
    | cons a as =>
      have hdig : a.isDigit = true := decChars_isDigit (i+1) i a (by
        have : a ∈ (decRepr i).data := by rw [hd]; simp
        exact this)
      have hne : ('c' == a) = false := by
        apply beq_eq_false_iff_ne.mpr
        intro he
        rw [← he] at hdig
        exact absurd hdig (by decide)
      show (('-' == '-') &&
        (('c' == a) && leadsWith "oncept-".data (as ++ '-' :: v.data))) = false
      rw [hne]
      simp
  unfold idSig
  rw [hdata]
  simp only [List.drop_succ_cons, List.drop_zero]
  rw [hsplit.1, hsplit.2, hlw]
  show ((⟨w.data⟩ : String),
    (⟨'-' :: ((decRepr i).data ++ '-' :: v.data)⟩ : String)) = _
  have h2 : (⟨'-' :: ((decRepr i).data ++ '-' :: v.data)⟩ : String) =
      "-" ++ decRepr i ++ "-" ++ v := String.ext (by simp [string_append_data])
  rw [h2]

theorem sig_concept (v k : String) (hv : '-' ∉ v.data) :
    idSig ("#" ++ v ++ "-concept-" ++ k) = ("-concept", v ++ "-concept-" ++ k) := by
  have hdata : ("#" ++ v ++ "-concept-" ++ k).data =
      '#' :: (v.data ++ '-' :: ("concept-".data ++ k.data)) := by
    simp [string_append_data]
  have hsplit := takeWhile_append_stop (p := fun c => c != '-') v.data
    ("concept-".data ++ k.data) '-'
    (fun x hx => by simp only [bne_iff_ne]; exact fun he => hv (he ▸ hx)) (by simp)
  have hlw : leadsWith "-concept-".data ('-' :: ("concept-".data ++ k.data)) = true := by
    show leadsWith "-concept-".data ("-concept-".data ++ k.data) = true
    exact leadsWith_append _ _
  unfold idSig
  rw [hdata]
  simp only [List.drop_succ_cons, List.drop_zero]
  rw [hsplit.1, hsplit.2, hlw]
  show (("-concept" : String),
    (⟨v.data ++ '-' :: ("concept-".data ++ k.data)⟩ : String)) = _
  have h2 : (⟨v.data ++ '-' :: ("concept-".data ++ k.data)⟩ : String) =
      v ++ "-concept-" ++ k := String.ext (by simp [string_append_data])
  rw [h2]

theorem sig_pre (w : String) (hw : '-' ∉ w.data) (pre : String)
    (hpre : pre = "#" ++ w ++ "-") (v : String) (hv : '-' ∉ v.data) :
    idSig (pre ++ v) = (w, "-" ++ v) := by
  subst hpre
  exact sig_var w v hw hv

theorem sig_pre_ivar (w : String) (hw : '-' ∉ w.data) (pre : String)
    (hpre : pre = "#" ++ w ++ "-") (i : Nat) (v : String) :
    idSig (pre ++ decRepr i ++ "-" ++ v) = (w, "-" ++ decRepr i ++ "-" ++ v) := by
  subst hpre
  exact sig_ivar w hw i v

/-- Leading token of a sig payload (up to the first hyphen). -/
def tokOf (s : String) : String := ⟨s.data.takeWhile (fun c => c != '-')⟩

/-- Digit run after the leading hyphen of an indexed payload. -/
def digitsOf (s : String) : List Char := (s.data.drop 1).takeWhile Char.isDigit

def iOf (s : String) : Nat := readNat (digitsOf s)

/-- Variable name after the digit run of an indexed payload. -/
def vOf (s : String) : String := ⟨((s.data.drop 1).dropWhile Char.isDigit).drop 1⟩

theorem decRepr_read (n : Nat) : readNat (decRepr n).data = n :=
  decChars_read (n+1) n (Nat.lt_succ_self n)

theorem tokOf_payload (v k : String) (hv : '-' ∉ v.data) :
    tokOf (v ++ "-concept-" ++ k) = v := by
  have hdata : (v ++ "-concept-" ++ k).data =
      v.data ++ '-' :: ("concept-".data ++ k.data) := by
    simp [string_append_data]
  have hsplit := takeWhile_append_stop (p := fun c => c != '-') v.data
    ("concept-".data ++ k.data) '-'
    (fun x hx => by simp only [bne_iff_ne]; exact fun he => hv (he ▸ hx)) (by simp)
  unfold tokOf
  rw [hdata, hsplit.1]

theorem iv_payload_split (i : Nat) (v : String) :
    (("-" ++ decRepr i ++ "-" ++ v).data.drop 1).takeWhile Char.isDigit = (decRepr i).data ∧
    (("-" ++ decRepr i ++ "-" ++ v).data.drop 1).dropWhile Char.isDigit = '-' :: v.data := by
  have hdata : ("-" ++ decRepr i ++ "-" ++ v).data =
      '-' :: ((decRepr i).data ++ '-' :: v.data) := by
    simp [string_append_data]
  have hsplit := takeWhile_append_stop (p := Char.isDigit) (decRepr i).data v.data '-'
    (fun x hx => decChars_isDigit _ _ x hx) (by decide)
  rw [hdata]
  simp only [List.drop_succ_cons, List.drop_zero]
  exact hsplit

theorem vOf_iv (i : Nat) (v : String) : vOf ("-" ++ decRepr i ++ "-" ++ v) = v := by
  unfold vOf
  rw [(iv_payload_split i v).2]
  rfl

theorem iOf_iv (i : Nat) (v : String) : iOf ("-" ++ decRepr i ++ "-" ++ v) = i := by
  unfold iOf digitsOf
  rw [(iv_payload_split i v).1]
  exact decRepr_read i

theorem hyphen_var_inj : Function.Injective (fun v : String => "-" ++ v) :=
  fun _ _ h => string_append_left_cancel h

theorem allParseCells_length : ∀ (l : List PyScalar) (qs : List PyNum),
    allParseCells l = some qs → qs.length = l.length := by
  intro l
  induction l with
  | nil => intro qs h; cases h; rfl
  | cons c t ih =>
    intro qs h
    unfold allParseCells at h
    cases hp : pyParse c with
    | none => rw [hp] at h; cases h
    | some q =>
      rw [hp] at h
      cases ht : allParseCells t with
      | none => rw [ht] at h; cases h
      | some qt =>
        rw [ht] at h
        cases h
        simp [ih qt ht]

theorem toNumericIgnore_length (c : Column) :
    (toNumericIgnore c).cells.length = c.cells.length := by
  unfold toNumericIgnore
  by_cases hnum : c.numericDtype = true
  · rw [if_pos hnum]
  · rw [if_neg hnum]
    cases hp : allParseCells c.cells with
    | none => rfl
    | some qs =>
      have hlen := allParseCells_length c.cells qs hp
      show (if qs.any PyNum.isF = true then
          ({ numericDtype := true, cells := qs.map (fun q => PyScalar.float_ q.toDec) } : Column)
        else
          { numericDtype := true, cells := qs.map (fun q =>
              match q with | .I n => PyScalar.int_ n | .F d => PyScalar.float_ d) }).cells.length =
        c.cells.length
      by_cases hf : qs.any PyNum.isF = true
      · rw [if_pos hf]; simpa using hlen
      · rw [if_neg hf]; simpa using hlen

/-! ## Per-segment signature lists -/

def dsWord (m : Meta) : String :=
  if hasFmt m "json" then "keyValueDataStore" else "dimensionalDataSet"

def stWord (m : Meta) : String :=
  if hasFmt m "json" then "keyValueStructure" else "dimensionalDataStructure"

def mcWord (m : Meta) : String :=
  if hasFmt m "netcdf" then "qualifiedMeasure" else "measureComponent"

def icWord (m : Meta) : String :=
  if hasFmt m "netcdf" then "dimensionComponent" else "identifierComponent"

/-- Variables the MeasureComponent generator emits. -/
def mcVars (m : Meta) : List String :=
  if hasFmt m "json" then []
  else if !m.measure_vars.isEmpty then
    m.measure_vars.filter (fun v => m.column_names.contains v)
  else
    m.column_names.filter (fun v =>
      !m.identifier_vars.contains v && !m.attribute_vars.contains v)

def idVarsF (m : Meta) : List String :=
  m.identifier_vars.filter (fun v => m.column_names.contains v)

/-- The keys the sentinel-side generators iterate over. -/
def sentinelKeys (m : Meta) : List String :=
  if !m.missing_ranges.isEmpty then akeys m.missing_ranges
  else akeys m.missing_user_values

theorem sigs_PD (m : Meta) (f : String) :
    ((generate_PhysicalDataset m f).map Node.id).map idSig =
      [("physicalDataSet", "")] := by rfl

theorem sigs_PRS (m : Meta) (d : DF) :
    ((generate_PhysicalRecordSegment m d).map Node.id).map idSig =
      [("physicalRecordSegment", "")] := by rfl

theorem sigs_PSL (m : Meta) :
    ((generate_PhysicalSegmentLayout m).map Node.id).map idSig =
      [("physicalSegmentLayout", "")] := by rfl

theorem sigs_DS (m : Meta) :
    ((generate_DataStore m).map Node.id).map idSig = [("dataStore", "")] := by rfl

theorem sigs_LR (m : Meta) :
    ((generate_LogicalRecord m).map Node.id).map idSig = [("logicalRecord", "")] := by rfl

theorem sigs_DDSet (m : Meta) :
    ((generate_DimensionalDataSet m).map Node.id).map idSig = [(dsWord m, "")] := by
  unfold generate_DimensionalDataSet datasetRef dsWord
  by_cases h : hasFmt m "json" = true
  · rw [if_pos h, if_pos h]; rfl
  · rw [if_neg h, if_neg h]; rfl

theorem sigs_DDStr (m : Meta) :
    ((generate_DimensionalDataStructure m).map Node.id).map idSig = [(stWord m, "")] := by
  unfold generate_DimensionalDataStructure structureRef stWord
  by_cases h : hasFmt m "json" = true
  · rw [if_pos h, if_pos h]
    cases hc : (!m.identifier_vars.isEmpty && !hasFmt m "json") <;> simp [hc] <;> rfl
  · rw [if_neg h, if_neg h]
    cases hc : (!m.identifier_vars.isEmpty && !hasFmt m "json") <;> simp [hc] <;> rfl

def rowW (df : DF) (cs : Nat) (pa : Bool) (mr : Nat) : Nat :=
  if chunkedPathB df cs pa then rowWindow df pa cs
  else rowWindow (dfLimited df cs pa mr) pa mr

theorem enumFrom_map_snd {α β : Type} (g : α → β) :
    ∀ (l : List α) (k : Nat), (enumFrom k l).map (fun p => g p.2) = l.map g := by
  intro l
  induction l with
  | nil => intro k; rfl
  | cons x t ih =>
    intro k
    show (g x) :: (enumFrom (k+1) t).map (fun p => g p.2) = g x :: t.map g
    rw [ih (k+1)]

theorem sigs_map_fam (w : String) (hw : '-' ∉ w.data) (pre : String)
    (hpre : pre = "#" ++ w ++ "-") (VS : List String)
    (hhy : ∀ v ∈ VS, '-' ∉ v.data) (mk : String → Node)
    (hmk : ∀ v, (mk v).id = pre ++ v) :
    ((VS.map mk).map Node.id).map idSig = VS.map (fun v => (w, "-" ++ v)) := by
  rw [List.map_map, List.map_map]
  apply List.map_congr_left
  intro v hv
  show idSig ((mk v).id) = _
  rw [hmk]
  exact sig_pre w hw pre hpre v (hhy v hv)

theorem sigs_range_fam (w : String) (hw : '-' ∉ w.data) (pre : String)
    (hpre : pre = "#" ++ w ++ "-") (VS : List String) (W : String → Nat)
    (mk : String → Nat → Node)
    (hmk : ∀ v i, (mk v i).id = pre ++ decRepr i ++ "-" ++ v) :
    ((VS.flatMap (fun v => (List.range (W v)).map (fun i => mk v i))).map Node.id).map idSig =
      VS.flatMap (fun v => (List.range (W v)).map
        (fun i => (w, "-" ++ decRepr i ++ "-" ++ v))) := by
  rw [List.map_flatMap, List.map_flatMap]
  apply List.flatMap_congr
  intro v _
  rw [List.map_map, List.map_map]
  apply List.map_congr_left
  intro i _
  show idSig ((mk v i).id) = _
  rw [hmk]
  exact sig_pre_ivar w hw pre hpre i v

theorem sigs_VM (df : DF) (m : Meta) (cs : Nat) (pa : Bool) (mr : Nat)
    (hhy : ∀ v ∈ m.column_names, '-' ∉ v.data) :
    ((rowVMNodes df m cs pa mr).map Node.id).map idSig =
      m.column_names.map (fun v => ("valueMapping", "-" ++ v)) := by
  unfold rowVMNodes
  split <;>
  exact sigs_map_fam "valueMapping" (by decide) "#valueMapping-" (by decide)
    m.column_names hhy _ (fun v => rfl)

theorem sigs_VMP (m : Meta)
    (hhy : ∀ v ∈ m.column_names, '-' ∉ v.data) :
    ((generate_ValueMappingPosition m).map Node.id).map idSig =
      m.column_names.map (fun v => ("valueMappingPosition", "-" ++ v)) := by
  unfold generate_ValueMappingPosition
  rw [List.map_map, List.map_map]
  rw [show ((idSig ∘ Node.id) ∘ (fun p : Nat × String =>
      (⟨"#valueMappingPosition-" ++ p.2, "ValueMappingPosition",
        [("value", .n p.1), ("indexes", .s ("#valueMapping-" ++ p.2))]⟩ : Node))) =
      (fun p : Nat × String => idSig ("#valueMappingPosition-" ++ p.2)) from
    funext (fun p => rfl)]
  rw [enumFrom_map_snd (fun v => idSig ("#valueMappingPosition-" ++ v))]
  apply List.map_congr_left
  intro v hv
  exact sig_pre "valueMappingPosition" (by decide) "#valueMappingPosition-" (by decide)
    v (hhy v hv)

theorem sigs_DP (df : DF) (m : Meta) (cs : Nat) (pa : Bool) (mr : Nat)
    (hhy : ∀ v ∈ m.column_names, '-' ∉ v.data) :
    ((rowDPNodes df m cs pa mr).map Node.id).map idSig =
      m.column_names.flatMap (fun v => (List.range (rowW df cs pa mr)).map
        (fun i => ("dataPoint", "-" ++ decRepr i ++ "-" ++ v))) := by
  unfold rowDPNodes rowW
  by_cases h : chunkedPathB df cs pa = true
  · rw [if_pos h, if_pos h]
    exact sigs_range_fam "dataPoint" (by decide) "#dataPoint-" (by decide)
      m.column_names _ _ (fun v i => rfl)
  · rw [if_neg h, if_neg h]
    exact sigs_range_fam "dataPoint" (by decide) "#dataPoint-" (by decide)
      m.column_names _ _ (fun v i => rfl)

theorem sigs_DPP (df : DF) (m : Meta) (cs : Nat) (pa : Bool) (mr : Nat)
    (hhy : ∀ v ∈ m.column_names, '-' ∉ v.data) :
    ((rowDPPNodes df m cs pa mr).map Node.id).map idSig =
      m.column_names.flatMap (fun v => (List.range (rowW df cs pa mr)).map
        (fun i => ("dataPointPosition", "-" ++ decRepr i ++ "-" ++ v))) := by
  unfold rowDPPNodes rowW
  by_cases h : chunkedPathB df cs pa = true
  · rw [if_pos h, if_pos h]
    exact sigs_range_fam "dataPointPosition" (by decide) "#dataPointPosition-" (by decide)
      m.column_names _ _ (fun v i => rfl)
  · rw [if_neg h, if_neg h]
    exact sigs_range_fam "dataPointPosition" (by decide) "#dataPointPosition-" (by decide)
      m.column_names _ _ (fun v i => rfl)

theorem sigs_IVar (m : Meta) (hhy : ∀ v ∈ m.column_names, '-' ∉ v.data) :
    ((generate_InstanceVariable m).map Node.id).map idSig =
      m.column_names.map (fun v => ("instanceVariable", "-" ++ v)) :=
  sigs_map_fam "instanceVariable" (by decide) "#instanceVariable-" (by decide)
    m.column_names hhy _ (fun v => rfl)

theorem sigs_SVD (m : Meta) (hhy : ∀ v ∈ m.column_names, '-' ∉ v.data) :
    ((generate_SubstantiveValueDomain m).map Node.id).map idSig =
      m.column_names.map (fun v => ("substantiveValueDomain", "-" ++ v)) :=
  sigs_map_fam "substantiveValueDomain" (by decide) "#substantiveValueDomain-" (by decide)
    m.column_names hhy _ (fun v => rfl)

theorem sigs_SnVD (m : Meta) (hhy : ∀ v ∈ sentinelKeys m, '-' ∉ v.data) :
    ((generate_SentinelValueDomain m).map Node.id).map idSig =
      (sentinelKeys m).map (fun v => ("sentinelValueDomain", "-" ++ v)) :=
  sigs_map_fam "sentinelValueDomain" (by decide) "#sentinelValueDomain-" (by decide)
    (sentinelKeys m) hhy _ (fun v => rfl)

theorem sigs_MC (m : Meta) (hhy : ∀ v ∈ mcVars m, '-' ∉ v.data) :
    ((generate_MeasureComponent m).map Node.id).map idSig =
      (mcVars m).map (fun v => (mcWord m, "-" ++ v)) := by
  have hw : '-' ∉ (mcWord m).data := by
    unfold mcWord
    by_cases hn : hasFmt m "netcdf" = true
    · rw [if_pos hn]; decide
    · rw [if_neg hn]; decide
  simp only [generate_MeasureComponent]
  by_cases hj : hasFmt m "json" = true
  · simp only [hj, if_true]
    have hmc : mcVars m = [] := by unfold mcVars; rw [if_pos hj]
    rw [hmc]
    rfl
  · simp only [hj, Bool.false_eq_true, if_false]
    by_cases hmv : (!m.measure_vars.isEmpty) = true
    · have hmc : mcVars m = m.measure_vars.filter (fun v => m.column_names.contains v) := by
        unfold mcVars
        rw [if_neg hj, if_pos hmv]
      rw [hmc] at hhy ⊢
      simp only [hmv, if_true]
      exact sigs_map_fam (mcWord m) hw ("#" ++ mcWord m ++ "-") rfl _ hhy _ (fun v => rfl)
    · have hmc : mcVars m = m.column_names.filter (fun v =>
          !m.identifier_vars.contains v && !m.attribute_vars.contains v) := by
        unfold mcVars
        rw [if_neg hj, if_neg hmv]
      rw [hmc] at hhy ⊢
      simp only [hmv, Bool.false_eq_true, if_false]
      exact sigs_map_fam (mcWord m) hw ("#" ++ mcWord m ++ "-") rfl _ hhy _ (fun v => rfl)

def atVarsF (m : Meta) : List String :=
  m.attribute_vars.filter (fun v => m.column_names.contains v)

def ctVarsF (m : Meta) : List String :=
  m.contextual_vars.filter (fun v => m.column_names.contains v)

def siVarsF (m : Meta) : List String :=
  m.synthetic_id_vars.filter (fun v => m.column_names.contains v)

def vvVarsF (m : Meta) : List String :=
  m.variable_value_vars.filter (fun v => m.column_names.contains v)

def sedVars (m : Meta) : List String :=
  m.column_names.filter (fun v =>
    amem m.variable_value_labels v && !(sedTop m v).isEmpty)

def snedVars (m : Meta) : List String :=
  (sentinelKeys m).filter (fun v => amem m.variable_value_labels v)

def scsVars (m : Meta) : List String :=
  (m.variable_value_labels.filter (fun p => !(scsTop m p.1 p.2).isEmpty)).map Prod.fst

def sncsVars (m : Meta) : List String :=
  (sentinelKeys m).filter (fun v =>
    amem m.variable_value_labels v && !(sentinelTop m v).isEmpty)

theorem sigs_IC (m : Meta) (hhy : ∀ v ∈ idVarsF m, '-' ∉ v.data) :
    ((generate_IdentifierComponent m).map Node.id).map idSig =
      (idVarsF m).map (fun v => (icWord m, "-" ++ v)) := by
  have hw : '-' ∉ (icWord m).data := by
    unfold icWord
    by_cases hn : hasFmt m "netcdf" = true
    · rw [if_pos hn]; decide
    · rw [if_neg hn]; decide
  simp only [generate_IdentifierComponent]
  exact sigs_map_fam (icWord m) hw ("#" ++ icWord m ++ "-") rfl (idVarsF m) hhy _
    (fun v => rfl)

theorem sigs_PK (m : Meta) :
    ((generate_PrimaryKey m).map Node.id).map idSig =
      (if !m.identifier_vars.isEmpty then [(("primaryKey" : String), ("" : String))]
       else []) := by
  unfold generate_PrimaryKey
  by_cases h : (!m.identifier_vars.isEmpty) = true
  · rw [if_pos h, if_pos h]; rfl
  · rw [if_neg h, if_neg h]; rfl

theorem sigs_PKC (m : Meta) (hhy : ∀ v ∈ idVarsF m, '-' ∉ v.data) :
    ((generate_PrimaryKeyComponent m).map Node.id).map idSig =
      (if !m.identifier_vars.isEmpty then
        (idVarsF m).map (fun v => ("primaryKeyComponent", "-" ++ v))
       else []) := by
  unfold generate_PrimaryKeyComponent
  by_cases h : (!m.identifier_vars.isEmpty) = true
  · rw [if_pos h, if_pos h]
    exact sigs_map_fam "primaryKeyComponent" (by decide) "#primaryKeyComponent-" (by decide)
      (idVarsF m) hhy _ (fun v => rfl)
  · rw [if_neg h, if_neg h]; rfl

theorem sigs_AC (m : Meta) (hhy : ∀ v ∈ atVarsF m, '-' ∉ v.data) :
    ((generate_AttributeComponent m).map Node.id).map idSig =
      (atVarsF m).map (fun v => ("attributeComponent", "-" ++ v)) :=
  sigs_map_fam "attributeComponent" (by decide) "#attributeComponent-" (by decide)
    (atVarsF m) hhy _ (fun v => rfl)

theorem sigs_CC (m : Meta) (hhy : ∀ v ∈ ctVarsF m, '-' ∉ v.data) :
    ((generate_ContextualComponent m).map Node.id).map idSig =
      (if hasFmt m "json" then
        (ctVarsF m).map (fun v => ("contextualComponent", "-" ++ v)) else []) := by
  unfold generate_ContextualComponent
  by_cases h : hasFmt m "json" = true
  · rw [if_pos h, if_pos h]
    exact sigs_map_fam "contextualComponent" (by decide) "#contextualComponent-" (by decide)
      (ctVarsF m) hhy _ (fun v => rfl)
  · rw [if_neg h, if_neg h]; rfl

theorem sigs_SIC (m : Meta) (hhy : ∀ v ∈ siVarsF m, '-' ∉ v.data) :
    ((generate_SyntheticIdComponent m).map Node.id).map idSig =
      (if hasFmt m "json" then
        (siVarsF m).map (fun v => ("syntheticIdComponent", "-" ++ v)) else []) := by
  unfold generate_SyntheticIdComponent
  by_cases h : hasFmt m "json" = true
  · rw [if_pos h, if_pos h]
    exact sigs_map_fam "syntheticIdComponent" (by decide) "#syntheticIdComponent-" (by decide)
      (siVarsF m) hhy _ (fun v => rfl)
  · rw [if_neg h, if_neg h]; rfl

theorem sigs_VVC (m : Meta) (hhy : ∀ v ∈ vvVarsF m, '-' ∉ v.data) :
    ((generate_VariableValueComponent m).map Node.id).map idSig =
      (if hasFmt m "json" then
        (vvVarsF m).map (fun v => ("variableValueComponent", "-" ++ v)) else []) := by
  unfold generate_VariableValueComponent
  by_cases h : hasFmt m "json" = true
  · rw [if_pos h, if_pos h]
    exact sigs_map_fam "variableValueComponent" (by decide) "#variableValueComponent-"
      (by decide) (vvVarsF m) hhy _ (fun v => rfl)
  · rw [if_neg h, if_neg h]; rfl

theorem sigs_VDC (m : Meta) (hhy : ∀ v ∈ vvVarsF m, '-' ∉ v.data) :
    ((generate_VariableDescriptorComponent m).map Node.id).map idSig =
      (if hasFmt m "json" then
        (vvVarsF m).map (fun v => ("variableDescriptorComponent", "-" ++ v)) else []) := by
  unfold generate_VariableDescriptorComponent
  by_cases h : hasFmt m "json" = true
  · rw [if_pos h, if_pos h]
    exact sigs_map_fam "variableDescriptorComponent" (by decide)
      "#variableDescriptorComponent-" (by decide) (vvVarsF m) hhy _ (fun v => rfl)
  · rw [if_neg h, if_neg h]; rfl

theorem sigs_SED (m : Meta) (hhy : ∀ v ∈ m.column_names, '-' ∉ v.data) :
    ((generate_SubstantiveEnumerationDomain m).map Node.id).map idSig =
      (sedVars m).map (fun v => ("substantiveEnumerationDomain", "-" ++ v)) := by
  unfold generate_SubstantiveEnumerationDomain
  rw [List.map_flatMap, List.map_flatMap]
  have hpt : ∀ v ∈ m.column_names,
      (((if amem m.variable_value_labels v then
          (if !(sedTop m v).isEmpty then
            [(⟨"#substantiveEnumerationDomain-" ++ v, "EnumerationDomain",
              [("sameAs", .s ("#substantiveConceptScheme-" ++ v))]⟩ : Node)]
          else []) else []).map Node.id).map idSig) =
      (if (amem m.variable_value_labels v && !(sedTop m v).isEmpty) then
        [(("substantiveEnumerationDomain" : String), "-" ++ v)] else []) := by
    intro v hv
    by_cases h1 : amem m.variable_value_labels v = true
    · by_cases h2 : (!(sedTop m v).isEmpty) = true
      · rw [if_pos h1, if_pos h2, if_pos (by rw [h1, h2]; rfl)]
        show [idSig ("#substantiveEnumerationDomain-" ++ v)] = _
        rw [sig_pre "substantiveEnumerationDomain" (by decide)
          "#substantiveEnumerationDomain-" (by decide) v (hhy v hv)]
      · rw [if_pos h1, if_neg h2, if_neg (by rw [h1]; simpa using h2)]
        rfl
    · rw [if_neg h1, if_neg (by simp [h1])]
      rfl
  rw [List.flatMap_congr hpt, flatMap_if_singleton]
  rfl

theorem sigs_SnED (m : Meta) (hhy : ∀ v ∈ sentinelKeys m, '-' ∉ v.data) :
    ((generate_SentinelEnumerationDomain m).map Node.id).map idSig =
      (snedVars m).map (fun v => ("sentinelEnumerationDomain", "-" ++ v)) := by
  unfold generate_SentinelEnumerationDomain
  rw [List.map_flatMap, List.map_flatMap]
  have hpt : ∀ v ∈ sentinelKeys m,
      (((if amem m.variable_value_labels v then
          [(⟨"#sentinelEnumerationDomain-" ++ v, "EnumerationDomain",
            [("sameAs", .s ("#sentinelConceptScheme-" ++ v))]⟩ : Node)] else []).map
          Node.id).map idSig) =
      (if amem m.variable_value_labels v then
        [(("sentinelEnumerationDomain" : String), "-" ++ v)] else []) := by
    intro v hv
    by_cases h1 : amem m.variable_value_labels v = true
    · rw [if_pos h1, if_pos h1]
      show [idSig ("#sentinelEnumerationDomain-" ++ v)] = _
      rw [sig_pre "sentinelEnumerationDomain" (by decide)
        "#sentinelEnumerationDomain-" (by decide) v (hhy v hv)]
    · rw [if_neg h1, if_neg h1]
      rfl
  show ((sentinelKeys m).flatMap _) = _
  rw [List.flatMap_congr hpt, flatMap_if_singleton]
  rfl

theorem sigs_SCS (m : Meta)
    (hhy : ∀ v ∈ akeys m.variable_value_labels, '-' ∉ v.data) :
    ((generate_SubstantiveConceptScheme m).map Node.id).map idSig =
      (scsVars m).map (fun v => ("substantiveConceptScheme", "-" ++ v)) := by
  unfold generate_SubstantiveConceptScheme
  rw [List.map_flatMap, List.map_flatMap]
  have hpt : ∀ p ∈ m.variable_value_labels,
      (((if !(scsTop m p.1 p.2).isEmpty then
          [(⟨"#substantiveConceptScheme-" ++ p.1, "skos:ConceptScheme",
            [("skos:hasTopConcept", .strs (scsTop m p.1 p.2))]⟩ : Node)] else []).map
          Node.id).map idSig) =
      (if !(scsTop m p.1 p.2).isEmpty then
        [(("substantiveConceptScheme" : String), "-" ++ p.1)] else []) := by
    intro p hp
    by_cases h1 : (!(scsTop m p.1 p.2).isEmpty) = true
    · rw [if_pos h1, if_pos h1]
      show [idSig ("#substantiveConceptScheme-" ++ p.1)] = _
      rw [sig_pre "substantiveConceptScheme" (by decide)
        "#substantiveConceptScheme-" (by decide) p.1
        (hhy p.1 (List.mem_map.mpr ⟨p, hp, rfl⟩))]
    · rw [if_neg h1, if_neg h1]
      rfl
  rw [List.flatMap_congr hpt, flatMap_if_singleton]
  unfold scsVars
  rw [List.map_map]
  rfl

theorem sigs_SnCS (m : Meta) (hhy : ∀ v ∈ sentinelKeys m, '-' ∉ v.data) :
    ((generate_SentinelConceptScheme m).map Node.id).map idSig =
      (sncsVars m).map (fun v => ("sentinelConceptScheme", "-" ++ v)) := by
  unfold generate_SentinelConceptScheme
  rw [List.map_flatMap, List.map_flatMap]
  have hpt : ∀ v ∈ sentinelKeys m,
      (((if amem m.variable_value_labels v then
          (if !(sentinelTop m v).isEmpty then
            [(⟨"#sentinelConceptScheme-" ++ v, "skos:ConceptScheme",
              [("skos:hasTopConcept", .strs (sentinelTop m v))]⟩ : Node)]
          else []) else []).map Node.id).map idSig) =
      (if (amem m.variable_value_labels v && !(sentinelTop m v).isEmpty) then
        [(("sentinelConceptScheme" : String), "-" ++ v)] else []) := by
    intro v hv
    by_cases h1 : amem m.variable_value_labels v = true
    · by_cases h2 : (!(sentinelTop m v).isEmpty) = true
      · rw [if_pos h1, if_pos h2, if_pos (by rw [h1, h2]; rfl)]
        show [idSig ("#sentinelConceptScheme-" ++ v)] = _
        rw [sig_pre "sentinelConceptScheme" (by decide)
          "#sentinelConceptScheme-" (by decide) v (hhy v hv)]
      · rw [if_pos h1, if_neg h2, if_neg (by rw [h1]; simpa using h2)]
        rfl
    · rw [if_neg h1, if_neg (by simp [h1])]
      rfl
  show ((sentinelKeys m).flatMap _) = _
  rw [List.flatMap_congr hpt, flatMap_if_singleton]
  rfl

theorem sigs_Concept (m : Meta)
    (hhy : ∀ v ∈ akeys m.variable_value_labels, '-' ∉ v.data) :
    ((generate_Concept m).map Node.id).map idSig =
      m.variable_value_labels.flatMap (fun p => p.2.map (fun q =>
        ("-concept", p.1 ++ "-concept-" ++ pyStr q.1))) := by
  unfold generate_Concept
  rw [List.map_flatMap, List.map_flatMap]
  apply List.flatMap_congr
  intro p hp
  rw [List.map_map, List.map_map]
  apply List.map_congr_left
  intro q _
  show idSig ("#" ++ p.1 ++ "-concept-" ++ pyStr q.1) = _
  exact sig_concept p.1 (pyStr q.1) (hhy p.1 (List.mem_map.mpr ⟨p, hp, rfl⟩))

theorem sigs_CP (m : Meta) :
    ((generate_ComponentPosition m).map Node.id).map idSig =
      (List.range ((m.column_names.flatMap (cpRefsFor m)).length)).map
        (fun i => ("componentPosition", "-" ++ decRepr i)) := by
  unfold generate_ComponentPosition
  rw [List.map_map, List.map_map]
  rw [show ((idSig ∘ Node.id) ∘ (fun p : Nat × String =>
      (⟨"#componentPosition-" ++ decRepr p.1, "ComponentPosition",
        [("value", .n p.1), ("indexes", .s p.2)]⟩ : Node))) =
      (fun p : Nat × String => idSig ("#componentPosition-" ++ decRepr p.1)) from
    funext (fun p => rfl)]
  rw [enumFrom_map_proj (fun i => idSig ("#componentPosition-" ++ decRepr i))]
  apply List.map_congr_left
  intro i _
  rw [Nat.zero_add]
  exact sig_pre "componentPosition" (by decide) "#componentPosition-" (by decide)
    (decRepr i) (decRepr_no_hyphen i)

theorem sigs_VaCD (m : Meta) (hhy : ∀ v ∈ m.column_names, '-' ∉ v.data)
    (hhyK : ∀ v ∈ sentinelKeys m, '-' ∉ v.data) :
    ((generate_ValueAndConceptDescription m).map Node.id).map idSig =
      m.column_names.map (fun v => ("substantiveValueAndConceptDescription", "-" ++ v)) ++
      (sentinelKeys m).map (fun v => ("sentinelValueAndConceptDescription", "-" ++ v)) := by
  simp only [generate_ValueAndConceptDescription]
  rw [List.map_append, List.map_append]
  refine congrArg₂ (· ++ ·) ?_ ?_
  · exact sigs_map_fam "substantiveValueAndConceptDescription" (by decide)
      "#substantiveValueAndConceptDescription-" (by decide) m.column_names hhy _
      (fun v => rfl)
  · by_cases hmr : (!m.missing_ranges.isEmpty) = true
    · have hk : sentinelKeys m = akeys m.missing_ranges := by
        unfold sentinelKeys
        rw [if_pos hmr]
      rw [if_pos hmr, hk]
      unfold akeys
      rw [List.map_map, List.map_map, List.map_map]
      apply List.map_congr_left
      intro p hp
      show idSig ("#sentinelValueAndConceptDescription-" ++ p.1) = _
      exact sig_pre "sentinelValueAndConceptDescription" (by decide)
        "#sentinelValueAndConceptDescription-" (by decide) p.1
        (by
          apply hhyK
          unfold sentinelKeys
          rw [if_pos hmr]
          exact List.mem_map.mpr ⟨p, hp, rfl⟩)
    · have hk : sentinelKeys m = akeys m.missing_user_values := by
        unfold sentinelKeys
        rw [if_neg hmr]
      rw [if_neg hmr, hk]
      unfold akeys
      rw [List.map_map, List.map_map, List.map_map]
      apply List.map_congr_left
      intro p hp
      show idSig ("#sentinelValueAndConceptDescription-" ++ p.1) = _
      exact sig_pre "sentinelValueAndConceptDescription" (by decide)
        "#sentinelValueAndConceptDescription-" (by decide) p.1
        (by
          apply hhyK
          unfold sentinelKeys
          rw [if_neg hmr]
          exact List.mem_map.mpr ⟨p, hp, rfl⟩)

def chunkLen (df : DF) (cs ci : Nat) (v : String) : Nat :=
  (toNumericIgnore ((df.slice (ci * cs) (min (ci * cs + cs) df.nrows)).col v)).cells.length

def directIVLen (d : DF) (pa : Bool) (w : Nat) (v : String) : Nat :=
  ((d.headRows (rowWindow d pa w)).col v).cells.length

/-- The id signatures the InstanceValue slot contributes, on either path. -/
def ivSigList (df : DF) (m : Meta) (cs : Nat) (pa : Bool) (mr : Nat) :
    List (String × String) :=
  if chunkedPathB df cs pa then
    (List.range ((df.nrows + cs - 1) / cs)).flatMap (fun ci =>
      m.column_names.flatMap (fun v =>
        (List.range (chunkLen df cs ci v)).map (fun j =>
          ("instanceValue", "-" ++ decRepr (ci * cs + j) ++ "-" ++ v))))
  else
    m.column_names.flatMap (fun v =>
      (List.range (directIVLen (dfLimited df cs pa mr) pa mr v)).map (fun i =>
        ("instanceValue", "-" ++ decRepr i ++ "-" ++ v)))

theorem sigs_chunkBlock (df : DF) (m : Meta) (cs ci : Nat) (v : String) :
    ((chunkBlock df m cs ci v).map Node.id).map idSig =
      (List.range (chunkLen df cs ci v)).map (fun j =>
        ("instanceValue", "-" ++ decRepr (ci * cs + j) ++ "-" ++ v)) := by
  simp only [chunkBlock]
  rw [List.map_map, List.map_map]
  refine Eq.trans (enumFrom_map_proj
    (fun x => idSig ("#instanceValue-" ++ decRepr (ci * cs + x) ++ "-" ++ v)) _ 0) ?_
  apply List.map_congr_left
  intro i _
  rw [Nat.zero_add]
  exact sig_pre_ivar "instanceValue" (by decide) "#instanceValue-" (by decide) (ci * cs + i) v

theorem sigs_directIV (d : DF) (m : Meta) (pa : Bool) (w : Nat) :
    ((generate_InstanceValue d m pa w).map Node.id).map idSig =
      m.column_names.flatMap (fun v => (List.range (directIVLen d pa w v)).map (fun i =>
        ("instanceValue", "-" ++ decRepr i ++ "-" ++ v))) := by
  simp only [generate_InstanceValue]
  rw [List.map_flatMap, List.map_flatMap]
  apply List.flatMap_congr
  intro v _
  rw [List.map_map, List.map_map]
  refine Eq.trans (enumFrom_map_proj
    (fun x => idSig ("#instanceValue-" ++ decRepr x ++ "-" ++ v)) _ 0) ?_
  apply List.map_congr_left
  intro i _
  rw [Nat.zero_add]
  exact sig_pre_ivar "instanceValue" (by decide) "#instanceValue-" (by decide) i v

theorem sigs_IV (df : DF) (m : Meta) (cs : Nat) (pa : Bool) (mr : Nat) :
    ((rowIVNodes df m cs pa mr).map Node.id).map idSig = ivSigList df m cs pa mr := by
  unfold rowIVNodes ivSigList
  by_cases h : chunkedPathB df cs pa = true
  · rw [if_pos h, if_pos h]
    unfold chunkInstanceValues
    rw [List.map_flatMap, List.map_flatMap]
    apply List.flatMap_congr
    intro ci _
    rw [List.map_flatMap, List.map_flatMap]
    apply List.flatMap_congr
    intro v _
    exact sigs_chunkBlock df m cs ci v
  · rw [if_neg h, if_neg h]
    exact sigs_directIV _ m pa mr

/-! ## Block-level uniqueness facts -/

theorem nodup_sig_concat (blocks : List (String × List (String × String)))
    (hw : (blocks.map Prod.fst).Nodup)
    (hb : ∀ b ∈ blocks, (∀ x ∈ b.2, x.1 = b.1) ∧ b.2.Nodup) :
    (blocks.flatMap Prod.snd).Nodup :=
  nodup_flatMap_classified blocks Prod.snd Prod.fst Prod.fst hw
    (fun b hbm x hx => (hb b hbm).1 x hx) (fun b hbm => (hb b hbm).2)

theorem fst_map_const {α : Type} (w : String) (g : α → String) (l : List α) :
    ∀ x ∈ l.map (fun t => ((w, g t) : String × String)), x.1 = w := by
  intro x hx
  obtain ⟨t, _, he⟩ := List.mem_map.mp hx
  rw [← he]

theorem nodup_sig_wrap (w : String) (VS : List String) (h : VS.Nodup) :
    (VS.map (fun v => ((w, "-" ++ v) : String × String))).Nodup :=
  List.Nodup.map (fun a b e => string_append_left_cancel (congrArg Prod.snd e)) h

theorem nodup_range_fam (w v : String) (g : Nat → Nat)
    (hg : ∀ a b, g a = g b → a = b) (W : Nat) :
    ((List.range W).map (fun i =>
      ((w, "-" ++ decRepr (g i) ++ "-" ++ v) : String × String))).Nodup :=
  List.Nodup.map (fun a b e => hg a b (by
    have h2 := congrArg (fun x : String × String => iOf x.2) e
    simpa [iOf_iv] using h2)) (List.nodup_range W)

theorem fam_block_nodup (w : String) (VS : List String) (hnd : VS.Nodup)
    (W : String → Nat) (g : String → Nat → Nat)
    (hg : ∀ v a b, g v a = g v b → a = b) :
    (VS.flatMap (fun v => (List.range (W v)).map (fun i =>
      ((w, "-" ++ decRepr (g v i) ++ "-" ++ v) : String × String)))).Nodup := by
  apply nodup_flatMap_classified VS _ (fun x : String × String => vOf x.2) (fun v => v)
  · simpa using hnd
  · intro v _ x hx
    obtain ⟨i, _, he⟩ := List.mem_map.mp hx
    rw [← he]
    exact vOf_iv (g v i) v
  · intro v _
    exact nodup_range_fam w v (g v) (hg v) (W v)

theorem nodup_pos_block (w : String) (len : Nat) :
    ((List.range len).map (fun i => ((w, "-" ++ decRepr i) : String × String))).Nodup :=
  List.Nodup.map (fun a b e => decRepr_inj
    (string_append_left_cancel (congrArg Prod.snd e))) (List.nodup_range len)

theorem nodup_concept_block (m : Meta)
    (hhy : ∀ v ∈ akeys m.variable_value_labels, '-' ∉ v.data)
    (hkeys : (akeys m.variable_value_labels).Nodup)
    (hren : ∀ p ∈ m.variable_value_labels, (p.2.map (fun q => pyStr q.1)).Nodup) :
    (m.variable_value_labels.flatMap (fun p => p.2.map (fun q =>
      (("-concept" : String), p.1 ++ "-concept-" ++ pyStr q.1)))).Nodup := by
  apply nodup_flatMap_classified m.variable_value_labels _
    (fun x : String × String => tokOf x.2) Prod.fst
  · exact hkeys
  · intro p hp x hx
    obtain ⟨q, _, he⟩ := List.mem_map.mp hx
    rw [← he]
    exact tokOf_payload p.1 (pyStr q.1) (hhy p.1 (List.mem_map.mpr ⟨p, hp, rfl⟩))
  · intro p hp
    have h1 : p.2.map (fun q => (("-concept" : String), p.1 ++ "-concept-" ++ pyStr q.1)) =
        (p.2.map (fun q => pyStr q.1)).map
          (fun k => (("-concept" : String), p.1 ++ "-concept-" ++ k)) := by
      rw [List.map_map]
      rfl
    rw [h1]
    exact List.Nodup.map (fun a b e =>
      string_append_left_cancel (congrArg Prod.snd e)) (hren p hp)

theorem chunkLen_le (df : DF) (cs ci : Nat) (v : String) : chunkLen df cs ci v ≤ cs := by
  unfold chunkLen
  rw [toNumericIgnore_length, slice_col]
  show (((df.col v).cells.take (min (ci * cs + cs) df.nrows)).drop (ci * cs)).length ≤ cs
  rw [List.length_drop, List.length_take]
  omega

theorem nodup_ivSigList (df : DF) (m : Meta) (cs : Nat) (pa : Bool) (mr : Nat)
    (hnd : m.column_names.Nodup) : (ivSigList df m cs pa mr).Nodup := by
  unfold ivSigList
  by_cases h : chunkedPathB df cs pa = true
  · rw [if_pos h]
    by_cases hcs : cs = 0
    · subst hcs
      rw [Nat.div_zero]
      exact List.nodup_nil
    · have hcs' : 0 < cs := Nat.pos_of_ne_zero hcs
      apply nodup_flatMap_classified (List.range ((df.nrows + cs - 1) / cs)) _
        (fun x : String × String => iOf x.2 / cs) (fun ci => ci)
      · simpa using List.nodup_range ((df.nrows + cs - 1) / cs)
      · intro ci _ x hx
        obtain ⟨v, _, hv⟩ := List.mem_flatMap.mp hx
        obtain ⟨j, hj, he⟩ := List.mem_map.mp hv
        rw [← he]
        show iOf ("-" ++ decRepr (ci * cs + j) ++ "-" ++ v) / cs = ci
        rw [iOf_iv]
        have hjlt : j < cs := Nat.lt_of_lt_of_le (List.mem_range.mp hj) (chunkLen_le df cs ci v)
        rw [Nat.mul_comm ci cs, Nat.mul_add_div hcs', Nat.div_eq_of_lt hjlt]
        omega
      · intro ci _
        exact fam_block_nodup "instanceValue" m.column_names hnd _
          (fun v j => ci * cs + j) (fun v a b e => Nat.add_left_cancel e)
  · rw [if_neg h]
    exact fam_block_nodup "instanceValue" m.column_names hnd _
      (fun v i => i) (fun v a b e => e)

theorem if_append_split {α : Type} (b : Bool) (A B : List α) :
    (if b = true then A ++ B else []) =
      (if b = true then A else []) ++ (if b = true then B else []) := by
  cases b <;> simp

theorem slot23_distrib {α : Type} (b1 b2 : Bool) (A B C : List α) :
    (if (b1 && !b2) = true then A ++ B ++ C else if (b1 && b2) = true then A else []) =
      (if b1 = true then A else []) ++
      ((if (b1 && !b2) = true then B else []) ++
       (if (b1 && !b2) = true then C else [])) := by
  cases b1 <;> cases b2 <;> simp

theorem slot23_distrib2 {α : Type} (b1 b2 : Bool) (A B C : List α) :
    (if (b1 && !b2) = true then
      (A ++ if b1 = true then B else []) ++ (if b1 = true then C else [])
     else if (b1 && b2) = true then A else []) =
      (if b1 = true then A else []) ++
      ((if (b1 && !b2) = true then B else []) ++
       (if (b1 && !b2) = true then C else [])) := by
  cases b1 <;> cases b2 <;> simp

theorem ite_ite_and {α : Type} (b j : Bool) (X : List α) :
    (if b = true then (if j = true then X else []) else []) =
      (if (b && j) = true then X else []) := by
  cases b <;> cases j <;> simp

theorem if_block_facts (c : Bool) (w : String) (L : List (String × String))
    (hA : ∀ x ∈ L, x.1 = w) (hB : L.Nodup) :
    (∀ x ∈ (if c = true then L else []), x.1 = w) ∧
      (if c = true then L else []).Nodup := by
  cases c
  · simp
  · exact ⟨hA, hB⟩

theorem fam_block_fst (w : String) (VS : List String) (W : String → Nat)
    (g : String → Nat → Nat) :
    ∀ x ∈ VS.flatMap (fun v => (List.range (W v)).map (fun i =>
      ((w, "-" ++ decRepr (g v i) ++ "-" ++ v) : String × String))), x.1 = w := by
  intro x hx
  obtain ⟨v, _, hv⟩ := List.mem_flatMap.mp hx
  exact fst_map_const w _ _ x hv

theorem ivSigList_fst (df : DF) (m : Meta) (cs : Nat) (pa : Bool) (mr : Nat) :
    ∀ x ∈ ivSigList df m cs pa mr, x.1 = "instanceValue" := by
  intro x hx
  unfold ivSigList at hx
  by_cases h : chunkedPathB df cs pa = true
  · rw [if_pos h] at hx
    obtain ⟨ci, _, hci⟩ := List.mem_flatMap.mp hx
    obtain ⟨v, _, hv⟩ := List.mem_flatMap.mp hci
    exact fst_map_const _ _ _ x hv
  · rw [if_neg h] at hx
    obtain ⟨v, _, hv⟩ := List.mem_flatMap.mp hx
    exact fst_map_const _ _ _ x hv

theorem concept_block_fst (m : Meta) :
    ∀ x ∈ m.variable_value_labels.flatMap (fun p => p.2.map (fun q =>
      (("-concept" : String), p.1 ++ "-concept-" ++ pyStr q.1))), x.1 = "-concept" := by
  intro x hx
  obtain ⟨p, _, hp⟩ := List.mem_flatMap.mp hx
  exact fst_map_const _ _ _ x hp

theorem words_nodup (m : Meta) :
    ([("physicalDataSet" : String), "physicalRecordSegment", "physicalSegmentLayout",
      "valueMapping", "valueMappingPosition", "dataPoint", "dataPointPosition",
      "instanceValue", "dataStore", "logicalRecord", dsWord m, stWord m, mcWord m,
      "instanceVariable", "substantiveValueDomain", "substantiveEnumerationDomain",
      "sentinelValueDomain", "sentinelEnumerationDomain",
      "substantiveValueAndConceptDescription", "sentinelValueAndConceptDescription",
      "substantiveConceptScheme", "sentinelConceptScheme", "-concept", icWord m,
      "primaryKey", "primaryKeyComponent", "attributeComponent", "contextualComponent",
      "syntheticIdComponent", "variableValueComponent", "variableDescriptorComponent",
      "componentPosition"]).Nodup := by
  unfold dsWord stWord mcWord icWord
  by_cases hj : hasFmt m "json" = true
  · have hn : hasFmt m "netcdf" = false := hasFmt_excl m hj (by decide)
    simp only [hj, hn, if_true, Bool.false_eq_true, if_false]
    decide
  · by_cases hn : hasFmt m "netcdf" = true
    · have hj2 : hasFmt m "json" = false := by
        rw [Bool.not_eq_true] at hj
        exact hj
      simp only [hj2, hn, if_true, Bool.false_eq_true, if_false]
      decide
    · have hj2 : hasFmt m "json" = false := by
        rw [Bool.not_eq_true] at hj
        exact hj
      have hn2 : hasFmt m "netcdf" = false := by
        rw [Bool.not_eq_true] at hn
        exact hn
      simp only [hj2, hn2, Bool.false_eq_true, if_false]
      decide
theorem pipeline_ids_nodup (df : DF) (m : Meta) (f : String) (cs : Nat) (pa : Bool) (mr : Nat)
    (h1 : m.column_names.Nodup)
    (h2 : ∀ v ∈ m.column_names, '-' ∉ v.data)
    (h3 : (akeys m.missing_ranges).Nodup)
    (h3s : ∀ v ∈ akeys m.missing_ranges, v ∈ m.column_names)
    (h4 : (akeys m.missing_user_values).Nodup)
    (h4s : ∀ v ∈ akeys m.missing_user_values, v ∈ m.column_names)
    (h5 : (akeys m.variable_value_labels).Nodup)
    (h5s : ∀ v ∈ akeys m.variable_value_labels, v ∈ m.column_names)
    (h6 : ∀ p ∈ m.variable_value_labels, (p.2.map (fun q => pyStr q.1)).Nodup)
    (h7 : m.identifier_vars.Nodup) (h8 : m.attribute_vars.Nodup)
    (h9 : m.contextual_vars.Nodup) (h10 : m.synthetic_id_vars.Nodup)
    (h11 : m.variable_value_vars.Nodup) (h12 : m.measure_vars.Nodup) :
    (((pipelineComponents df m f cs pa mr).map Node.id).map idSig).Nodup := by
  have hkeyhy : ∀ v ∈ sentinelKeys m, '-' ∉ v.data := by
    intro v hv
    unfold sentinelKeys at hv
    by_cases hm : (!m.missing_ranges.isEmpty) = true
    · rw [if_pos hm] at hv
      exact h2 v (h3s v hv)
    · rw [if_neg hm] at hv
      exact h2 v (h4s v hv)
  have hlabhy : ∀ v ∈ akeys m.variable_value_labels, '-' ∉ v.data :=
    fun v hv => h2 v (h5s v hv)
  have hidhy : ∀ v ∈ idVarsF m, '-' ∉ v.data := by
    intro v hv
    unfold idVarsF at hv
    exact h2 v (by simpa using (List.mem_filter.mp hv).2)
  have hmchy : ∀ v ∈ mcVars m, '-' ∉ v.data := by
    intro v hv
    unfold mcVars at hv
    by_cases hj : hasFmt m "json" = true
    · rw [if_pos hj] at hv
      cases hv
    · rw [if_neg hj] at hv
      by_cases hmv : (!m.measure_vars.isEmpty) = true
      · rw [if_pos hmv] at hv
        exact h2 v (by simpa using (List.mem_filter.mp hv).2)
      · rw [if_neg hmv] at hv
        exact h2 v (List.mem_of_mem_filter hv)
  have hathy : ∀ v ∈ atVarsF m, '-' ∉ v.data := by
    intro v hv
    unfold atVarsF at hv
    exact h2 v (by simpa using (List.mem_filter.mp hv).2)
  have hcthy : ∀ v ∈ ctVarsF m, '-' ∉ v.data := by
    intro v hv
    unfold ctVarsF at hv
    exact h2 v (by simpa using (List.mem_filter.mp hv).2)
  have hsihy : ∀ v ∈ siVarsF m, '-' ∉ v.data := by
    intro v hv
    unfold siVarsF at hv
    exact h2 v (by simpa using (List.mem_filter.mp hv).2)
  have hvvhy : ∀ v ∈ vvVarsF m, '-' ∉ v.data := by
    intro v hv
    unfold vvVarsF at hv
    exact h2 v (by simpa using (List.mem_filter.mp hv).2)
  simp only [pipelineComponents]
  simp only [List.map_append]
  rw [sigs_PD, sigs_PRS, sigs_PSL, sigs_VM df m cs pa mr h2, sigs_VMP m h2,
    sigs_DP df m cs pa mr h2, sigs_DPP df m cs pa mr h2, sigs_IV df m cs pa mr,
    sigs_DS, sigs_LR, sigs_DDSet, sigs_DDStr, sigs_MC m hmchy, sigs_IVar m h2,
    sigs_SVD m h2, sigs_SED m h2, sigs_SnVD m hkeyhy, sigs_SnED m hkeyhy,
    sigs_VaCD m h2 hkeyhy, sigs_SCS m hlabhy, sigs_SnCS m hkeyhy,
    sigs_Concept m hlabhy, sigs_CP m]
  simp only [apply_ite (List.map Node.id), apply_ite (List.map idSig),
    List.map_append, List.map_nil]
  rw [sigs_IC m hidhy, sigs_PK m, sigs_PKC m hidhy, sigs_AC m hathy, sigs_CC m hcthy,
    sigs_SIC m hsihy, sigs_VVC m hvvhy, sigs_VDC m hvvhy]
  rw [slot23_distrib2 (!m.identifier_vars.isEmpty) (hasFmt m "json")
        (List.map (fun v => (icWord m, "-" ++ v)) (idVarsF m))
        [(("primaryKey" : String), ("" : String))]
        (List.map (fun v => (("primaryKeyComponent" : String), "-" ++ v)) (idVarsF m)),
      if_append_split (!m.variable_value_vars.isEmpty),
      ite_ite_and (!m.contextual_vars.isEmpty) (hasFmt m "json"),
      ite_ite_and (!m.synthetic_id_vars.isEmpty) (hasFmt m "json"),
      ite_ite_and (!m.variable_value_vars.isEmpty) (hasFmt m "json"),
      ite_ite_and (!m.variable_value_vars.isEmpty) (hasFmt m "json")]
  have hndIdF : (idVarsF m).Nodup := h7.filter _
  have hndAt : (atVarsF m).Nodup := h8.filter _
  have hndCt : (ctVarsF m).Nodup := h9.filter _
  have hndSi : (siVarsF m).Nodup := h10.filter _
  have hndVv : (vvVarsF m).Nodup := h11.filter _
  have hndKeys : (sentinelKeys m).Nodup := by
    unfold sentinelKeys
    by_cases hm : (!m.missing_ranges.isEmpty) = true
    · rw [if_pos hm]; exact h3
    · rw [if_neg hm]; exact h4
  have hndMc : (mcVars m).Nodup := by
    unfold mcVars
    by_cases hj : hasFmt m "json" = true
    · rw [if_pos hj]; exact List.nodup_nil
    · rw [if_neg hj]
      by_cases hmv : (!m.measure_vars.isEmpty) = true
      · rw [if_pos hmv]; exact h12.filter _
      · rw [if_neg hmv]; exact h1.filter _
  have hndSed : (sedVars m).Nodup := h1.filter _
  have hndSned : (snedVars m).Nodup := hndKeys.filter _
  have hndScs : (scsVars m).Nodup :=
    ((List.filter_sublist m.variable_value_labels).map Prod.fst).nodup h5
  have hndSncs : (sncsVars m).Nodup := hndKeys.filter _
  have hnd := nodup_sig_concat
    [(("physicalDataSet" : String), [(("physicalDataSet" : String), ("" : String))]),
     ("physicalRecordSegment", [("physicalRecordSegment", "")]),
     ("physicalSegmentLayout", [("physicalSegmentLayout", "")]),
     ("valueMapping", m.column_names.map (fun v => ("valueMapping", "-" ++ v))),
     ("valueMappingPosition",
       m.column_names.map (fun v => ("valueMappingPosition", "-" ++ v))),
     ("dataPoint", m.column_names.flatMap (fun v => (List.range (rowW df cs pa mr)).map
       (fun i => ("dataPoint", "-" ++ decRepr i ++ "-" ++ v)))),
     ("dataPointPosition", m.column_names.flatMap
       (fun v => (List.range (rowW df cs pa mr)).map
         (fun i => ("dataPointPosition", "-" ++ decRepr i ++ "-" ++ v)))),
     ("instanceValue", ivSigList df m cs pa mr),
     ("dataStore", [("dataStore", "")]),
     ("logicalRecord", [("logicalRecord", "")]),
     (dsWord m, [(dsWord m, "")]),
     (stWord m, [(stWord m, "")]),
     (mcWord m, (mcVars m).map (fun v => (mcWord m, "-" ++ v))),
     ("instanceVariable", m.column_names.map (fun v => ("instanceVariable", "-" ++ v))),
     ("substantiveValueDomain",
       m.column_names.map (fun v => ("substantiveValueDomain", "-" ++ v))),
     ("substantiveEnumerationDomain",
       (sedVars m).map (fun v => ("substantiveEnumerationDomain", "-" ++ v))),
     ("sentinelValueDomain",
       (sentinelKeys m).map (fun v => ("sentinelValueDomain", "-" ++ v))),
     ("sentinelEnumerationDomain",
       (snedVars m).map (fun v => ("sentinelEnumerationDomain", "-" ++ v))),
     ("substantiveValueAndConceptDescription",
       m.column_names.map (fun v => ("substantiveValueAndConceptDescription", "-" ++ v))),
     ("sentinelValueAndConceptDescription",
       (sentinelKeys m).map (fun v => ("sentinelValueAndConceptDescription", "-" ++ v))),
     ("substantiveConceptScheme",
       (scsVars m).map (fun v => ("substantiveConceptScheme", "-" ++ v))),
     ("sentinelConceptScheme",
       (sncsVars m).map (fun v => ("sentinelConceptScheme", "-" ++ v))),
     ("-concept", m.variable_value_labels.flatMap (fun p => p.2.map (fun q =>
       ("-concept", p.1 ++ "-concept-" ++ pyStr q.1)))),
     (icWord m, if (!m.identifier_vars.isEmpty) = true then
       (idVarsF m).map (fun v => (icWord m, "-" ++ v)) else []),
     ("primaryKey", if (!m.identifier_vars.isEmpty && !hasFmt m "json") = true then
       [("primaryKey", "")] else []),
     ("primaryKeyComponent", if (!m.identifier_vars.isEmpty && !hasFmt m "json") = true then
       (idVarsF m).map (fun v => ("primaryKeyComponent", "-" ++ v)) else []),
     ("attributeComponent", if (!m.attribute_vars.isEmpty) = true then
       (atVarsF m).map (fun v => ("attributeComponent", "-" ++ v)) else []),
     ("contextualComponent",
       if (!m.contextual_vars.isEmpty && hasFmt m "json") = true then
         (ctVarsF m).map (fun v => ("contextualComponent", "-" ++ v)) else []),
     ("syntheticIdComponent",
       if (!m.synthetic_id_vars.isEmpty && hasFmt m "json") = true then
         (siVarsF m).map (fun v => ("syntheticIdComponent", "-" ++ v)) else []),
     ("variableValueComponent",
       if (!m.variable_value_vars.isEmpty && hasFmt m "json") = true then
         (vvVarsF m).map (fun v => ("variableValueComponent", "-" ++ v)) else []),
     ("variableDescriptorComponent",
       if (!m.variable_value_vars.isEmpty && hasFmt m "json") = true then
         (vvVarsF m).map (fun v => ("variableDescriptorComponent", "-" ++ v)) else []),
     ("componentPosition", (List.range ((m.column_names.flatMap (cpRefsFor m)).length)).map
       (fun i => ("componentPosition", "-" ++ decRepr i)))]
    (by
      simp only [List.map_cons, List.map_nil]
      exact words_nodup m)
    (by
      intro b hb
      simp only [List.mem_cons] at hb
      rcases hb with rfl | rfl | rfl | rfl | rfl | rfl | rfl | rfl | rfl | rfl | rfl |
        rfl | rfl | rfl | rfl | rfl | rfl | rfl | rfl | rfl | rfl | rfl | rfl | rfl |
        rfl | rfl | rfl | rfl | rfl | rfl | rfl | rfl | hb
      · exact ⟨by decide, by decide⟩
      · exact ⟨by decide, by decide⟩
      · exact ⟨by decide, by decide⟩
      · exact ⟨fst_map_const _ _ _, nodup_sig_wrap _ _ h1⟩
      · exact ⟨fst_map_const _ _ _, nodup_sig_wrap _ _ h1⟩
      · exact ⟨fam_block_fst _ _ _ (fun v i => i),
          fam_block_nodup _ _ h1 _ (fun v i => i) (fun v a b e => e)⟩
      · exact ⟨fam_block_fst _ _ _ (fun v i => i),
          fam_block_nodup _ _ h1 _ (fun v i => i) (fun v a b e => e)⟩
      · exact ⟨ivSigList_fst df m cs pa mr, nodup_ivSigList df m cs pa mr h1⟩
      · exact ⟨by decide, by decide⟩
      · exact ⟨by decide, by decide⟩
      · exact ⟨by simp, by simp⟩
      · exact ⟨by simp, by simp⟩
      · exact ⟨fst_map_const _ _ _, nodup_sig_wrap _ _ hndMc⟩
      · exact ⟨fst_map_const _ _ _, nodup_sig_wrap _ _ h1⟩
      · exact ⟨fst_map_const _ _ _, nodup_sig_wrap _ _ h1⟩
      · exact ⟨fst_map_const _ _ _, nodup_sig_wrap _ _ hndSed⟩
      · exact ⟨fst_map_const _ _ _, nodup_sig_wrap _ _ hndKeys⟩
      · exact ⟨fst_map_const _ _ _, nodup_sig_wrap _ _ hndSned⟩
      · exact ⟨fst_map_const _ _ _, nodup_sig_wrap _ _ h1⟩
      · exact ⟨fst_map_const _ _ _, nodup_sig_wrap _ _ hndKeys⟩
      · exact ⟨fst_map_const _ _ _, nodup_sig_wrap _ _ hndScs⟩
      · exact ⟨fst_map_const _ _ _, nodup_sig_wrap _ _ hndSncs⟩
      · exact ⟨concept_block_fst m, nodup_concept_block m hlabhy h5 h6⟩
      · exact if_block_facts _ (icWord m) _ (fst_map_const _ _ _)
          (nodup_sig_wrap _ _ hndIdF)
      · exact if_block_facts _ "primaryKey" _ (by decide) (by decide)
      · exact if_block_facts _ "primaryKeyComponent" _ (fst_map_const _ _ _)
          (nodup_sig_wrap _ _ hndIdF)
      · exact if_block_facts _ "attributeComponent" _ (fst_map_const _ _ _)
          (nodup_sig_wrap _ _ hndAt)
      · exact if_block_facts _ "contextualComponent" _ (fst_map_const _ _ _)
          (nodup_sig_wrap _ _ hndCt)
      · exact if_block_facts _ "syntheticIdComponent" _ (fst_map_const _ _ _)
          (nodup_sig_wrap _ _ hndSi)
      · exact if_block_facts _ "variableValueComponent" _ (fst_map_const _ _ _)
          (nodup_sig_wrap _ _ hndVv)
      · exact if_block_facts _ "variableDescriptorComponent" _ (fst_map_const _ _ _)
          (nodup_sig_wrap _ _ hndVv)
      · exact ⟨fst_map_const _ _ _, nodup_pos_block _ _⟩
      · exact absurd hb (List.not_mem_nil b))
  simpa only [List.flatMap_cons, List.flatMap_nil, List.append_nil,
    List.append_assoc] using hnd

theorem allDoc_perm_pipeline (df : DF) (m : Meta) (f : String) (cs : Nat) (pa : Bool)
    (mr : Nat) :
    (allDocNodes (generate_complete_json_ld df m f cs pa mr)).Perm
      (pipelineComponents df m f cs pa mr) := by
  unfold allDocNodes
  rw [ddi_eq, included_eq]
  by_cases hs : ((pipelineComponents df m f cs pa mr).filter isSkosNode).isEmpty = true
  · have hnil : (pipelineComponents df m f cs pa mr).filter isSkosNode = [] := by
      cases hl : (pipelineComponents df m f cs pa mr).filter isSkosNode with
      | nil => rfl
      | cons a t => rw [hl] at hs; simp at hs
    rw [hnil]
    simp only [List.isEmpty_nil, Bool.not_true, Bool.false_eq_true, if_false,
      Option.getD_none, List.append_nil]
    have hall : ∀ n ∈ pipelineComponents df m f cs pa mr, isSkosNode n = false := by
      intro n hn
      have := List.filter_eq_nil_iff.mp hnil n hn
      simpa using this
    rw [List.filter_eq_self.mpr (fun n hn => by simp [hall n hn])]
  · rw [Bool.not_eq_true] at hs
    rw [hs]
    simp only [Bool.not_false, if_true, Option.getD_some]
    exact (List.perm_append_comm).trans (List.filter_append_perm _ _)

/-- C5 (amended): under well-formedness hypotheses ruling out the
hyphen-ambiguity (distinct hyphen-free column names, metadata dict keys
that are columns, per-variable rendered value-label keys distinct, and
duplicate-free role lists) every node id emitted into the final
document, across both @graph arrays and on either row-generation path,
is unique; stability is definitional since generation is a pure
function of the input. -/
theorem claim5_amended (df : DF) (m : Meta) (f : String) (cs : Nat) (pa : Bool) (mr : Nat)
    (h1 : m.column_names.Nodup)
    (h2 : ∀ v ∈ m.column_names, '-' ∉ v.data)
    (h3 : (akeys m.missing_ranges).Nodup)
    (h3s : ∀ v ∈ akeys m.missing_ranges, v ∈ m.column_names)
    (h4 : (akeys m.missing_user_values).Nodup)
    (h4s : ∀ v ∈ akeys m.missing_user_values, v ∈ m.column_names)
    (h5 : (akeys m.variable_value_labels).Nodup)
    (h5s : ∀ v ∈ akeys m.variable_value_labels, v ∈ m.column_names)
    (h6 : ∀ p ∈ m.variable_value_labels, (p.2.map (fun q => pyStr q.1)).Nodup)
    (h7 : m.identifier_vars.Nodup) (h8 : m.attribute_vars.Nodup)
    (h9 : m.contextual_vars.Nodup) (h10 : m.synthetic_id_vars.Nodup)
    (h11 : m.variable_value_vars.Nodup) (h12 : m.measure_vars.Nodup) :
    ((allDocNodes (generate_complete_json_ld df m f cs pa mr)).map Node.id).Nodup := by
  have hperm := allDoc_perm_pipeline df m f cs pa mr
  have hsig := pipeline_ids_nodup df m f cs pa mr h1 h2 h3 h3s h4 h4s h5 h5s h6 h7 h8
    h9 h10 h11 h12
  have hperm2 := (hperm.map Node.id).map idSig
  exact List.Nodup.of_map idSig (hperm2.nodup_iff.mpr hsig)

theorem claim5_witness :
    (mC2.column_names.Nodup ∧
      (∀ v ∈ mC2.column_names, '-' ∉ v.data) ∧
      (akeys mC2.missing_ranges).Nodup ∧
      (∀ v ∈ akeys mC2.missing_ranges, v ∈ mC2.column_names) ∧
      (akeys mC2.missing_user_values).Nodup ∧
      (∀ v ∈ akeys mC2.missing_user_values, v ∈ mC2.column_names) ∧
      (akeys mC2.variable_value_labels).Nodup ∧
      (∀ v ∈ akeys mC2.variable_value_labels, v ∈ mC2.column_names) ∧
      (∀ p ∈ mC2.variable_value_labels, (p.2.map (fun q => pyStr q.1)).Nodup) ∧
      mC2.identifier_vars.Nodup ∧ mC2.attribute_vars.Nodup ∧
      mC2.contextual_vars.Nodup ∧ mC2.synthetic_id_vars.Nodup ∧
      mC2.variable_value_vars.Nodup ∧ mC2.measure_vars.Nodup) ∧
    ((allDocNodes (generate_complete_json_ld dfW mC2 "c.csv" 3 true 5)).map
      Node.id).Nodup :=
  ⟨⟨by decide, by decide, by decide, by decide, by decide, by decide, by decide,
    by decide, by decide, by decide, by decide, by decide, by decide, by decide,
    by decide⟩,
   claim5_amended dfW mC2 "c.csv" 3 true 5 (by decide) (by decide) (by decide)
     (by decide) (by decide) (by decide) (by decide) (by decide) (by decide)
     (by decide) (by decide) (by decide) (by decide) (by decide) (by decide)⟩

/-! ## Claim C3: referential integrity -/

/-- The attribute keys whose values are node references (all other
string-valued attributes carry literals: file names, type URIs, labels,
classification levels, rendered bounds). -/
def refKeys : List String :=
  ["correspondsTo_DataSet", "formats", "has_PhysicalRecordSegment", "mapsTo",
   "has_PhysicalSegmentLayout", "has_DataPointPosition", "has_ValueMappingPosition",
   "has_LogicalRecord", "organizes", "has_InstanceVariable", "isStructuredBy",
   "has_DataStructureComponent", "has_ComponentPosition", "has_PrimaryKey",
   "isDefinedBy_InstanceVariable", "isDefinedBy_RepresentedVariable", "refersTo",
   "indexes", "isComposedOf", "correspondsTo_DataStructureComponent",
   "has_ValueMapping", "takesSubstantiveValuesFrom_SubstantiveValueDomain",
   "takesSentinelValuesFrom", "isDescribedBy", "takesValuesFrom", "sameAs",
   "isStoredIn", "hasValueFrom_ValueDomain", "has_DataPoint_OF_DataSet",
   "skos:hasTopConcept"]

/-- Every node id referenced from one node's attributes: single
references (.s) and reference arrays (.strs) under the reference keys.
The formats key of PhysicalDataset holds a single id and the formats key
of ValueMapping holds an id array; both are reference-valued. -/
def refsOfNode (n : Node) : List String :=
  n.attrs.flatMap (fun p =>
    if refKeys.contains p.1 then
      match p.2 with
      | .s v => [v]
      | .strs vs => vs
      | _ => []
    else [])

def docRefs (d : JsonLdDoc) : List String := (allDocNodes d).flatMap refsOfNode

def docIds (d : JsonLdDoc) : List String := (allDocNodes d).map Node.id

/-- C3 counterexample: on the NetCDF path the ComponentPosition and
PrimaryKeyComponent generators reference the tabular identifierComponent-
and measureComponent- ids while the component nodes are emitted under the
dimensionComponent- and qualifiedMeasure- prefixes, so the references
dangle. -/
theorem claim3_counterexample :
    "#identifierComponent-lat" ∈ docRefs (generate_complete_json_ld dfNc mNc "t.nc" 1000 true 5) ∧
    "#identifierComponent-lat" ∉ docIds (generate_complete_json_ld dfNc mNc "t.nc" 1000 true 5) ∧
    "#measureComponent-temp" ∈ docRefs (generate_complete_json_ld dfNc mNc "t.nc" 1000 true 5) ∧
    "#measureComponent-temp" ∉ docIds (generate_complete_json_ld dfNc mNc "t.nc" 1000 true 5) := by
  refine ⟨by decide, by decide, by decide, by decide⟩

theorem mem_pipeline_iff (df : DF) (m : Meta) (f : String) (cs : Nat) (pa : Bool)
    (mr : Nat) (n : Node) :
    n ∈ pipelineComponents df m f cs pa mr ↔
      (n ∈ generate_PhysicalDataset m f ∨
      n ∈ generate_PhysicalRecordSegment m (dfLimited df cs pa mr) ∨
      n ∈ generate_PhysicalSegmentLayout m ∨
      n ∈ rowVMNodes df m cs pa mr ∨
      n ∈ generate_ValueMappingPosition m ∨
      n ∈ rowDPNodes df m cs pa mr ∨
      n ∈ rowDPPNodes df m cs pa mr ∨
      n ∈ rowIVNodes df m cs pa mr ∨
      n ∈ generate_DataStore m ∨
      n ∈ generate_LogicalRecord m ∨
      n ∈ generate_DimensionalDataSet m ∨
      n ∈ generate_DimensionalDataStructure m ∨
      n ∈ generate_MeasureComponent m ∨
      n ∈ generate_InstanceVariable m ∨
      n ∈ generate_SubstantiveValueDomain m ∨
      n ∈ generate_SubstantiveEnumerationDomain m ∨
      n ∈ generate_SentinelValueDomain m ∨
      n ∈ generate_SentinelEnumerationDomain m ∨
      n ∈ generate_ValueAndConceptDescription m ∨
      n ∈ generate_SubstantiveConceptScheme m ∨
      n ∈ generate_SentinelConceptScheme m ∨
      n ∈ generate_Concept m ∨
      n ∈ (if !m.identifier_vars.isEmpty && !hasFmt m "json" then
        generate_IdentifierComponent m ++ generate_PrimaryKey m ++
          generate_PrimaryKeyComponent m
       else if !m.identifier_vars.isEmpty && hasFmt m "json" then
        generate_IdentifierComponent m
       else []) ∨
      n ∈ (if !m.attribute_vars.isEmpty then generate_AttributeComponent m else []) ∨
      n ∈ (if !m.contextual_vars.isEmpty then generate_ContextualComponent m else []) ∨
      n ∈ (if !m.synthetic_id_vars.isEmpty then generate_SyntheticIdComponent m else []) ∨
      n ∈ (if !m.variable_value_vars.isEmpty then
        generate_VariableValueComponent m ++ generate_VariableDescriptorComponent m
       else []) ∨
      n ∈ generate_ComponentPosition m) := by
  simp only [pipelineComponents, List.mem_append, or_assoc]

theorem docIds_intro (df : DF) (m : Meta) (f : String) (cs : Nat) (pa : Bool) (mr : Nat)
    (r : String) (h : ∃ nd ∈ pipelineComponents df m f cs pa mr, nd.id = r) :
    r ∈ docIds (generate_complete_json_ld df m f cs pa mr) := by
  obtain ⟨nd, hnd, hid⟩ := h
  exact List.mem_map.mpr ⟨nd, (mem_doc_iff_components df m f cs pa mr nd).mpr hnd, hid⟩

theorem memP_PD (df : DF) (m : Meta) (f : String) (cs : Nat) (pa : Bool) (mr : Nat)
    (n : Node) (h : n ∈ generate_PhysicalDataset m f) :
    n ∈ pipelineComponents df m f cs pa mr :=
  (mem_pipeline_iff df m f cs pa mr n).mpr (Or.inl h)

theorem memP_PRS (df : DF) (m : Meta) (f : String) (cs : Nat) (pa : Bool) (mr : Nat)
    (n : Node) (h : n ∈ generate_PhysicalRecordSegment m (dfLimited df cs pa mr)) :
    n ∈ pipelineComponents df m f cs pa mr :=
  (mem_pipeline_iff df m f cs pa mr n).mpr (Or.inr (Or.inl h))

theorem memP_PSL (df : DF) (m : Meta) (f : String) (cs : Nat) (pa : Bool) (mr : Nat)
    (n : Node) (h : n ∈ generate_PhysicalSegmentLayout m) :
    n ∈ pipelineComponents df m f cs pa mr :=
  (mem_pipeline_iff df m f cs pa mr n).mpr (Or.inr (Or.inr (Or.inl h)))

theorem memP_VM (df : DF) (m : Meta) (f : String) (cs : Nat) (pa : Bool) (mr : Nat)
    (n : Node) (h : n ∈ rowVMNodes df m cs pa mr) :
    n ∈ pipelineComponents df m f cs pa mr :=
  (mem_pipeline_iff df m f cs pa mr n).mpr (Or.inr (Or.inr (Or.inr (Or.inl h))))

theorem memP_VMP (df : DF) (m : Meta) (f : String) (cs : Nat) (pa : Bool) (mr : Nat)
    (n : Node) (h : n ∈ generate_ValueMappingPosition m) :
    n ∈ pipelineComponents df m f cs pa mr :=
  (mem_pipeline_iff df m f cs pa mr n).mpr (Or.inr (Or.inr (Or.inr (Or.inr (Or.inl h)))))

theorem memP_DP (df : DF) (m : Meta) (f : String) (cs : Nat) (pa : Bool) (mr : Nat)
    (n : Node) (h : n ∈ rowDPNodes df m cs pa mr) :
    n ∈ pipelineComponents df m f cs pa mr :=
  (mem_pipeline_iff df m f cs pa mr n).mpr (Or.inr (Or.inr (Or.inr (Or.inr (Or.inr (Or.inl h))))))

theorem memP_DPP (df : DF) (m : Meta) (f : String) (cs : Nat) (pa : Bool) (mr : Nat)
    (n : Node) (h : n ∈ rowDPPNodes df m cs pa mr) :
    n ∈ pipelineComponents df m f cs pa mr :=
  (mem_pipeline_iff df m f cs pa mr n).mpr (Or.inr (Or.inr (Or.inr (Or.inr (Or.inr (Or.inr (Or.inl h)))))))

theorem memP_IV (df : DF) (m : Meta) (f : String) (cs : Nat) (pa : Bool) (mr : Nat)
    (n : Node) (h : n ∈ rowIVNodes df m cs pa mr) :
    n ∈ pipelineComponents df m f cs pa mr :=
  (mem_pipeline_iff df m f cs pa mr n).mpr (Or.inr (Or.inr (Or.inr (Or.inr (Or.inr (Or.inr (Or.inr (Or.inl h))))))))

theorem memP_DS (df : DF) (m : Meta) (f : String) (cs : Nat) (pa : Bool) (mr : Nat)
    (n : Node) (h : n ∈ generate_DataStore m) :
    n ∈ pipelineComponents df m f cs pa mr :=
  (mem_pipeline_iff df m f cs pa mr n).mpr (Or.inr (Or.inr (Or.inr (Or.inr (Or.inr (Or.inr (Or.inr (Or.inr (Or.inl h)))))))))

theorem memP_LR (df : DF) (m : Meta) (f : String) (cs : Nat) (pa : Bool) (mr : Nat)
    (n : Node) (h : n ∈ generate_LogicalRecord m) :
    n ∈ pipelineComponents df m f cs pa mr :=
  (mem_pipeline_iff df m f cs pa mr n).mpr (Or.inr (Or.inr (Or.inr (Or.inr (Or.inr (Or.inr (Or.inr (Or.inr (Or.inr (Or.inl h))))))))))

theorem memP_DDSet (df : DF) (m : Meta) (f : String) (cs : Nat) (pa : Bool) (mr : Nat)
    (n : Node) (h : n ∈ generate_DimensionalDataSet m) :
    n ∈ pipelineComponents df m f cs pa mr :=
  (mem_pipeline_iff df m f cs pa mr n).mpr (Or.inr (Or.inr (Or.inr (Or.inr (Or.inr (Or.inr (Or.inr (Or.inr (Or.inr (Or.inr (Or.inl h)))))))))))

theorem memP_DDStr (df : DF) (m : Meta) (f : String) (cs : Nat) (pa : Bool) (mr : Nat)
    (n : Node) (h : n ∈ generate_DimensionalDataStructure m) :
    n ∈ pipelineComponents df m f cs pa mr :=
  (mem_pipeline_iff df m f cs pa mr n).mpr (Or.inr (Or.inr (Or.inr (Or.inr (Or.inr (Or.inr (Or.inr (Or.inr (Or.inr (Or.inr (Or.inr (Or.inl h))))))))))))

theorem memP_MC (df : DF) (m : Meta) (f : String) (cs : Nat) (pa : Bool) (mr : Nat)
    (n : Node) (h : n ∈ generate_MeasureComponent m) :
    n ∈ pipelineComponents df m f cs pa mr :=
  (mem_pipeline_iff df m f cs pa mr n).mpr (Or.inr (Or.inr (Or.inr (Or.inr (Or.inr (Or.inr (Or.inr (Or.inr (Or.inr (Or.inr (Or.inr (Or.inr (Or.inl h)))))))))))))

theorem memP_IVar (df : DF) (m : Meta) (f : String) (cs : Nat) (pa : Bool) (mr : Nat)
    (n : Node) (h : n ∈ generate_InstanceVariable m) :
    n ∈ pipelineComponents df m f cs pa mr :=
  (mem_pipeline_iff df m f cs pa mr n).mpr (Or.inr (Or.inr (Or.inr (Or.inr (Or.inr (Or.inr (Or.inr (Or.inr (Or.inr (Or.inr (Or.inr (Or.inr (Or.inr (Or.inl h))))))))))))))

theorem memP_SVD (df : DF) (m : Meta) (f : String) (cs : Nat) (pa : Bool) (mr : Nat)
    (n : Node) (h : n ∈ generate_SubstantiveValueDomain m) :
    n ∈ pipelineComponents df m f cs pa mr :=
  (mem_pipeline_iff df m f cs pa mr n).mpr (Or.inr (Or.inr (Or.inr (Or.inr (Or.inr (Or.inr (Or.inr (Or.inr (Or.inr (Or.inr (Or.inr (Or.inr (Or.inr (Or.inr (Or.inl h)))))))))))))))

theorem memP_SED (df : DF) (m : Meta) (f : String) (cs : Nat) (pa : Bool) (mr : Nat)
    (n : Node) (h : n ∈ generate_SubstantiveEnumerationDomain m) :
    n ∈ pipelineComponents df m f cs pa mr :=
  (mem_pipeline_iff df m f cs pa mr n).mpr (Or.inr (Or.inr (Or.inr (Or.inr (Or.inr (Or.inr (Or.inr (Or.inr (Or.inr (Or.inr (Or.inr (Or.inr (Or.inr (Or.inr (Or.inr (Or.inl h))))))))))))))))

theorem memP_SnVD (df : DF) (m : Meta) (f : String) (cs : Nat) (pa : Bool) (mr : Nat)
    (n : Node) (h : n ∈ generate_SentinelValueDomain m) :
    n ∈ pipelineComponents df m f cs pa mr :=
  (mem_pipeline_iff df m f cs pa mr n).mpr (Or.inr (Or.inr (Or.inr (Or.inr (Or.inr (Or.inr (Or.inr (Or.inr (Or.inr (Or.inr (Or.inr (Or.inr (Or.inr (Or.inr (Or.inr (Or.inr (Or.inl h)))))))))))))))))

theorem memP_SnED (df : DF) (m : Meta) (f : String) (cs : Nat) (pa : Bool) (mr : Nat)
    (n : Node) (h : n ∈ generate_SentinelEnumerationDomain m) :
    n ∈ pipelineComponents df m f cs pa mr :=
  (mem_pipeline_iff df m f cs pa mr n).mpr (Or.inr (Or.inr (Or.inr (Or.inr (Or.inr (Or.inr (Or.inr (Or.inr (Or.inr (Or.inr (Or.inr (Or.inr (Or.inr (Or.inr (Or.inr (Or.inr (Or.inr (Or.inl h))))))))))))))))))

theorem memP_VaCD (df : DF) (m : Meta) (f : String) (cs : Nat) (pa : Bool) (mr : Nat)
    (n : Node) (h : n ∈ generate_ValueAndConceptDescription m) :
    n ∈ pipelineComponents df m f cs pa mr :=
  (mem_pipeline_iff df m f cs pa mr n).mpr (Or.inr (Or.inr (Or.inr (Or.inr (Or.inr (Or.inr (Or.inr (Or.inr (Or.inr (Or.inr (Or.inr (Or.inr (Or.inr (Or.inr (Or.inr (Or.inr (Or.inr (Or.inr (Or.inl h)))))))))))))))))))

theorem memP_SCS (df : DF) (m : Meta) (f : String) (cs : Nat) (pa : Bool) (mr : Nat)
    (n : Node) (h : n ∈ generate_SubstantiveConceptScheme m) :
    n ∈ pipelineComponents df m f cs pa mr :=
  (mem_pipeline_iff df m f cs pa mr n).mpr (Or.inr (Or.inr (Or.inr (Or.inr (Or.inr (Or.inr (Or.inr (Or.inr (Or.inr (Or.inr (Or.inr (Or.inr (Or.inr (Or.inr (Or.inr (Or.inr (Or.inr (Or.inr (Or.inr (Or.inl h))))))))))))))))))))

theorem memP_SnCS (df : DF) (m : Meta) (f : String) (cs : Nat) (pa : Bool) (mr : Nat)
    (n : Node) (h : n ∈ generate_SentinelConceptScheme m) :
    n ∈ pipelineComponents df m f cs pa mr :=
  (mem_pipeline_iff df m f cs pa mr n).mpr (Or.inr (Or.inr (Or.inr (Or.inr (Or.inr (Or.inr (Or.inr (Or.inr (Or.inr (Or.inr (Or.inr (Or.inr (Or.inr (Or.inr (Or.inr (Or.inr (Or.inr (Or.inr (Or.inr (Or.inr (Or.inl h)))))))))))))))))))))

theorem memP_Con (df : DF) (m : Meta) (f : String) (cs : Nat) (pa : Bool) (mr : Nat)
    (n : Node) (h : n ∈ generate_Concept m) :
    n ∈ pipelineComponents df m f cs pa mr :=
  (mem_pipeline_iff df m f cs pa mr n).mpr (Or.inr (Or.inr (Or.inr (Or.inr (Or.inr (Or.inr (Or.inr (Or.inr (Or.inr (Or.inr (Or.inr (Or.inr (Or.inr (Or.inr (Or.inr (Or.inr (Or.inr (Or.inr (Or.inr (Or.inr (Or.inr (Or.inl h))))))))))))))))))))))

theorem memP_PKslot (df : DF) (m : Meta) (f : String) (cs : Nat) (pa : Bool) (mr : Nat)
    (n : Node) (h : n ∈ (if !m.identifier_vars.isEmpty && !hasFmt m "json" then
        generate_IdentifierComponent m ++ generate_PrimaryKey m ++
          generate_PrimaryKeyComponent m
       else if !m.identifier_vars.isEmpty && hasFmt m "json" then
        generate_IdentifierComponent m
       else [])) :
    n ∈ pipelineComponents df m f cs pa mr :=
  (mem_pipeline_iff df m f cs pa mr n).mpr (Or.inr (Or.inr (Or.inr (Or.inr (Or.inr (Or.inr (Or.inr (Or.inr (Or.inr (Or.inr (Or.inr (Or.inr (Or.inr (Or.inr (Or.inr (Or.inr (Or.inr (Or.inr (Or.inr (Or.inr (Or.inr (Or.inr (Or.inl h)))))))))))))))))))))))

theorem memP_ACif (df : DF) (m : Meta) (f : String) (cs : Nat) (pa : Bool) (mr : Nat)
    (n : Node) (h : n ∈ (if !m.attribute_vars.isEmpty then generate_AttributeComponent m else [])) :
    n ∈ pipelineComponents df m f cs pa mr :=
  (mem_pipeline_iff df m f cs pa mr n).mpr (Or.inr (Or.inr (Or.inr (Or.inr (Or.inr (Or.inr (Or.inr (Or.inr (Or.inr (Or.inr (Or.inr (Or.inr (Or.inr (Or.inr (Or.inr (Or.inr (Or.inr (Or.inr (Or.inr (Or.inr (Or.inr (Or.inr (Or.inr (Or.inl h))))))))))))))))))))))))

theorem memP_CCif (df : DF) (m : Meta) (f : String) (cs : Nat) (pa : Bool) (mr : Nat)
    (n : Node) (h : n ∈ (if !m.contextual_vars.isEmpty then generate_ContextualComponent m else [])) :
    n ∈ pipelineComponents df m f cs pa mr :=
  (mem_pipeline_iff df m f cs pa mr n).mpr (Or.inr (Or.inr (Or.inr (Or.inr (Or.inr (Or.inr (Or.inr (Or.inr (Or.inr (Or.inr (Or.inr (Or.inr (Or.inr (Or.inr (Or.inr (Or.inr (Or.inr (Or.inr (Or.inr (Or.inr (Or.inr (Or.inr (Or.inr (Or.inr (Or.inl h)))))))))))))))))))))))))

theorem memP_SICif (df : DF) (m : Meta) (f : String) (cs : Nat) (pa : Bool) (mr : Nat)
    (n : Node) (h : n ∈ (if !m.synthetic_id_vars.isEmpty then generate_SyntheticIdComponent m else [])) :
    n ∈ pipelineComponents df m f cs pa mr :=
  (mem_pipeline_iff df m f cs pa mr n).mpr (Or.inr (Or.inr (Or.inr (Or.inr (Or.inr (Or.inr (Or.inr (Or.inr (Or.inr (Or.inr (Or.inr (Or.inr (Or.inr (Or.inr (Or.inr (Or.inr (Or.inr (Or.inr (Or.inr (Or.inr (Or.inr (Or.inr (Or.inr (Or.inr (Or.inr (Or.inl h))))))))))))))))))))))))))

theorem memP_VVif (df : DF) (m : Meta) (f : String) (cs : Nat) (pa : Bool) (mr : Nat)
    (n : Node) (h : n ∈ (if !m.variable_value_vars.isEmpty then
        generate_VariableValueComponent m ++ generate_VariableDescriptorComponent m
       else [])) :
    n ∈ pipelineComponents df m f cs pa mr :=
  (mem_pipeline_iff df m f cs pa mr n).mpr (Or.inr (Or.inr (Or.inr (Or.inr (Or.inr (Or.inr (Or.inr (Or.inr (Or.inr (Or.inr (Or.inr (Or.inr (Or.inr (Or.inr (Or.inr (Or.inr (Or.inr (Or.inr (Or.inr (Or.inr (Or.inr (Or.inr (Or.inr (Or.inr (Or.inr (Or.inr (Or.inl h)))))))))))))))))))))))))))

theorem memP_CP (df : DF) (m : Meta) (f : String) (cs : Nat) (pa : Bool) (mr : Nat)
    (n : Node) (h : n ∈ generate_ComponentPosition m) :
    n ∈ pipelineComponents df m f cs pa mr :=
  (mem_pipeline_iff df m f cs pa mr n).mpr (Or.inr (Or.inr (Or.inr (Or.inr (Or.inr (Or.inr (Or.inr (Or.inr (Or.inr (Or.inr (Or.inr (Or.inr (Or.inr (Or.inr (Or.inr (Or.inr (Or.inr (Or.inr (Or.inr (Or.inr (Or.inr (Or.inr (Or.inr (Or.inr (Or.inr (Or.inr (Or.inr h)))))))))))))))))))))))))))

theorem alookup_some_mem {α : Type} {l : List (String × α)} {k : String} {x : α}
    (h : alookup l k = some x) : (k, x) ∈ l := by
  unfold alookup at h
  cases hf : l.find? (fun p => p.1 == k) with
  | none => rw [hf] at h; cases h
  | some q =>
    rw [hf] at h
    have hm := List.mem_of_find?_eq_some hf
    have hp := List.find?_some hf
    have hk : q.1 = k := by simpa using hp
    have hx : q.2 = x := by simpa using h
    have : (k, x) = q := by
      rw [← hk, ← hx]
    rw [this]
    exact hm

theorem col_len (df : DF) (v : String) (hwf : df.Wf)
    (hp : (alookup df.cols v).isSome = true) :
    (df.col v).cells.length = df.nrows := by
  unfold DF.col
  cases hc : alookup df.cols v with
  | none => rw [hc] at hp; cases hp
  | some c =>
    have := hwf (v, c) (alookup_some_mem hc)
    simpa using this

theorem mem_sentinelKeys_of_amem_mr (m : Meta) (v : String)
    (h : amem m.missing_ranges v = true) : v ∈ sentinelKeys m := by
  unfold amem at h
  cases hc : alookup m.missing_ranges v with
  | none => rw [hc] at h; cases h
  | some rs =>
    have hmem := alookup_some_mem hc
    have hne : m.missing_ranges.isEmpty = false := by
      cases hl : m.missing_ranges with
      | nil => rw [hl] at hmem; cases hmem
      | cons a t => rfl
    unfold sentinelKeys
    rw [hne]
    show v ∈ akeys m.missing_ranges
    exact List.mem_map.mpr ⟨(v, rs), hmem, rfl⟩

theorem mem_sentinelKeys_of_amem_mu (m : Meta) (v : String)
    (hmr : m.missing_ranges = []) (h : amem m.missing_user_values v = true) :
    v ∈ sentinelKeys m := by
  unfold amem at h
  cases hc : alookup m.missing_user_values v with
  | none => rw [hc] at h; cases h
  | some vs =>
    unfold sentinelKeys
    rw [hmr]
    show v ∈ akeys m.missing_user_values
    exact List.mem_map.mpr ⟨(v, vs), alookup_some_mem hc, rfl⟩

theorem enumFrom_get_mem {α : Type} : ∀ (l : List α) (k i : Nat), i < l.length →
    ∃ x, (k + i, x) ∈ enumFrom k l := by
  intro l
  induction l with
  | nil => intro k i h; simp at h
  | cons a t ih =>
    intro k i h
    cases i with
    | zero =>
      refine ⟨a, ?_⟩
      rw [Nat.add_zero]
      exact List.mem_cons_self _ _
    | succ j =>
      obtain ⟨x, hx⟩ := ih (k+1) j (by simpa using h)
      refine ⟨x, ?_⟩
      have he : k + (j+1) = (k+1) + j := by omega
      rw [he]
      exact List.mem_cons_of_mem _ hx

theorem docIds_intro2 (df : DF) (m : Meta) (f : String) (cs : Nat) (pa : Bool)
    (mr : Nat) (nd : Node) (h : nd ∈ pipelineComponents df m f cs pa mr) :
    nd.id ∈ docIds (generate_complete_json_ld df m f cs pa mr) :=
  List.mem_map.mpr ⟨nd, (mem_doc_iff_components df m f cs pa mr nd).mpr h, rfl⟩

theorem docIds_DS (df : DF) (m : Meta) (f : String) (cs : Nat) (pa : Bool) (mr : Nat) :
    ("#dataStore" : String) ∈ docIds (generate_complete_json_ld df m f cs pa mr) :=
  docIds_intro2 df m f cs pa mr _ (memP_DS df m f cs pa mr _
    (by unfold generate_DataStore; exact List.mem_singleton.mpr rfl))

theorem docIds_PRS (df : DF) (m : Meta) (f : String) (cs : Nat) (pa : Bool) (mr : Nat) :
    ("#physicalRecordSegment" : String) ∈
      docIds (generate_complete_json_ld df m f cs pa mr) :=
  docIds_intro2 df m f cs pa mr _ (memP_PRS df m f cs pa mr _
    (by unfold generate_PhysicalRecordSegment; exact List.mem_singleton.mpr rfl))

theorem docIds_PSL (df : DF) (m : Meta) (f : String) (cs : Nat) (pa : Bool) (mr : Nat) :
    ("#physicalSegmentLayout" : String) ∈
      docIds (generate_complete_json_ld df m f cs pa mr) :=
  docIds_intro2 df m f cs pa mr _ (memP_PSL df m f cs pa mr _
    (by unfold generate_PhysicalSegmentLayout; exact List.mem_singleton.mpr rfl))

theorem docIds_LR (df : DF) (m : Meta) (f : String) (cs : Nat) (pa : Bool) (mr : Nat) :
    ("#logicalRecord" : String) ∈ docIds (generate_complete_json_ld df m f cs pa mr) :=
  docIds_intro2 df m f cs pa mr _ (memP_LR df m f cs pa mr _
    (by unfold generate_LogicalRecord; exact List.mem_singleton.mpr rfl))

theorem docIds_DDSet (df : DF) (m : Meta) (f : String) (cs : Nat) (pa : Bool) (mr : Nat) :
    datasetRef m ∈ docIds (generate_complete_json_ld df m f cs pa mr) :=
  docIds_intro2 df m f cs pa mr _ (memP_DDSet df m f cs pa mr _
    (by unfold generate_DimensionalDataSet; exact List.mem_singleton.mpr rfl))

theorem docIds_DDStr (df : DF) (m : Meta) (f : String) (cs : Nat) (pa : Bool) (mr : Nat) :
    structureRef m ∈ docIds (generate_complete_json_ld df m f cs pa mr) :=
  docIds_intro2 df m f cs pa mr _ (memP_DDStr df m f cs pa mr _
    (by unfold generate_DimensionalDataStructure; exact List.mem_singleton.mpr rfl))

theorem docIds_IVar (df : DF) (m : Meta) (f : String) (cs : Nat) (pa : Bool) (mr : Nat)
    (v : String) (hv : v ∈ m.column_names) :
    ("#instanceVariable-" ++ v) ∈ docIds (generate_complete_json_ld df m f cs pa mr) :=
  docIds_intro2 df m f cs pa mr _ (memP_IVar df m f cs pa mr _
    (List.mem_map.mpr ⟨v, hv, rfl⟩))

theorem docIds_SVD (df : DF) (m : Meta) (f : String) (cs : Nat) (pa : Bool) (mr : Nat)
    (v : String) (hv : v ∈ m.column_names) :
    ("#substantiveValueDomain-" ++ v) ∈
      docIds (generate_complete_json_ld df m f cs pa mr) :=
  docIds_intro2 df m f cs pa mr _ (memP_SVD df m f cs pa mr _
    (List.mem_map.mpr ⟨v, hv, rfl⟩))

theorem enumFrom_mem_of_mem {α : Type} (l : List α) (k : Nat) (v : α) (hv : v ∈ l) :
    ∃ j, (j, v) ∈ enumFrom k l := by
  induction l generalizing k with
  | nil => cases hv
  | cons a t ih =>
    rcases List.mem_cons.mp hv with h | h
    · exact ⟨k, by rw [h]; exact List.mem_cons_self _ _⟩
    · obtain ⟨j, hj⟩ := ih (k+1) h
      exact ⟨j, List.mem_cons_of_mem _ hj⟩

theorem docIds_VMP (df : DF) (m : Meta) (f : String) (cs : Nat) (pa : Bool) (mr : Nat)
    (v : String) (hv : v ∈ m.column_names) :
    ("#valueMappingPosition-" ++ v) ∈
      docIds (generate_complete_json_ld df m f cs pa mr) := by
  obtain ⟨j, hj⟩ := enumFrom_mem_of_mem m.column_names 0 v hv
  exact docIds_intro2 df m f cs pa mr _ (memP_VMP df m f cs pa mr _
    (by unfold generate_ValueMappingPosition; exact List.mem_map.mpr ⟨(j, v), hj, rfl⟩))

theorem docIds_VM (df : DF) (m : Meta) (f : String) (cs mr : Nat)
    (v : String) (hv : v ∈ m.column_names) :
    ("#valueMapping-" ++ v) ∈ docIds (generate_complete_json_ld df m f cs true mr) :=
  docIds_intro2 df m f cs true mr _ (memP_VM df m f cs true mr _
    (by rw [rowVM_canon]; exact List.mem_map.mpr ⟨v, hv, rfl⟩))

theorem docIds_DP (df : DF) (m : Meta) (f : String) (cs mr : Nat)
    (v : String) (hv : v ∈ m.column_names) (i : Nat) (hi : i < df.nrows) :
    ("#dataPoint-" ++ decRepr i ++ "-" ++ v) ∈
      docIds (generate_complete_json_ld df m f cs true mr) :=
  docIds_intro2 df m f cs true mr _ (memP_DP df m f cs true mr _
    (by
      rw [rowDP_canon]
      unfold generate_DataPoint
      exact List.mem_flatMap.mpr ⟨v, hv,
        List.mem_map.mpr ⟨i, List.mem_range.mpr hi, rfl⟩⟩))

theorem docIds_DPP (df : DF) (m : Meta) (f : String) (cs mr : Nat)
    (v : String) (hv : v ∈ m.column_names) (i : Nat) (hi : i < df.nrows) :
    ("#dataPointPosition-" ++ decRepr i ++ "-" ++ v) ∈
      docIds (generate_complete_json_ld df m f cs true mr) :=
  docIds_intro2 df m f cs true mr _ (memP_DPP df m f cs true mr _
    (by
      rw [rowDPP_canon]
      unfold generate_DataPointPosition
      exact List.mem_flatMap.mpr ⟨v, hv,
        List.mem_map.mpr ⟨i, List.mem_range.mpr hi, rfl⟩⟩))

theorem docIds_SnVD (df : DF) (m : Meta) (f : String) (cs : Nat) (pa : Bool) (mr : Nat)
    (v : String) (hv : v ∈ sentinelKeys m) :
    ("#sentinelValueDomain-" ++ v) ∈
      docIds (generate_complete_json_ld df m f cs pa mr) :=
  docIds_intro2 df m f cs pa mr _ (memP_SnVD df m f cs pa mr _
    (show _ ∈ (sentinelKeys m).map _ from List.mem_map.mpr ⟨v, hv, rfl⟩))

theorem docIds_SnED (df : DF) (m : Meta) (f : String) (cs : Nat) (pa : Bool) (mr : Nat)
    (v : String) (hv : v ∈ sentinelKeys m)
    (hl : amem m.variable_value_labels v = true) :
    ("#sentinelEnumerationDomain-" ++ v) ∈
      docIds (generate_complete_json_ld df m f cs pa mr) :=
  docIds_intro2 df m f cs pa mr _ (memP_SnED df m f cs pa mr _
    (show _ ∈ (sentinelKeys m).flatMap _ from List.mem_flatMap.mpr ⟨v, hv,
      by rw [if_pos hl]; exact List.mem_singleton.mpr rfl⟩))

theorem docIds_SED (df : DF) (m : Meta) (f : String) (cs : Nat) (pa : Bool) (mr : Nat)
    (v : String) (hv : v ∈ m.column_names)
    (hl : amem m.variable_value_labels v = true)
    (ht : (sedTop m v).isEmpty = false) :
    ("#substantiveEnumerationDomain-" ++ v) ∈
      docIds (generate_complete_json_ld df m f cs pa mr) := by
  have hmem : (⟨"#substantiveEnumerationDomain-" ++ v, "EnumerationDomain",
      [("sameAs", .s ("#substantiveConceptScheme-" ++ v))]⟩ : Node) ∈
      generate_SubstantiveEnumerationDomain m := by
    unfold generate_SubstantiveEnumerationDomain
    refine List.mem_flatMap.mpr ⟨v, hv, ?_⟩
    rw [if_pos hl, if_pos (by rw [ht]; rfl)]
    exact List.mem_singleton.mpr rfl
  exact docIds_intro2 df m f cs pa mr _ (memP_SED df m f cs pa mr _ hmem)

theorem docIds_SCS (df : DF) (m : Meta) (f : String) (cs : Nat) (pa : Bool) (mr : Nat)
    (p : String × List (PyScalar × String)) (hp : p ∈ m.variable_value_labels)
    (ht : (scsTop m p.1 p.2).isEmpty = false) :
    ("#substantiveConceptScheme-" ++ p.1) ∈
      docIds (generate_complete_json_ld df m f cs pa mr) := by
  have hmem : (⟨"#substantiveConceptScheme-" ++ p.1, "skos:ConceptScheme",
      [("skos:hasTopConcept", .strs (scsTop m p.1 p.2))]⟩ : Node) ∈
      generate_SubstantiveConceptScheme m := by
    unfold generate_SubstantiveConceptScheme
    refine List.mem_flatMap.mpr ⟨p, hp, ?_⟩
    rw [if_pos (by rw [ht]; rfl)]
    exact List.mem_singleton.mpr rfl
  exact docIds_intro2 df m f cs pa mr _ (memP_SCS df m f cs pa mr _ hmem)

theorem docIds_SnCS (df : DF) (m : Meta) (f : String) (cs : Nat) (pa : Bool) (mr : Nat)
    (v : String) (hv : v ∈ sentinelKeys m)
    (hl : amem m.variable_value_labels v = true)
    (ht : (sentinelTop m v).isEmpty = false) :
    ("#sentinelConceptScheme-" ++ v) ∈
      docIds (generate_complete_json_ld df m f cs pa mr) :=
  docIds_intro2 df m f cs pa mr _ (memP_SnCS df m f cs pa mr _
    (show _ ∈ (sentinelKeys m).flatMap _ from List.mem_flatMap.mpr ⟨v, hv,
      by rw [if_pos hl, if_pos (by rw [ht]; rfl)]; exact List.mem_singleton.mpr rfl⟩))

theorem docIds_Concept (df : DF) (m : Meta) (f : String) (cs : Nat) (pa : Bool)
    (mr : Nat) (p : String × List (PyScalar × String)) (hp : p ∈ m.variable_value_labels)
    (q : PyScalar × String) (hq : q ∈ p.2) :
    ("#" ++ p.1 ++ "-concept-" ++ pyStr q.1) ∈
      docIds (generate_complete_json_ld df m f cs pa mr) :=
  docIds_intro2 df m f cs pa mr _ (memP_Con df m f cs pa mr _
    (by
      unfold generate_Concept
      exact List.mem_flatMap.mpr ⟨p, hp, List.mem_map.mpr ⟨q, hq, rfl⟩⟩))

theorem docIds_VaCD_sub (df : DF) (m : Meta) (f : String) (cs : Nat) (pa : Bool)
    (mr : Nat) (v : String) (hv : v ∈ m.column_names) :
    ("#substantiveValueAndConceptDescription-" ++ v) ∈
      docIds (generate_complete_json_ld df m f cs pa mr) :=
  docIds_intro2 df m f cs pa mr _ (memP_VaCD df m f cs pa mr _
    (by
      simp only [generate_ValueAndConceptDescription]
      exact List.mem_append_left _ (List.mem_map.mpr ⟨v, hv, rfl⟩)))

theorem docIds_VaCD_sen (df : DF) (m : Meta) (f : String) (cs : Nat) (pa : Bool)
    (mr : Nat) (v : String) (hv : v ∈ sentinelKeys m) :
    ("#sentinelValueAndConceptDescription-" ++ v) ∈
      docIds (generate_complete_json_ld df m f cs pa mr) := by
  unfold sentinelKeys at hv
  by_cases hmr : (!m.missing_ranges.isEmpty) = true
  · rw [if_pos hmr] at hv
    obtain ⟨p, hp, hfst⟩ := List.mem_map.mp hv
    have h := docIds_intro2 df m f cs pa mr _ (memP_VaCD df m f cs pa mr _
      (by
        simp only [generate_ValueAndConceptDescription]
        apply List.mem_append_right
        rw [if_pos hmr]
        exact List.mem_map.mpr ⟨p, hp, rfl⟩))
    rw [← hfst]
    exact h
  · rw [if_neg hmr] at hv
    obtain ⟨p, hp, hfst⟩ := List.mem_map.mp hv
    have h := docIds_intro2 df m f cs pa mr _ (memP_VaCD df m f cs pa mr _
      (by
        simp only [generate_ValueAndConceptDescription]
        apply List.mem_append_right
        rw [if_neg hmr]
        exact List.mem_map.mpr ⟨p, hp, rfl⟩))
    rw [← hfst]
    exact h

theorem isEmpty_false_of_mem {α : Type} {l : List α} {a : α} (h : a ∈ l) :
    l.isEmpty = false := by
  cases l with
  | nil => cases h
  | cons x t => rfl

theorem mcPre (v : String) :
    ("#" ++ "measureComponent" ++ "-" ++ v : String) = "#measureComponent-" ++ v := by
  have h : ("#" ++ "measureComponent" ++ "-" : String) = "#measureComponent-" := by decide
  rw [h]

theorem icPre (v : String) :
    ("#" ++ "identifierComponent" ++ "-" ++ v : String) = "#identifierComponent-" ++ v := by
  have h : ("#" ++ "identifierComponent" ++ "-" : String) = "#identifierComponent-" := by
    decide
  rw [h]

theorem docIds_MC (df : DF) (m : Meta) (f : String) (cs : Nat) (pa : Bool) (mr : Nat)
    (hj : hasFmt m "json" = false) (hn : hasFmt m "netcdf" = false)
    (v : String) (hv : v ∈ m.measure_vars) (hc : m.column_names.contains v = true) :
    ("#measureComponent-" ++ v) ∈ docIds (generate_complete_json_ld df m f cs pa mr) := by
  have hne : m.measure_vars.isEmpty = false := isEmpty_false_of_mem hv
  have hmem : (⟨"#" ++ "measureComponent" ++ "-" ++ v, "MeasureComponent",
      [("isDefinedBy_InstanceVariable", .s ("#instanceVariable-" ++ v))]⟩ : Node) ∈
      generate_MeasureComponent m := by
    unfold generate_MeasureComponent
    rw [hj, hn, hne]
    simp only [Bool.false_eq_true, if_false, Bool.not_false, if_true]
    exact List.mem_map.mpr ⟨v, List.mem_filter.mpr ⟨hv, hc⟩, rfl⟩
  have h := docIds_intro2 df m f cs pa mr _ (memP_MC df m f cs pa mr _ hmem)
  rw [← mcPre v]
  exact h

theorem docIds_MC_default (df : DF) (m : Meta) (f : String) (cs : Nat) (pa : Bool)
    (mr : Nat) (hj : hasFmt m "json" = false) (hn : hasFmt m "netcdf" = false)
    (hmv : m.measure_vars.isEmpty = true)
    (v : String) (hv : v ∈ m.column_names)
    (hi : m.identifier_vars.contains v = false)
    (ha : m.attribute_vars.contains v = false) :
    ("#measureComponent-" ++ v) ∈ docIds (generate_complete_json_ld df m f cs pa mr) := by
  have hmem : (⟨"#" ++ "measureComponent" ++ "-" ++ v, "MeasureComponent",
      [("isDefinedBy_InstanceVariable", .s ("#instanceVariable-" ++ v))]⟩ : Node) ∈
      generate_MeasureComponent m := by
    unfold generate_MeasureComponent
    rw [hj, hn, hmv]
    simp only [Bool.false_eq_true, if_false, Bool.not_true, if_true]
    exact List.mem_map.mpr ⟨v,
      List.mem_filter.mpr ⟨hv, by rw [hi, ha]; rfl⟩, rfl⟩
  have h := docIds_intro2 df m f cs pa mr _ (memP_MC df m f cs pa mr _ hmem)
  rw [← mcPre v]
  exact h

theorem docIds_IC (df : DF) (m : Meta) (f : String) (cs : Nat) (pa : Bool) (mr : Nat)
    (hn : hasFmt m "netcdf" = false)
    (v : String) (hv : v ∈ m.identifier_vars) (hc : m.column_names.contains v = true) :
    ("#identifierComponent-" ++ v) ∈
      docIds (generate_complete_json_ld df m f cs pa mr) := by
  have hne : m.identifier_vars.isEmpty = false := isEmpty_false_of_mem hv
  have hic : (⟨"#" ++ "identifierComponent" ++ "-" ++ v, "IdentifierComponent",
      [("isDefinedBy_InstanceVariable", .s ("#instanceVariable-" ++ v))]⟩ : Node) ∈
      generate_IdentifierComponent m := by
    unfold generate_IdentifierComponent
    rw [hn]
    simp only [Bool.false_eq_true, if_false]
    exact List.mem_map.mpr ⟨v, List.mem_filter.mpr ⟨hv, hc⟩, rfl⟩
  have hmem : (⟨"#" ++ "identifierComponent" ++ "-" ++ v, "IdentifierComponent",
      [("isDefinedBy_InstanceVariable", .s ("#instanceVariable-" ++ v))]⟩ : Node) ∈
      (if !m.identifier_vars.isEmpty && !hasFmt m "json" then
        generate_IdentifierComponent m ++ generate_PrimaryKey m ++
          generate_PrimaryKeyComponent m
       else if !m.identifier_vars.isEmpty && hasFmt m "json" then
        generate_IdentifierComponent m
       else []) := by
    by_cases hjs : hasFmt m "json" = true
    · rw [if_neg (by rw [hne, hjs]; simp), if_pos (by rw [hne, hjs]; rfl)]
      exact hic
    · have hjf : hasFmt m "json" = false := Bool.eq_false_iff.mpr hjs
      rw [if_pos (by rw [hne, hjf]; rfl)]
      exact List.mem_append_left _ (List.mem_append_left _ hic)
  have h := docIds_intro2 df m f cs pa mr _ (memP_PKslot df m f cs pa mr _ hmem)
  rw [← icPre v]
  exact h

theorem docIds_PK (df : DF) (m : Meta) (f : String) (cs : Nat) (pa : Bool) (mr : Nat)
    (hj : hasFmt m "json" = false) (hne : m.identifier_vars.isEmpty = false) :
    ("#primaryKey" : String) ∈ docIds (generate_complete_json_ld df m f cs pa mr) := by
  have hmem : (⟨"#primaryKey", "PrimaryKey",
      [("isComposedOf", .strs ((m.identifier_vars.filter
          (fun v => m.column_names.contains v)).map
          (fun v => "#primaryKeyComponent-" ++ v)))]⟩ : Node) ∈
      (if !m.identifier_vars.isEmpty && !hasFmt m "json" then
        generate_IdentifierComponent m ++ generate_PrimaryKey m ++
          generate_PrimaryKeyComponent m
       else if !m.identifier_vars.isEmpty && hasFmt m "json" then
        generate_IdentifierComponent m
       else []) := by
    rw [if_pos (by rw [hne, hj]; rfl)]
    apply List.mem_append_left
    apply List.mem_append_right
    unfold generate_PrimaryKey
    rw [hne]
    exact List.mem_singleton.mpr rfl
  exact docIds_intro2 df m f cs pa mr _ (memP_PKslot df m f cs pa mr _ hmem)

theorem docIds_PKC (df : DF) (m : Meta) (f : String) (cs : Nat) (pa : Bool) (mr : Nat)
    (hj : hasFmt m "json" = false)
    (v : String) (hv : v ∈ m.identifier_vars) (hc : m.column_names.contains v = true) :
    ("#primaryKeyComponent-" ++ v) ∈
      docIds (generate_complete_json_ld df m f cs pa mr) := by
  have hne : m.identifier_vars.isEmpty = false := isEmpty_false_of_mem hv
  have hmem : (⟨"#primaryKeyComponent-" ++ v, "PrimaryKeyComponent",
      [("correspondsTo_DataStructureComponent",
        .s ("#identifierComponent-" ++ v))]⟩ : Node) ∈
      (if !m.identifier_vars.isEmpty && !hasFmt m "json" then
        generate_IdentifierComponent m ++ generate_PrimaryKey m ++
          generate_PrimaryKeyComponent m
       else if !m.identifier_vars.isEmpty && hasFmt m "json" then
        generate_IdentifierComponent m
       else []) := by
    rw [if_pos (by rw [hne, hj]; rfl)]
    apply List.mem_append_right
    unfold generate_PrimaryKeyComponent
    rw [hne]
    exact List.mem_map.mpr ⟨v, List.mem_filter.mpr ⟨hv, hc⟩, rfl⟩
  exact docIds_intro2 df m f cs pa mr _ (memP_PKslot df m f cs pa mr _ hmem)

theorem docIds_AC (df : DF) (m : Meta) (f : String) (cs : Nat) (pa : Bool) (mr : Nat)
    (v : String) (hv : v ∈ m.attribute_vars) (hc : m.column_names.contains v = true) :
    ("#attributeComponent-" ++ v) ∈
      docIds (generate_complete_json_ld df m f cs pa mr) := by
  have hne : m.attribute_vars.isEmpty = false := isEmpty_false_of_mem hv
  have hmem : (⟨"#attributeComponent-" ++ v, "AttributeComponent",
      [("isDefinedBy_RepresentedVariable", .s ("#instanceVariable-" ++ v))]⟩ : Node) ∈
      (if !m.attribute_vars.isEmpty then generate_AttributeComponent m else []) := by
    rw [if_pos (by rw [hne]; rfl)]
    unfold generate_AttributeComponent
    exact List.mem_map.mpr ⟨v, List.mem_filter.mpr ⟨hv, hc⟩, rfl⟩
  exact docIds_intro2 df m f cs pa mr _ (memP_ACif df m f cs pa mr _ hmem)

theorem docIds_CP (df : DF) (m : Meta) (f : String) (cs : Nat) (pa : Bool) (mr : Nat)
    (j : Nat) (hjlt : j < (m.column_names.flatMap (cpRefsFor m)).length) :
    ("#componentPosition-" ++ decRepr j) ∈
      docIds (generate_complete_json_ld df m f cs pa mr) := by
  obtain ⟨x, hx⟩ := enumFrom_get_mem (m.column_names.flatMap (cpRefsFor m)) 0 j hjlt
  rw [Nat.zero_add] at hx
  have hmem : (⟨"#componentPosition-" ++ decRepr j, "ComponentPosition",
      [("value", .n j), ("indexes", .s x)]⟩ : Node) ∈
      generate_ComponentPosition m := by
    unfold generate_ComponentPosition
    exact List.mem_map.mpr ⟨(j, x), hx, rfl⟩
  exact docIds_intro2 df m f cs pa mr _ (memP_CP df m f cs pa mr _ hmem)

theorem contains_of_mem {l : List String} {v : String} (h : v ∈ l) :
    l.contains v = true := List.elem_eq_true_of_mem h

theorem mem_of_contains {l : List String} {v : String} (h : l.contains v = true) :
    v ∈ l := List.mem_of_elem_eq_true h

theorem length_flatMap_sum {α β : Type} (f : α → List β) (l : List α) :
    (l.flatMap f).length = (l.map (fun a => (f a).length)).sum := by
  induction l with
  | nil => rfl
  | cons a t ih =>
    show ((f a) ++ t.flatMap f).length = _
    rw [List.length_append, ih]
    rfl

theorem amem_of_ranges_ne_nil2 {m : Meta} {v : String}
    (h : numericRangesOf m v ≠ []) : amem m.missing_ranges v = true := by
  unfold numericRangesOf at h
  unfold amem
  cases hc : alookup m.missing_ranges v with
  | none => rw [hc] at h; simp at h
  | some _ => rfl

/-- The chunk-path value-domain choice is one of the two per-variable
domains, and the sentinel choice implies the variable carries missing
ranges. -/
theorem chunkDomain_cases (v : String) (hm : Bool) (nr : List MRange) (b : Bool)
    (c : PyScalar) :
    chunkCellDomain v hm nr b c = "#substantiveValueDomain-" ++ v ∨
    (chunkCellDomain v hm nr b c = "#sentinelValueDomain-" ++ v ∧
      (hm = true ∨ nr ≠ [])) := by
  unfold chunkCellDomain
  split_ifs with h1 h2 h3
  · refine Or.inr ⟨rfl, Or.inr ?_⟩
    intro hnil
    rw [hnil] at h1
    simp at h1
  · exact Or.inl rfl
  · rcases Bool.and_eq_true _ _ |>.mp h3 with ⟨hm', _⟩
    exact Or.inr ⟨rfl, Or.inl hm'⟩
  · exact Or.inl rfl

/-- Every ComponentPosition indexes-reference resolves on the tabular
(non-json, non-netcdf) path when every referenced role variable exists. -/
theorem cp_ref_resolves (df : DF) (m : Meta) (f : String) (cs : Nat) (mr : Nat)
    (hj : hasFmt m "json" = false) (hn : hasFmt m "netcdf" = false)
    (v : String) (hv : v ∈ m.column_names)
    (r : String) (hr : r ∈ cpRefsFor m v) :
    r ∈ docIds (generate_complete_json_ld df m f cs true mr) := by
  unfold cpRefsFor at hr
  rw [hj] at hr
  simp only [Bool.false_eq_true, if_false] at hr
  rcases List.mem_append.mp hr with h1 | h1
  · rcases List.mem_append.mp h1 with h2 | h2
    · cases hid : m.identifier_vars.contains v with
      | false => rw [hid] at h2; simp at h2
      | true =>
        rw [hid] at h2
        simp only [if_true] at h2
        rw [List.mem_singleton.mp h2]
        exact docIds_IC df m f cs true mr hn v (mem_of_contains hid)
          (contains_of_mem hv)
    · cases hat : m.attribute_vars.contains v with
      | false => rw [hat] at h2; simp at h2
      | true =>
        rw [hat] at h2
        simp only [if_true] at h2
        rw [List.mem_singleton.mp h2]
        exact docIds_AC df m f cs true mr v (mem_of_contains hat)
          (contains_of_mem hv)
  · cases hme : m.measure_vars.contains v with
    | false => rw [hme] at h1; simp at h1
    | true =>
      rw [hme] at h1
      simp only [if_true] at h1
      rw [List.mem_singleton.mp h1]
      exact docIds_MC df m f cs true mr hj hn v (mem_of_contains hme)
        (contains_of_mem hv)

/-- Every has_DataStructureComponent reference resolves on the tabular
path when the variable carries an explicit role. -/
theorem dsc_ref_resolves (df : DF) (m : Meta) (f : String) (cs : Nat) (mr : Nat)
    (hj : hasFmt m "json" = false) (hn : hasFmt m "netcdf" = false)
    (v : String) (hv : v ∈ m.column_names)
    (hrole : m.identifier_vars.contains v = true ∨
      m.attribute_vars.contains v = true ∨ m.measure_vars.contains v = true)
    (r : String) (hr : r ∈ dscRefsFor m v) :
    r ∈ docIds (generate_complete_json_ld df m f cs true mr) := by
  unfold dscRefsFor at hr
  rw [hj, hn] at hr
  simp only [Bool.false_eq_true, if_false] at hr
  rcases List.mem_append.mp hr with h1 | h1
  · rcases List.mem_append.mp h1 with h2 | h2
    · cases hid : m.identifier_vars.contains v with
      | false => rw [hid] at h2; simp at h2
      | true =>
        rw [hid] at h2
        simp only [if_true] at h2
        rw [List.mem_singleton.mp h2, icPre v]
        exact docIds_IC df m f cs true mr hn v (mem_of_contains hid)
          (contains_of_mem hv)
    · cases hat : m.attribute_vars.contains v with
      | false => rw [hat] at h2; simp at h2
      | true =>
        rw [hat] at h2
        simp only [if_true] at h2
        rw [List.mem_singleton.mp h2]
        exact docIds_AC df m f cs true mr v (mem_of_contains hat)
          (contains_of_mem hv)
  · cases hme : m.measure_vars.contains v with
    | true =>
      rw [hme] at h1
      simp only [if_true] at h1
      rw [List.mem_singleton.mp h1, mcPre v]
      exact docIds_MC df m f cs true mr hj hn v (mem_of_contains hme)
        (contains_of_mem hv)
    | false =>
      rw [hme] at h1
      cases hid : m.identifier_vars.contains v with
      | true => rw [hid] at h1; simp at h1
      | false =>
        rw [hid] at h1
        cases hat : m.attribute_vars.contains v with
        | true => rw [hat] at h1; simp at h1
        | false =>
          rw [hat] at h1
          rcases hrole with h | h | h
          · rw [hid] at h; cases h
          · rw [hat] at h; cases h
          · rw [hme] at h; cases h

theorem cpFlat_len (m : Meta)
    (hrole : ∀ v ∈ m.column_names, m.identifier_vars.contains v = true ∨
      m.attribute_vars.contains v = true ∨ m.measure_vars.contains v = true) :
    (m.column_names.flatMap (cpRefsFor m)).length =
      (m.column_names.map (dscCountFor m)).sum := by
  rw [length_flatMap_sum]
  apply congrArg List.sum
  apply List.map_congr_left
  intro v hv
  have hor : hasFmt m "json" = true ∨ (m.identifier_vars.contains v ||
      m.attribute_vars.contains v || m.measure_vars.contains v) = true := by
    refine Or.inr ?_
    rcases hrole v hv with h | h | h
    · rw [h, Bool.true_or, Bool.true_or]
    · rw [h, Bool.or_true, Bool.true_or]
    · rw [h, Bool.or_true]
  obtain ⟨h1, h2⟩ := cp_dsc_len_eq m v hor
  exact h1.trans h2

/-- C3: amended referential-integrity theorem. On the tabular path (not
json, not netcdf), with every column present in the dataframe, every
column carrying an explicit identifier, attribute or measure role, the
enumeration-domain and concept-scheme top lists nonempty where their
domains are emitted, and user-missing values only present alongside
missing ranges, every id referenced from any node attribute of the
generated document resolves to a node id of the same document. -/
theorem claim3_amended (df : DF) (m : Meta) (f : String) (cs mr : Nat)
    (hj : hasFmt m "json" = false) (hn : hasFmt m "netcdf" = false)
    (hwf : df.Wf)
    (hpres : ∀ v ∈ m.column_names, (alookup df.cols v).isSome = true)
    (hrole : ∀ v ∈ m.column_names, m.identifier_vars.contains v = true ∨
      m.attribute_vars.contains v = true ∨ m.measure_vars.contains v = true)
    (hsed : ∀ v ∈ m.column_names, amem m.variable_value_labels v = true →
      (sedTop m v).isEmpty = false)
    (hscs : ∀ p ∈ m.variable_value_labels, (scsTop m p.1 p.2).isEmpty = false)
    (hsntop : ∀ v ∈ sentinelKeys m, amem m.variable_value_labels v = true →
      (sentinelTop m v).isEmpty = false)
    (huv : m.missing_user_values = [] ∨ m.missing_ranges ≠ []) :
    ∀ r ∈ docRefs (generate_complete_json_ld df m f cs true mr),
      r ∈ docIds (generate_complete_json_ld df m f cs true mr) := by
  intro r hr
  obtain ⟨nd, hnd, hrn⟩ := List.mem_flatMap.mp hr
  rw [mem_doc_iff_components] at hnd
  rcases (mem_pipeline_iff df m f cs true mr nd).mp hnd with
    h | h | h | h | h | h | h | h | h | h | h | h | h | h | h | h | h | h | h | h | h | h | h | h | h | h | h | h
  · -- PhysicalDataset
    unfold generate_PhysicalDataset at h
    rw [List.mem_singleton] at h
    subst h
    replace hrn : r ∈ [datasetRef m, "#dataStore", "#physicalRecordSegment"] := hrn
    rcases List.mem_cons.mp hrn with rfl | hrn
    · exact docIds_DDSet df m f cs true mr
    rcases List.mem_cons.mp hrn with rfl | hrn
    · exact docIds_DS df m f cs true mr
    rw [List.mem_singleton.mp hrn]
    exact docIds_PRS df m f cs true mr
  · -- PhysicalRecordSegment
    rw [dfLimited_true] at h
    unfold generate_PhysicalRecordSegment at h
    rw [List.mem_singleton] at h
    subst h
    replace hrn : r ∈ "#logicalRecord" :: "#physicalSegmentLayout" ::
      (m.column_names.flatMap (fun v => (List.range (df.col v).cells.length).map
        (fun i => "#dataPointPosition-" ++ decRepr i ++ "-" ++ v)) ++ []) := hrn
    rcases List.mem_cons.mp hrn with rfl | hrn
    · exact docIds_LR df m f cs true mr
    rcases List.mem_cons.mp hrn with rfl | hrn
    · exact docIds_PSL df m f cs true mr
    rw [List.append_nil] at hrn
    obtain ⟨v, hv, h2⟩ := List.mem_flatMap.mp hrn
    obtain ⟨i, hi, rfl⟩ := List.mem_map.mp h2
    have hilt : i < df.nrows := by
      have := List.mem_range.mp hi
      rw [col_len df v hwf (hpres v hv)] at this
      exact this
    exact docIds_DPP df m f cs mr v hv i hilt
  · -- PhysicalSegmentLayout
    simp only [generate_PhysicalSegmentLayout, List.mem_singleton] at h
    subst h
    replace hrn : r ∈ "#logicalRecord" ::
      (m.column_names.map (fun v => "#valueMappingPosition-" ++ v) ++ []) := hrn
    rcases List.mem_cons.mp hrn with rfl | hrn
    · exact docIds_LR df m f cs true mr
    rw [List.append_nil] at hrn
    obtain ⟨v, hv, rfl⟩ := List.mem_map.mp hrn
    exact docIds_VMP df m f cs true mr v hv
  · -- rowVMNodes
    rw [rowVM_canon] at h
    simp only [generate_ValueMapping] at h
    obtain ⟨v, hv, rfl⟩ := List.mem_map.mp h
    replace hrn : r ∈ (List.range (rowWindow df true 0)).map
      (fun i => "#dataPoint-" ++ decRepr i ++ "-" ++ v) ++ [] := hrn
    rw [List.append_nil] at hrn
    obtain ⟨i, hi, rfl⟩ := List.mem_map.mp hrn
    exact docIds_DP df m f cs mr v hv i (List.mem_range.mp hi)
  · -- ValueMappingPosition
    unfold generate_ValueMappingPosition at h
    obtain ⟨p, hp, rfl⟩ := List.mem_map.mp h
    replace hrn : r ∈ ["#valueMapping-" ++ p.2] := hrn
    rw [List.mem_singleton.mp hrn]
    exact docIds_VM df m f cs mr p.2 (mem_enumFrom p m.column_names 0 hp).2.2
  · -- rowDPNodes
    rw [rowDP_canon] at h
    simp only [generate_DataPoint] at h
    obtain ⟨v, hv, h2⟩ := List.mem_flatMap.mp h
    obtain ⟨i, hi, rfl⟩ := List.mem_map.mp h2
    replace hrn : r ∈ ["#instanceVariable-" ++ v, datasetRef m] := hrn
    rcases List.mem_cons.mp hrn with rfl | hrn
    · exact docIds_IVar df m f cs true mr v hv
    rw [List.mem_singleton.mp hrn]
    exact docIds_DDSet df m f cs true mr
  · -- rowDPPNodes
    rw [rowDPP_canon] at h
    simp only [generate_DataPointPosition] at h
    obtain ⟨v, hv, h2⟩ := List.mem_flatMap.mp h
    obtain ⟨i, hi, rfl⟩ := List.mem_map.mp h2
    replace hrn : r ∈ ["#dataPoint-" ++ decRepr i ++ "-" ++ v] := hrn
    rw [List.mem_singleton.mp hrn]
    exact docIds_DP df m f cs mr v hv i (List.mem_range.mp hi)
  · -- rowIVNodes
    unfold rowIVNodes at h
    by_cases hch : chunkedPathB df cs true = true
    · rw [if_pos hch] at h
      unfold chunkInstanceValues at h
      obtain ⟨ci, hci, h2⟩ := List.mem_flatMap.mp h
      obtain ⟨v, hv, h3⟩ := List.mem_flatMap.mp h2
      simp only [chunkBlock] at h3
      obtain ⟨p, hp, rfl⟩ := List.mem_map.mp h3
      have hlen := (mem_enumFrom p _ 0 hp).2.1
      rw [Nat.sub_zero, toNumericIgnore_length, slice_col, List.length_drop,
        List.length_take, col_len df v hwf (hpres v hv)] at hlen
      have hidx : ci * cs + p.1 < df.nrows := by omega
      replace hrn : r ∈ ["#dataPoint-" ++ decRepr (ci * cs + p.1) ++ "-" ++ v,
        chunkCellDomain v (amem m.missing_ranges v) (numericRangesOf m v)
          (toNumericIgnore
            ((df.slice (ci * cs) (min (ci * cs + cs) df.nrows)).col v)).numericDtype
          p.2] := hrn
      rcases List.mem_cons.mp hrn with rfl | hrn
      · exact docIds_DP df m f cs mr v hv _ hidx
      rw [List.mem_singleton.mp hrn]
      rcases chunkDomain_cases v (amem m.missing_ranges v) (numericRangesOf m v)
        (toNumericIgnore
          ((df.slice (ci * cs) (min (ci * cs + cs) df.nrows)).col v)).numericDtype
        p.2 with hd | ⟨hd, hor⟩
      · rw [hd]
        exact docIds_SVD df m f cs true mr v hv
      · rw [hd]
        have hsm : amem m.missing_ranges v = true := by
          rcases hor with h' | h'
          · exact h'
          · exact amem_of_ranges_ne_nil2 h'
        exact docIds_SnVD df m f cs true mr v (mem_sentinelKeys_of_amem_mr m v hsm)
    · rw [if_neg hch, dfLimited_true] at h
      simp only [generate_InstanceValue] at h
      obtain ⟨v, hv, h2⟩ := List.mem_flatMap.mp h
      obtain ⟨p, hp, rfl⟩ := List.mem_map.mp h2
      have hlen := (mem_enumFrom p _ 0 hp).2.1
      have hlen2 : p.1 < min (rowWindow df true mr) (df.col v).cells.length := by
        simpa [headRows_col, List.length_take] using hlen
      have hrw : rowWindow df true mr = df.nrows := rfl
      rw [hrw, col_len df v hwf (hpres v hv)] at hlen2
      have hidx : p.1 < df.nrows := by omega
      replace hrn : r ∈ ["#dataPoint-" ++ decRepr p.1 ++ "-" ++ v,
        if (amem m.missing_ranges v && !(numericRangesOf m v).isEmpty &&
            ivSentinel (numericRangesOf m v) p.2) = true then
          "#sentinelValueDomain-" ++ v
        else "#substantiveValueDomain-" ++ v] := hrn
      rcases List.mem_cons.mp hrn with rfl | hrn
      · exact docIds_DP df m f cs mr v hv p.1 hidx
      rw [List.mem_singleton] at hrn
      by_cases hcond : (amem m.missing_ranges v && !(numericRangesOf m v).isEmpty &&
          ivSentinel (numericRangesOf m v) p.2) = true
      · rw [if_pos hcond] at hrn
        rw [hrn]
        obtain ⟨hab, _⟩ := Bool.and_eq_true _ _ |>.mp hcond
        obtain ⟨ha, _⟩ := Bool.and_eq_true _ _ |>.mp hab
        exact docIds_SnVD df m f cs true mr v (mem_sentinelKeys_of_amem_mr m v ha)
      · rw [if_neg hcond] at hrn
        rw [hrn]
        exact docIds_SVD df m f cs true mr v hv
  · -- DataStore
    unfold generate_DataStore at h
    rw [List.mem_singleton] at h
    subst h
    replace hrn : r ∈ ["#logicalRecord"] := hrn
    rw [List.mem_singleton.mp hrn]
    exact docIds_LR df m f cs true mr
  · -- LogicalRecord
    unfold generate_LogicalRecord at h
    rw [List.mem_singleton] at h
    subst h
    replace hrn : r ∈ datasetRef m ::
      (m.column_names.map (fun v => "#instanceVariable-" ++ v) ++ []) := hrn
    rcases List.mem_cons.mp hrn with rfl | hrn
    · exact docIds_DDSet df m f cs true mr
    rw [List.append_nil] at hrn
    obtain ⟨v, hv, rfl⟩ := List.mem_map.mp hrn
    exact docIds_IVar df m f cs true mr v hv
  · -- DimensionalDataSet
    unfold generate_DimensionalDataSet at h
    rw [List.mem_singleton] at h
    subst h
    replace hrn : r ∈ [structureRef m] := hrn
    rw [List.mem_singleton.mp hrn]
    exact docIds_DDStr df m f cs true mr
  · -- DimensionalDataStructure
    simp only [generate_DimensionalDataStructure, List.mem_singleton] at h
    subst h
    by_cases hg : (!m.identifier_vars.isEmpty && !hasFmt m "json") = true
    · rw [if_pos hg] at hrn
      replace hrn : r ∈ m.column_names.flatMap (dscRefsFor m) ++
        ((List.range ((m.column_names.map (dscCountFor m)).sum)).map
          (fun i => "#componentPosition-" ++ decRepr i) ++ ["#primaryKey"]) := hrn
      rcases List.mem_append.mp hrn with h1 | h1
      · obtain ⟨v, hv, hr2⟩ := List.mem_flatMap.mp h1
        exact dsc_ref_resolves df m f cs mr hj hn v hv (hrole v hv) r hr2
      rcases List.mem_append.mp h1 with h2 | h2
      · obtain ⟨i, hi, rfl⟩ := List.mem_map.mp h2
        have hi2 : i < (m.column_names.flatMap (cpRefsFor m)).length := by
          rw [cpFlat_len m hrole]
          exact List.mem_range.mp hi
        exact docIds_CP df m f cs true mr i hi2
      rw [List.mem_singleton.mp h2]
      obtain ⟨hid, _⟩ := Bool.and_eq_true _ _ |>.mp hg
      have hidne : m.identifier_vars.isEmpty = false := by
        cases hh : m.identifier_vars.isEmpty
        · rfl
        · rw [hh] at hid
          exact absurd hid (by decide)
      exact docIds_PK df m f cs true mr hj hidne
    · rw [if_neg hg] at hrn
      replace hrn : r ∈ m.column_names.flatMap (dscRefsFor m) ++
        ((List.range ((m.column_names.map (dscCountFor m)).sum)).map
          (fun i => "#componentPosition-" ++ decRepr i) ++ []) := hrn
      rcases List.mem_append.mp hrn with h1 | h1
      · obtain ⟨v, hv, hr2⟩ := List.mem_flatMap.mp h1
        exact dsc_ref_resolves df m f cs mr hj hn v hv (hrole v hv) r hr2
      rw [List.append_nil] at h1
      obtain ⟨i, hi, rfl⟩ := List.mem_map.mp h1
      have hi2 : i < (m.column_names.flatMap (cpRefsFor m)).length := by
        rw [cpFlat_len m hrole]
        exact List.mem_range.mp hi
      exact docIds_CP df m f cs true mr i hi2
  · -- MeasureComponent
    unfold generate_MeasureComponent at h
    rw [hj, hn] at h
    simp only [Bool.false_eq_true, if_false] at h
    by_cases hme : m.measure_vars.isEmpty = true
    · rw [if_neg (show ¬((!m.measure_vars.isEmpty) = true) by rw [hme]; decide)] at h
      obtain ⟨v, hvf, rfl⟩ := List.mem_map.mp h
      replace hrn : r ∈ ["#instanceVariable-" ++ v] := hrn
      rw [List.mem_singleton.mp hrn]
      exact docIds_IVar df m f cs true mr v (List.mem_filter.mp hvf).1
    · have hme' : (!m.measure_vars.isEmpty) = true := by
        cases hh : m.measure_vars.isEmpty
        · rfl
        · exact absurd hh hme
      rw [if_pos hme'] at h
      obtain ⟨v, hvf, rfl⟩ := List.mem_map.mp h
      replace hrn : r ∈ ["#instanceVariable-" ++ v] := hrn
      rw [List.mem_singleton.mp hrn]
      exact docIds_IVar df m f cs true mr v (mem_of_contains (List.mem_filter.mp hvf).2)
  · -- InstanceVariable
    simp only [generate_InstanceVariable] at h
    obtain ⟨v, hv, rfl⟩ := List.mem_map.mp h
    by_cases hg : (amem m.missing_ranges v ||
        (m.missing_ranges.isEmpty && amem m.missing_user_values v)) = true
    · rw [if_pos hg] at hrn
      replace hrn : r ∈ ["#physicalSegmentLayout", "#valueMapping-" ++ v,
        "#substantiveValueDomain-" ++ v, "#sentinelValueDomain-" ++ v] := hrn
      rcases List.mem_cons.mp hrn with rfl | hrn
      · exact docIds_PSL df m f cs true mr
      rcases List.mem_cons.mp hrn with rfl | hrn
      · exact docIds_VM df m f cs mr v hv
      rcases List.mem_cons.mp hrn with rfl | hrn
      · exact docIds_SVD df m f cs true mr v hv
      rw [List.mem_singleton.mp hrn]
      have hvs : v ∈ sentinelKeys m := by
        rcases Bool.or_eq_true _ _ |>.mp hg with h' | h'
        · exact mem_sentinelKeys_of_amem_mr m v h'
        · obtain ⟨he, hu⟩ := Bool.and_eq_true _ _ |>.mp h'
          exact mem_sentinelKeys_of_amem_mu m v (List.isEmpty_iff.mp he) hu
      exact docIds_SnVD df m f cs true mr v hvs
    · rw [if_neg hg] at hrn
      replace hrn : r ∈ ["#physicalSegmentLayout", "#valueMapping-" ++ v,
        "#substantiveValueDomain-" ++ v] := hrn
      rcases List.mem_cons.mp hrn with rfl | hrn
      · exact docIds_PSL df m f cs true mr
      rcases List.mem_cons.mp hrn with rfl | hrn
      · exact docIds_VM df m f cs mr v hv
      rw [List.mem_singleton.mp hrn]
      exact docIds_SVD df m f cs true mr v hv
  · -- SubstantiveValueDomain
    simp only [generate_SubstantiveValueDomain] at h
    obtain ⟨v, hv, rfl⟩ := List.mem_map.mp h
    by_cases hg : amem m.variable_value_labels v = true
    · rw [if_pos hg] at hrn
      replace hrn : r ∈ ["#substantiveValueAndConceptDescription-" ++ v,
        "#substantiveEnumerationDomain-" ++ v] := hrn
      rcases List.mem_cons.mp hrn with rfl | hrn
      · exact docIds_VaCD_sub df m f cs true mr v hv
      rw [List.mem_singleton.mp hrn]
      exact docIds_SED df m f cs true mr v hv hg (hsed v hv hg)
    · rw [if_neg hg] at hrn
      replace hrn : r ∈ ["#substantiveValueAndConceptDescription-" ++ v] := hrn
      rw [List.mem_singleton.mp hrn]
      exact docIds_VaCD_sub df m f cs true mr v hv
  · -- SubstantiveEnumerationDomain
    unfold generate_SubstantiveEnumerationDomain at h
    obtain ⟨v, hv, h2⟩ := List.mem_flatMap.mp h
    by_cases hl : amem m.variable_value_labels v = true
    · rw [if_pos hl] at h2
      by_cases ht : (!(sedTop m v).isEmpty) = true
      · rw [if_pos ht] at h2
        rw [List.mem_singleton] at h2
        subst h2
        replace hrn : r ∈ ["#substantiveConceptScheme-" ++ v] := hrn
        rw [List.mem_singleton.mp hrn]
        unfold amem at hl
        cases hc : alookup m.variable_value_labels v with
        | none => rw [hc] at hl; simp at hl
        | some vd =>
          have hp : (v, vd) ∈ m.variable_value_labels := alookup_some_mem hc
          exact docIds_SCS df m f cs true mr (v, vd) hp (hscs (v, vd) hp)
      · rw [if_neg ht] at h2
        cases h2
    · rw [if_neg hl] at h2
      cases h2
  · -- SentinelValueDomain
    simp only [generate_SentinelValueDomain] at h
    obtain ⟨v, hvk, rfl⟩ := List.mem_map.mp h
    have hvs : v ∈ sentinelKeys m := hvk
    by_cases hl : amem m.variable_value_labels v = true
    · rw [if_pos hl] at hrn
      replace hrn : r ∈ ["#sentinelValueAndConceptDescription-" ++ v,
        "#sentinelEnumerationDomain-" ++ v] := hrn
      rcases List.mem_cons.mp hrn with rfl | hrn
      · exact docIds_VaCD_sen df m f cs true mr v hvs
      rw [List.mem_singleton.mp hrn]
      exact docIds_SnED df m f cs true mr v hvs hl
    · rw [if_neg hl] at hrn
      replace hrn : r ∈ ["#sentinelValueAndConceptDescription-" ++ v] := hrn
      rw [List.mem_singleton.mp hrn]
      exact docIds_VaCD_sen df m f cs true mr v hvs
  · -- SentinelEnumerationDomain
    simp only [generate_SentinelEnumerationDomain] at h
    obtain ⟨v, hvk, h2⟩ := List.mem_flatMap.mp h
    have hvs : v ∈ sentinelKeys m := hvk
    by_cases hl : amem m.variable_value_labels v = true
    · rw [if_pos hl] at h2
      rw [List.mem_singleton] at h2
      subst h2
      replace hrn : r ∈ ["#sentinelConceptScheme-" ++ v] := hrn
      rw [List.mem_singleton.mp hrn]
      exact docIds_SnCS df m f cs true mr v hvs hl (hsntop v hvs hl)
    · rw [if_neg hl] at h2
      cases h2
  · -- ValueAndConceptDescription
    simp only [generate_ValueAndConceptDescription] at h
    rcases List.mem_append.mp h with h1 | h1
    · obtain ⟨v, hv, rfl⟩ := List.mem_map.mp h1
      replace hrn : r ∈ ([] : List String) := hrn
      cases hrn
    · by_cases hmr : (!m.missing_ranges.isEmpty) = true
      · rw [if_pos hmr] at h1
        obtain ⟨p, hp, rfl⟩ := List.mem_map.mp h1
        replace hrn : r ∈ ([] : List String) := hrn
        cases hrn
      · rw [if_neg hmr] at h1
        obtain ⟨p, hp, rfl⟩ := List.mem_map.mp h1
        replace hrn : r ∈ ([] : List String) := hrn
        cases hrn
  · -- SubstantiveConceptScheme
    simp only [generate_SubstantiveConceptScheme] at h
    obtain ⟨p, hp, h2⟩ := List.mem_flatMap.mp h
    by_cases ht : (!(scsTop m p.1 p.2).isEmpty) = true
    · rw [if_pos ht] at h2
      rw [List.mem_singleton] at h2
      subst h2
      replace hrn : r ∈ scsTop m p.1 p.2 ++ [] := hrn
      rw [List.append_nil] at hrn
      simp only [scsTop] at hrn
      obtain ⟨q, hqf, rfl⟩ := List.mem_map.mp hrn
      exact docIds_Concept df m f cs true mr p hp q (List.mem_filter.mp hqf).1
    · rw [if_neg ht] at h2
      cases h2
  · -- SentinelConceptScheme
    simp only [generate_SentinelConceptScheme] at h
    obtain ⟨v, hvk, h2⟩ := List.mem_flatMap.mp h
    by_cases hl : amem m.variable_value_labels v = true
    · rw [if_pos hl] at h2
      by_cases ht : (!(sentinelTop m v).isEmpty) = true
      · rw [if_pos ht] at h2
        rw [List.mem_singleton] at h2
        subst h2
        replace hrn : r ∈ sentinelTop m v ++ [] := hrn
        rw [List.append_nil] at hrn
        by_cases hmr : (!m.missing_ranges.isEmpty) = true
        · have hrn2 : r ∈ ((alookup m.variable_value_labels v).getD []).flatMap
              (fun p => ((alookup m.missing_ranges v).getD []).flatMap (fun rr =>
                if (pyLeB rr.lo p.1 && pyLeB p.1 rr.hi) = true then
                  ["#" ++ v ++ "-concept-" ++ pyStr p.1]
                else [])) := by
            have hx := hrn
            simp only [sentinelTop] at hx
            rw [if_pos hmr] at hx
            exact hx
          obtain ⟨p, hpl, h3⟩ := List.mem_flatMap.mp hrn2
          obtain ⟨rr, hrr, h4⟩ := List.mem_flatMap.mp h3
          by_cases hc : (pyLeB rr.lo p.1 && pyLeB p.1 rr.hi) = true
          · rw [if_pos hc] at h4
            rw [List.mem_singleton.mp h4]
            unfold amem at hl
            cases hcv : alookup m.variable_value_labels v with
            | none => rw [hcv] at hl; simp at hl
            | some vd =>
              rw [hcv] at hpl
              exact docIds_Concept df m f cs true mr (v, vd)
                (alookup_some_mem hcv) p hpl
          · rw [if_neg hc] at h4
            cases h4
        · have hmre : m.missing_ranges.isEmpty = true := by
            cases hh : m.missing_ranges.isEmpty
            · exact absurd (by rw [hh]; decide) hmr
            · rfl
          have hmnil : m.missing_ranges = [] := List.isEmpty_iff.mp hmre
          have hunil : m.missing_user_values = [] := by
            rcases huv with h' | h'
            · exact h'
            · exact absurd hmnil h'
          rw [if_neg hmr, hunil] at hvk
          simp [akeys] at hvk
      · rw [if_neg ht] at h2
        cases h2
    · rw [if_neg hl] at h2
      cases h2
  · -- Concept
    unfold generate_Concept at h
    obtain ⟨p, hp, h2⟩ := List.mem_flatMap.mp h
    obtain ⟨q, hq, rfl⟩ := List.mem_map.mp h2
    replace hrn : r ∈ ([] : List String) := hrn
    cases hrn
  · -- IdentifierComponent / PrimaryKey / PrimaryKeyComponent slot
    by_cases hg1 : (!m.identifier_vars.isEmpty && !hasFmt m "json") = true
    · rw [if_pos hg1] at h
      rcases List.mem_append.mp h with h1 | h1
      · rcases List.mem_append.mp h1 with h2 | h2
        · simp only [generate_IdentifierComponent] at h2
          obtain ⟨v, hvf, rfl⟩ := List.mem_map.mp h2
          replace hrn : r ∈ ["#instanceVariable-" ++ v] := hrn
          rw [List.mem_singleton.mp hrn]
          exact docIds_IVar df m f cs true mr v
            (mem_of_contains (List.mem_filter.mp hvf).2)
        · unfold generate_PrimaryKey at h2
          obtain ⟨hid, _⟩ := Bool.and_eq_true _ _ |>.mp hg1
          rw [if_pos hid] at h2
          rw [List.mem_singleton] at h2
          subst h2
          replace hrn : r ∈ (m.identifier_vars.filter
            (fun v => m.column_names.contains v)).map
            (fun v => "#primaryKeyComponent-" ++ v) ++ [] := hrn
          rw [List.append_nil] at hrn
          obtain ⟨v, hvf, rfl⟩ := List.mem_map.mp hrn
          exact docIds_PKC df m f cs true mr hj v (List.mem_filter.mp hvf).1
            (List.mem_filter.mp hvf).2
      · unfold generate_PrimaryKeyComponent at h1
        obtain ⟨hid, _⟩ := Bool.and_eq_true _ _ |>.mp hg1
        rw [if_pos hid] at h1
        obtain ⟨v, hvf, rfl⟩ := List.mem_map.mp h1
        replace hrn : r ∈ ["#identifierComponent-" ++ v] := hrn
        rw [List.mem_singleton.mp hrn]
        exact docIds_IC df m f cs true mr hn v (List.mem_filter.mp hvf).1
          (List.mem_filter.mp hvf).2
    · rw [if_neg hg1] at h
      rw [if_neg (show ¬((!m.identifier_vars.isEmpty && hasFmt m "json") = true) by
        rw [hj]; simp)] at h
      cases h
  · -- AttributeComponent slot
    by_cases hg : (!m.attribute_vars.isEmpty) = true
    · rw [if_pos hg] at h
      unfold generate_AttributeComponent at h
      obtain ⟨v, hvf, rfl⟩ := List.mem_map.mp h
      replace hrn : r ∈ ["#instanceVariable-" ++ v] := hrn
      rw [List.mem_singleton.mp hrn]
      exact docIds_IVar df m f cs true mr v
        (mem_of_contains (List.mem_filter.mp hvf).2)
    · rw [if_neg hg] at h
      cases h
  · -- ContextualComponent slot (empty off the json path)
    by_cases hg : (!m.contextual_vars.isEmpty) = true
    · rw [if_pos hg] at h
      unfold generate_ContextualComponent at h
      rw [hj] at h
      simp only [Bool.false_eq_true, if_false] at h
      cases h
    · rw [if_neg hg] at h
      cases h
  · -- SyntheticIdComponent slot (empty off the json path)
    by_cases hg : (!m.synthetic_id_vars.isEmpty) = true
    · rw [if_pos hg] at h
      unfold generate_SyntheticIdComponent at h
      rw [hj] at h
      simp only [Bool.false_eq_true, if_false] at h
      cases h
    · rw [if_neg hg] at h
      cases h
  · -- VariableValue / VariableDescriptor slot (empty off the json path)
    by_cases hg : (!m.variable_value_vars.isEmpty) = true
    · rw [if_pos hg] at h
      rcases List.mem_append.mp h with h1 | h1
      · unfold generate_VariableValueComponent at h1
        rw [hj] at h1
        simp only [Bool.false_eq_true, if_false] at h1
        cases h1
      · unfold generate_VariableDescriptorComponent at h1
        rw [hj] at h1
        simp only [Bool.false_eq_true, if_false] at h1
        cases h1
    · rw [if_neg hg] at h
      cases h
  · -- ComponentPosition
    unfold generate_ComponentPosition at h
    obtain ⟨p, hp, rfl⟩ := List.mem_map.mp h
    replace hrn : r ∈ [p.2] := hrn
    rw [List.mem_singleton.mp hrn]
    obtain ⟨v, hv, hr2⟩ := List.mem_flatMap.mp (mem_enumFrom p _ 0 hp).2.2
    exact cp_ref_resolves df m f cs mr hj hn v hv p.2 hr2

/-- Tabular witness input for the amended C3 theorem: one measure-role
column, no value labels, no missing metadata. -/
def mC3w : Meta :=
  ⟨["a"], [], [], [], [], [], [], [], [], ["a"], [], [], [], [], none, none, 1⟩

def dfC3w : DF := ⟨1, [("a", ⟨true, [.int_ 1]⟩)]⟩

theorem dfC3w_wf : dfC3w.Wf := by
  intro p hp
  rw [List.mem_singleton.mp hp]
  rfl

theorem claim3_witness :
    dfC3w.Wf ∧
    (∀ r ∈ docRefs (generate_complete_json_ld dfC3w mC3w "t.sav" 10 true 5),
      r ∈ docIds (generate_complete_json_ld dfC3w mC3w "t.sav" 10 true 5)) :=
  ⟨dfC3w_wf, claim3_amended dfC3w mC3w "t.sav" 10 5 (by decide) (by decide)
    dfC3w_wf (by decide) (by decide) (by decide) (by decide) (by decide)
    (Or.inl rfl)⟩
